import Mathlib

/-!
# EternaVerseApp backend — verification of the simulation kernel

Shallow embedding of the cosmological-simulation kernel:

* `src/utils/anomalyGenerator.js` (class `AnomalyGenerator`)
* `src/utils/physicsEngine.js` (the enhanced `PhysicsEngine` variant, second
  class in the file)
* the end-condition checker (`EndConditions`)
* the universe routes (`POST /:id/simulate`, `POST /:id/resolve-anomaly`,
  `POST /:id/cleanup-anomalies`, `POST /` creation)

Conventions of the embedding:

* JS numbers are modelled as rationals (`ℚ`); exact arithmetic.
* Transcendental `Math.*` primitives (`exp`, `log`, `sqrt`, `cos`, `sin`,
  `Math.pow` at fixed fractional exponents, `log10`, `PI`) are abstracted into
  a `MathOps` parameter record, so every definition stays executable; theorems
  that need analytic facts about them take those facts as hypotheses.
* `seedrandom(seed)` / `seedrandom(seed + "_anomaly")` become streams
  `ℕ → ℚ` with a cursor (`Rng`); a fixed seed corresponds to a fixed stream.
* Ambient sources (`Date.now()` / `new Date()`, ambient `Math.random()`)
  become two further streams: a clock stream and an ambient-random stream.
  Every `new Date()` observation consumes the next clock value (modelled in
  milliseconds, as `Date.now()` is).
* Mongoose persistence, logging and `markModified` calls have no effect on
  the modelled state and are omitted.
-/

namespace EternaVerse

/-- `_clamp(v, min, max)` = `Math.max(min, Math.min(max, v))`
(both engine classes define it identically). -/
def clamp (v lo hi : ℚ) : ℚ := max lo (min hi v)

/-- `Math.floor` on a JS number, as a rational-valued floor. -/
def jsFloor (q : ℚ) : ℚ := (⌊q⌋ : ℚ)

/-- A pseudo-random stream with a cursor: `stream` is the sequence of values
the underlying generator would produce, `idx` how many have been consumed. -/
structure Rng where
  stream : ℕ → ℚ
  idx : ℕ

/-- Draw the next value (`this._rand()` / `this.rng()`). -/
def Rng.next (r : Rng) : ℚ × Rng := (r.stream r.idx, ⟨r.stream, r.idx + 1⟩)

/-- Every value the stream will ever produce lies in `[0,1)`, as
`seedrandom`'s doubles do. -/
def ValidStream (f : ℕ → ℚ) : Prop := ∀ n, 0 ≤ f n ∧ f n < 1

/-- Abstracted `Math.*` primitives, so the embedding stays executable. -/
structure MathOps where
  exp : ℚ → ℚ
  log : ℚ → ℚ
  sqrt : ℚ → ℚ
  cos : ℚ → ℚ
  sin : ℚ → ℚ
  pow07 : ℚ → ℚ
  log10 : ℚ → ℚ
  pi : ℚ

/-- `universe.status` (Mongoose enum `["running", "paused", "ended"]`). -/
inductive UStatus where
  | running
  | paused
  | ended
deriving DecidableEq

/-- `universe.difficulty`. -/
inductive Difficulty where
  | Beginner
  | Intermediate
  | Advanced
deriving DecidableEq

/-- `currentState.cosmicPhase` enum. -/
inductive CosmicPhase where
  | dark_ages
  | reionization
  | galaxy_formation
  | stellar_peak
  | gradual_decline
  | twilight_era
  | degenerate_era
deriving DecidableEq

/-- Civilization Kardashev type. -/
inductive CivType where
  | Type0
  | Type1
  | Type2
  | Type3
deriving DecidableEq

/-- Anomaly category enum. -/
inductive Category where
  | gravitational
  | cosmological
  | stellar
  | quantum
  | structural
  | electromagnetic
deriving DecidableEq

/-- The named numeric effects an anomaly's `effectsRaw` map can carry
(union of all keys produced by `getAnomalyTypes`); a missing key is `none`,
matching the `typeof effects.k === "number"` guards in
`applyAnomalyEffects`. -/
structure Effects where
  stabilityImpact : Option ℚ := none
  gravitationalWaveEnergy : Option ℚ := none
  expansionBoost : Option ℚ := none
  scaleFactorBump : Option ℚ := none
  metallicityIncrease : Option ℚ := none
  starDeathCount : Option ℚ := none
  energyRelease : Option ℚ := none
  localEntropyDecrease : Option ℚ := none
  quantumCoherence : Option ℚ := none
  starFormationBurst : Option ℚ := none
  blackHoleFormation : Option ℚ := none
  galaxyLoss : Option ℚ := none
  localExpansion : Option ℚ := none
  stellarWindDisruption : Option ℚ := none
  habitabilityReduction : Option ℚ := none
  entropy : Option ℚ := none
  gravitationalAnomaly : Option ℚ := none
  structureDistortion : Option ℚ := none
deriving DecidableEq

/-- An anomaly record. The string id
`` `${uni._id}_${Date.now()}_${Math.floor(Math.random()*1e6)}` `` produced by
the route's `anomalyIdFactory` is modelled by its two varying components:
the observed clock value (`idClock`) and `Math.floor(Math.random()*1e6)`
(`idRand`, from the ambient-random stream). -/
structure Anomaly where
  idClock : ℚ
  idRand : ℚ
  type : String
  category : Category
  severity : ℚ
  timestamp : ℚ
  resolved : Bool
  resolvedAt : Option ℚ
  effectsRaw : Effects
  locX : ℚ
  locY : ℚ
  locZ : ℚ
  radius : ℚ
  description : String
  decayRate : ℚ
deriving DecidableEq

/-- A civilization record (enhanced engine's `_spawnCivilizations` shape).
The id `` `civ_${Date.now()}_${this._rand().toString(36).substr(2, 9)}` ``
is modelled by its clock component and the physics-stream draw used for
the suffix. -/
structure Civilization where
  idClock : ℚ
  idRand : ℚ
  type : CivType
  createdAt : ℚ
  age : ℚ
  developmentLevel : ℚ
  technology : ℚ
  stability : ℚ
  population : ℚ
  resourceDepletion : ℚ
  warlikeness : ℚ
  extinct : Bool
  extinctionDate : Option ℚ
  extinctionAge : Option ℚ
deriving DecidableEq

/-- Payload of a significant event's `effects` field (shape depends on the
event kind in the source). -/
inductive EvEffects where
  | milestoneFx (description milestoneKey : String)
  | civFx (civIdClock civIdRand : ℚ) (description : String)
  | extinctionFx (civIdClock civIdRand : ℚ) (civType : CivType)
      (age technology : ℚ) (cause : String)
  | catastropheFx (civilizationsDestroyed : ℚ) (description : String)
  | anomalyFx (fx : Effects)
  | resolvedFx (anomIdClock anomIdRand : ℚ) (category : Category)
      (severityResolved stabilityBoost entropyReduction : ℚ)
  | emptyFx
deriving DecidableEq

/-- A `significantEvents` entry.  The source stores `ageGyr` as the string
`(age/1e9).toFixed(3)`; we keep the underlying rational. -/
structure SigEvent where
  timestamp : ℚ
  age : ℚ
  type : String
  description : String
  effects : EvEffects
  ageGyr : ℚ
deriving DecidableEq

/-- Milestone flags (enhanced engine defaults, including `greatFilter` and
`transcendence`). -/
structure Milestones where
  firstGalaxy : Bool
  firstStar : Bool
  firstLife : Bool
  firstCivilization : Bool
  stellarPopulationI : Bool
  complexLifeEra : Bool
  technologicalSingularity : Bool
  greatFilter : Bool
  transcendence : Bool
deriving DecidableEq

/-- `universe.metrics`. -/
structure Metrics where
  playerInterventions : ℚ
  anomalyResolutionRate : ℚ
  anomaliesResolved : ℚ
  stabilityScore : ℚ
  stabilityTrend : ℚ
  complexityIndex : ℚ
  lifePotentialIndex : ℚ
  cosmicHealth : ℚ
deriving DecidableEq

/-- Physical constants after merging user input with defaults
(`this.constants` in both engine constructors; `H0` is derived, not stored). -/
structure Constants where
  H0_km_s_Mpc : ℚ
  darkMatterDensity : ℚ
  darkEnergyDensity : ℚ
  baryonicDensity : ℚ
  observableGalaxies : ℚ
  averageStarsPerGalaxy : ℚ
deriving DecidableEq

/-- `H0` in inverse years: `(H0_km_s_Mpc / 3.08567758128e19) * 3.15576e7`. -/
def Constants.H0 (c : Constants) : ℚ :=
  c.H0_km_s_Mpc / 3.08567758128e19 * 3.15576e7

/-- `universe.currentState` (enhanced engine's `_initializeState` field set,
with `_scaleFactor` written `scaleFactor`). -/
structure CurrentState where
  age : ℚ
  scaleFactor : ℚ
  expansionRate : ℚ
  temperature : ℚ
  entropy : ℚ
  stabilityIndex : ℚ
  galaxyCount : ℚ
  starCount : ℚ
  blackHoleCount : ℚ
  habitableSystemsCount : ℚ
  lifeBearingPlanetsCount : ℚ
  civilizationCount : ℚ
  metallicity : ℚ
  cosmicPhase : CosmicPhase
  stellarGenerations : ℚ
  energyBudget : ℚ
  civilizationsCreated : ℚ
  civilizationsExtinct : ℚ
deriving DecidableEq

/-- The persisted universe document (the fields the kernel touches). -/
structure Universe where
  difficulty : Difficulty
  constants : Constants
  initialTemperature : ℚ
  currentState : CurrentState
  anomalies : List Anomaly
  civilizations : List Civilization
  significantEvents : List SigEvent
  milestones : Milestones
  metrics : Metrics
  status : UStatus
  endCondition : Option String
  endReason : Option String
  finalAge : Option ℚ
  lastModified : ℚ
deriving DecidableEq

/-! ## AnomalyGenerator (`src/utils/anomalyGenerator.js`) -/

/-- `CHUNK_SIZE`. -/
def CHUNK_SIZE : ℚ := 1000

/-- `MAX_ANOMALIES_PER_UNIVERSE` — "Hard limit to prevent DB bloat". -/
def MAX_ANOMALIES_PER_UNIVERSE : ℕ := 200

/-- Options of the `AnomalyGenerator` constructor (the seed is represented by
the anomaly stream itself; `anomalyIdFactory` by the clock and
ambient-random streams). -/
structure AnomalyOptions where
  anomalyProbabilityScale : ℚ
  maxAnomalyPerStep : ℚ
  difficultyModifier : ℚ
  playerPositionX : ℚ
  playerPositionY : ℚ

/-- One entry of the `getAnomalyTypes()` table. -/
structure AnomalyTypeDef where
  id : String
  probability : ℚ
  condition : CurrentState → ℚ → Bool
  effects : ℚ → Effects
  description : String
  category : Category

/-- The `getAnomalyTypes()` table, in declared order. -/
def getAnomalyTypes : List AnomalyTypeDef := [
  { id := "blackHoleMerger", probability := 0.001,
    condition := fun cs _ => decide ((1e5 : ℚ) < cs.blackHoleCount),
    effects := fun severity =>
      { stabilityImpact := some (-0.008 * severity),
        gravitationalWaveEnergy := some (1e50 * severity),
        entropy := some (5e6 * severity) },
    description := "Massive black hole merger detected",
    category := Category.gravitational },
  { id := "darkEnergySurge", probability := 0.0004,
    condition := fun _ ageGyr => decide ((5 : ℚ) < ageGyr),
    effects := fun severity =>
      { expansionBoost := some (0.0008 * severity),
        stabilityImpact := some (-0.012 * severity),
        scaleFactorBump := some (0.001 * severity) },
    description := "Dark energy fluctuation",
    category := Category.cosmological },
  { id := "supernovaChain", probability := 0.0015,
    condition := fun cs _ => decide ((1e9 : ℚ) < cs.starCount),
    effects := fun severity =>
      { metallicityIncrease := some (0.0005 * severity),
        starDeathCount := some (100 * severity),
        stabilityImpact := some (-0.005 * severity),
        energyRelease := some (1e51 * severity) },
    description := "Supernova cascade event",
    category := Category.stellar },
  { id := "quantumFluctuation", probability := 0.0003,
    condition := fun _ _ => true,
    effects := fun severity =>
      { localEntropyDecrease := some (-1e6 * severity),
        stabilityImpact := some (-0.015 * severity),
        quantumCoherence := some (-0.01 * severity) },
    description := "Quantum vacuum instability",
    category := Category.quantum },
  { id := "galacticCollision", probability := 0.0008,
    condition := fun cs ageGyr => decide ((1e6 : ℚ) < cs.galaxyCount ∧ (2 : ℚ) < ageGyr),
    effects := fun severity =>
      { starFormationBurst := some (5000 * severity),
        stabilityImpact := some (-0.007 * severity),
        blackHoleFormation := some (10 * severity) },
    description := "Major galactic collision",
    category := Category.structural },
  { id := "cosmicVoid", probability := 0.0003,
    condition := fun _ ageGyr => decide ((3 : ℚ) < ageGyr),
    effects := fun severity =>
      { galaxyLoss := some (1000 * severity),
        stabilityImpact := some (-0.01 * severity),
        localExpansion := some (0.001 * severity) },
    description := "Expanding cosmic void",
    category := Category.structural },
  { id := "magneticReversal", probability := 0.0005,
    condition := fun cs _ => decide ((1e5 : ℚ) < cs.galaxyCount),
    effects := fun severity =>
      { stellarWindDisruption := some (0.005 * severity),
        stabilityImpact := some (-0.004 * severity),
        habitabilityReduction := some (-100 * severity) },
    description := "Galactic magnetic field reversal",
    category := Category.electromagnetic },
  { id := "darkMatterClump", probability := 0.0006,
    condition := fun _ ageGyr => decide ((1 : ℚ) < ageGyr),
    effects := fun severity =>
      { gravitationalAnomaly := some (0.01 * severity),
        stabilityImpact := some (-0.006 * severity),
        structureDistortion := some (0.005 * severity) },
    description := "Dark matter density spike",
    category := Category.gravitational }]

/-- `autoCleanup()`: when the list is at or above the cap, drop resolved
anomalies whose `resolvedAt || timestamp` is older than five minutes before
`Date.now()` (one clock observation, consumed only in that branch). -/
def autoCleanup (anoms : List Anomaly) (clock : Rng) : List Anomaly × Rng :=
  if MAX_ANOMALIES_PER_UNIVERSE ≤ anoms.length then
    let p := clock.next
    let cutoffTime := p.1 - 5 * 60 * 1000
    (anoms.filter fun a =>
      if a.resolved then decide (cutoffTime < a.resolvedAt.getD a.timestamp)
      else true, p.2)
  else (anoms, clock)

/-- Threaded state of the generation loop over the type table. -/
structure GenState where
  created : List Anomaly
  anomRng : Rng
  clock : Rng
  ambRand : Rng

/-- The spawn body of `generateAnomalies()` once a type's roll succeeded
(lines 210–243): draw, in source order, the severity roll, the placement
rolls, the id factory's clock and ambient-random observations, the
`timestamp` clock observation, the z jitter and the decay-rate roll, and
append the anomaly record. `anomRng` is the anomaly stream after the success
roll. -/
def spawnAnomaly (ops : MathOps) (opts : AnomalyOptions) (d : AnomalyTypeDef)
    (created : List Anomaly) (anomRng clock ambRand : Rng) : GenState :=
  let sevRoll := anomRng.next
  let severity := 1 + jsFloor (sevRoll.1 * 3)
  let effects := d.effects severity
  let playerChunkX := jsFloor (opts.playerPositionX / CHUNK_SIZE)
  let playerChunkY := jsFloor (opts.playerPositionY / CHUNK_SIZE)
  let minDistance : ℚ := 1
  let maxDistance : ℚ := 4
  let angleRoll := sevRoll.2.next
  let angle := angleRoll.1 * ops.pi * 2
  let distRoll := angleRoll.2.next
  let distance := minDistance + distRoll.1 * (maxDistance - minDistance)
  let targetChunkX := playerChunkX + jsFloor (ops.cos angle * distance)
  let targetChunkY := playerChunkY + jsFloor (ops.sin angle * distance)
  let xRoll := distRoll.2.next
  let x := targetChunkX * CHUNK_SIZE + xRoll.1 * CHUNK_SIZE
  let yRoll := xRoll.2.next
  let y := targetChunkY * CHUNK_SIZE + yRoll.1 * CHUNK_SIZE
  let idNow := clock.next
  let idRoll := ambRand.next
  let ts := idNow.2.next
  let zRoll := yRoll.2.next
  let decayRoll := zRoll.2.next
  let anomaly : Anomaly :=
    { idClock := idNow.1, idRand := jsFloor (idRoll.1 * 1e6),
      type := d.id, category := d.category, severity := severity,
      timestamp := ts.1, resolved := false, resolvedAt := none,
      effectsRaw := effects, locX := x, locY := y,
      locZ := (zRoll.1 - 0.5) * 1e4,
      radius := 1000 * severity, description := d.description,
      decayRate := 0.001 * decayRoll.1 }
  { created := created ++ [anomaly], anomRng := decayRoll.2, clock := ts.2,
    ambRand := idRoll.2 }

/-- The per-type loop of `generateAnomalies()` (lines 197–247): roll against
`probability * baseProb * 10000` for each eligible type, spawn on success,
and stop once `created.length` reaches the cap. -/
def genLoop (ops : MathOps) (opts : AnomalyOptions) (cs : CurrentState)
    (ageGyr baseProb : ℚ) (cap : ℤ) :
    List AnomalyTypeDef → GenState → GenState
  | [], st => st
  | d :: rest, st =>
    if d.condition cs ageGyr then
      let prob := d.probability * baseProb * 10000
      let roll := st.anomRng.next
      if roll.1 < prob then
        let st' := spawnAnomaly ops opts d st.created roll.2 st.clock st.ambRand
        if cap ≤ (st'.created.length : ℤ) then st'
        else genLoop ops opts cs ageGyr baseProb cap rest st'
      else genLoop ops opts cs ageGyr baseProb cap rest { st with anomRng := roll.2 }
    else genLoop ops opts cs ageGyr baseProb cap rest st

/-- Result of `generateAnomalies()`: the universe's anomaly list after
`autoCleanup`, the created anomalies, and the advanced streams. -/
structure GenResult where
  anoms : List Anomaly
  created : List Anomaly
  anomRng : Rng
  clock : Rng
  ambRand : Rng

/-- `generateAnomalies()`. -/
def generateAnomalies (ops : MathOps) (opts : AnomalyOptions) (u : Universe)
    (anomRng clock ambRand : Rng) : GenResult :=
  let cs := u.currentState
  let ageGyr := cs.age / 1e9
  let cleaned := autoCleanup u.anomalies clock
  if MAX_ANOMALIES_PER_UNIVERSE ≤ cleaned.1.length then
    { anoms := cleaned.1, created := [], anomRng := anomRng,
      clock := cleaned.2, ambRand := ambRand }
  else
    let activity := min 1 (cs.galaxyCount / max 1 u.constants.observableGalaxies)
    let baseProb := opts.anomalyProbabilityScale * activity
    let cap : ℤ := max 1 ⌊opts.maxAnomalyPerStep⌋
    let st := genLoop ops opts cs ageGyr baseProb cap getAnomalyTypes
      { created := [], anomRng := anomRng, clock := cleaned.2, ambRand := ambRand }
    { anoms := cleaned.1, created := st.created, anomRng := st.anomRng,
      clock := st.clock, ambRand := st.ambRand }

/-- One `if (effects.key !== undefined)` guard of `applyAnomalyEffects`:
apply the update when the key is present, do nothing otherwise. -/
def applyOpt (o : Option ℚ) (f : ℚ → CurrentState → CurrentState)
    (cs : CurrentState) : CurrentState :=
  match o with
  | some v => f v cs
  | none => cs

/-- `stabilityIndex = clamp(stabilityIndex + v, 0, 1)`. -/
def fxStabilityImpact (v : ℚ) (c : CurrentState) : CurrentState :=
  { c with stabilityIndex := clamp (c.stabilityIndex + v) 0 1 }

/-- `expansionRate *= (1 + v)`. -/
def fxExpansionBoost (v : ℚ) (c : CurrentState) : CurrentState :=
  { c with expansionRate := c.expansionRate * (1 + v) }

/-- `_scaleFactor *= (1 + v)` — not clamped here. -/
def fxScaleFactorBump (v : ℚ) (c : CurrentState) : CurrentState :=
  { c with scaleFactor := c.scaleFactor * (1 + v) }

/-- `entropy = max(0, entropy + v)`. -/
def fxEntropyAdd (v : ℚ) (c : CurrentState) : CurrentState :=
  { c with entropy := max 0 (c.entropy + v) }

/-- `starCount = max(0, starCount - v)`. -/
def fxStarDeathCount (v : ℚ) (c : CurrentState) : CurrentState :=
  { c with starCount := max 0 (c.starCount - v) }

/-- `starCount += v`. -/
def fxStarFormationBurst (v : ℚ) (c : CurrentState) : CurrentState :=
  { c with starCount := c.starCount + v }

/-- `metallicity = clamp(metallicity + v, 0, 1)`. -/
def fxMetallicityIncrease (v : ℚ) (c : CurrentState) : CurrentState :=
  { c with metallicity := clamp (c.metallicity + v) 0 1 }

/-- `galaxyCount = max(0, galaxyCount - v)`. -/
def fxGalaxyLoss (v : ℚ) (c : CurrentState) : CurrentState :=
  { c with galaxyCount := max 0 (c.galaxyCount - v) }

/-- `habitableSystemsCount = max(0, habitableSystemsCount - v)`. -/
def fxHabitabilityReduction (v : ℚ) (c : CurrentState) : CurrentState :=
  { c with habitableSystemsCount := max 0 (c.habitableSystemsCount - v) }

/-- `blackHoleCount += v`. -/
def fxBlackHoleFormation (v : ℚ) (c : CurrentState) : CurrentState :=
  { c with blackHoleCount := c.blackHoleCount + v }

/-- `applyAnomalyEffects(effects)`: each known key applies its clamped or
floored update, in the source's order; absent keys do nothing. -/
def applyAnomalyEffects (effects : Effects) (cs0 : CurrentState) : CurrentState :=
  let cs := applyOpt effects.stabilityImpact fxStabilityImpact cs0
  let cs := applyOpt effects.expansionBoost fxExpansionBoost cs
  let cs := applyOpt effects.scaleFactorBump fxScaleFactorBump cs
  let cs := applyOpt effects.localEntropyDecrease fxEntropyAdd cs
  let cs := applyOpt effects.entropy fxEntropyAdd cs
  let cs := applyOpt effects.starDeathCount fxStarDeathCount cs
  let cs := applyOpt effects.starFormationBurst fxStarFormationBurst cs
  let cs := applyOpt effects.metallicityIncrease fxMetallicityIncrease cs
  let cs := applyOpt effects.galaxyLoss fxGalaxyLoss cs
  let cs := applyOpt effects.habitabilityReduction fxHabitabilityReduction cs
  applyOpt effects.blackHoleFormation fxBlackHoleFormation cs

/-- One iteration of `decayUnresolvedAnomalies()`: for an unresolved anomaly
with truthy (nonzero) `decayRate`, draw a roll; when it falls below
`decayRate` and `severity > 1`, decrement severity by `0.1` and add `0.001`
to the clamped stability index. -/
def decayStep (rng : Rng) (si : ℚ) (a : Anomaly) : Anomaly × ℚ × Rng :=
  if a.resolved = false ∧ a.decayRate ≠ 0 then
    if rng.next.1 < a.decayRate ∧ 1 < a.severity then
      ({ a with severity := a.severity - 0.1 }, clamp (si + 0.001) 0 1, rng.next.2)
    else (a, si, rng.next.2)
  else (a, si, rng)

/-- `decayUnresolvedAnomalies()` over the whole list, threading the anomaly
stream and `currentState.stabilityIndex`. -/
def decayUnresolvedAnomalies (rng : Rng) (si : ℚ) :
    List Anomaly → List Anomaly × ℚ × Rng
  | [] => ([], si, rng)
  | a :: rest =>
    let step := decayStep rng si a
    let tail := decayUnresolvedAnomalies step.2.2 step.2.1 rest
    (step.1 :: tail.1, tail.2)

/-- Id comparison `a.id === anomalyId` (anomaly subdocuments carry no
Mongoose `_id`, so the `a._id?.toString()` alternative never matches). -/
def idMatches (idC idR : ℚ) (a : Anomaly) : Bool :=
  decide (a.idClock = idC ∧ a.idRand = idR)

/-- Mark the first id match resolved at time `now` (the in-place
`anomaly.resolved = true; anomaly.resolvedAt = new Date()` mutation). -/
def markResolvedFirst (idC idR now : ℚ) : List Anomaly → List Anomaly
  | [] => []
  | a :: rest =>
    if idMatches idC idR a then
      { a with resolved := true, resolvedAt := some now } :: rest
    else a :: markResolvedFirst idC idR now rest

/-- Return value of `resolveAnomaly`. -/
structure ResolveResult where
  success : Bool
  stabilityBoost : ℚ
  entropyReduction : ℚ
  anomaly : Option Anomaly
deriving DecidableEq

/-- `resolveAnomaly(anomalyId)`: find the anomaly; refuse when absent or
already resolved; otherwise mark it resolved, apply the stability boost,
entropy reduction and energy refund, bump the metrics and recompute
`anomalyResolutionRate` over the updated list. `now` is the `new Date()`
observation. -/
def resolveAnomaly (u : Universe) (idC idR now : ℚ) : ResolveResult × Universe :=
  match u.anomalies.find? (idMatches idC idR) with
  | none =>
    ({ success := false, stabilityBoost := 0, entropyReduction := 0,
       anomaly := none }, u)
  | some anomaly =>
    if anomaly.resolved then
      ({ success := false, stabilityBoost := 0, entropyReduction := 0,
         anomaly := none }, u)
    else
      let anomalies := markResolvedFirst idC idR now u.anomalies
      let baseBoost : ℚ := 0.015
      let severityMultiplier := anomaly.severity
      let stabilityBoost := baseBoost * severityMultiplier
      let cs := u.currentState
      let cs := { cs with stabilityIndex := clamp (cs.stabilityIndex + stabilityBoost) 0 1 }
      let entropyReduction := 3e6 * severityMultiplier
      let cs := { cs with entropy := max 0 (cs.entropy - entropyReduction) }
      let cs := { cs with energyBudget := clamp (cs.energyBudget + 0.002 * severityMultiplier) 0 1 }
      let metrics :=
        { u.metrics with
          playerInterventions := u.metrics.playerInterventions + 1,
          anomaliesResolved := u.metrics.anomaliesResolved + 1 }
      let totalAnomalies := anomalies.length
      let resolvedCount := (anomalies.filter fun a => a.resolved).length
      let metrics :=
        { metrics with
          anomalyResolutionRate :=
            if 0 < totalAnomalies then (resolvedCount : ℚ) / (totalAnomalies : ℚ)
            else 0 }
      ({ success := true, stabilityBoost := stabilityBoost,
         entropyReduction := entropyReduction,
         anomaly := some { anomaly with resolved := true, resolvedAt := some now } },
       { u with anomalies := anomalies, currentState := cs, metrics := metrics })

/-! ## PhysicsEngine — the enhanced variant (second class in
`src/utils/physicsEngine.js`) -/

/-- Engine options; the route passes `timeStepYears`, `difficultyModifier`
and the seed, the rest are constructor defaults (`maxScaleFactorExp: 50`,
`maxCivilizations: 500`, `civilizationCullInterval: 10`). -/
structure EngineOptions where
  timeStepYears : ℚ
  maxScaleFactorExp : ℚ
  difficultyModifier : ℚ
  maxCivilizations : ℚ
  civilizationCullInterval : ℕ

/-- `_safeExp(x)`. -/
def safeExp (ops : MathOps) (opts : EngineOptions) (x : ℚ) : ℚ :=
  if opts.maxScaleFactorExp < x then ops.exp opts.maxScaleFactorExp
  else if x < -opts.maxScaleFactorExp then 0
  else ops.exp x

/-- `_gaussianRandom(mean, stdDev)` — Box-Muller on two draws. -/
def gaussianRandom (ops : MathOps) (rng : Rng) (mean stdDev : ℚ) : ℚ × Rng :=
  let u1 := rng.next
  let u2 := u1.2.next
  let z0 := ops.sqrt (-2 * ops.log u1.1) * ops.cos (2 * ops.pi * u2.1)
  (mean + z0 * stdDev, u2.2)

/-- `_updateCosmicPhase()`. -/
def updateCosmicPhase (cs : CurrentState) : CurrentState :=
  let ageGyr := cs.age / 1e9
  { cs with cosmicPhase :=
      if ageGyr < 0.1 then CosmicPhase.dark_ages
      else if ageGyr < 1 then CosmicPhase.reionization
      else if ageGyr < 5 then CosmicPhase.galaxy_formation
      else if ageGyr < 10 then CosmicPhase.stellar_peak
      else if ageGyr < 50 then CosmicPhase.gradual_decline
      else if ageGyr < 100 then CosmicPhase.twilight_era
      else CosmicPhase.degenerate_era }

/-- `_updateExpansion()`: age increment, Friedmann expansion with the capped
exponent, adiabatic cooling, entropy growth, energy decay, phase update.
`T0` is `initialConditions.initialTemperature`. -/
def updateExpansion (ops : MathOps) (opts : EngineOptions) (consts : Constants)
    (T0 : ℚ) (cs0 : CurrentState) : CurrentState :=
  let dt := opts.timeStepYears
  let cs := { cs0 with age := cs0.age + dt }
  let H0 := consts.H0
  let a := cs.scaleFactor
  let matterTerm := (consts.darkMatterDensity + consts.baryonicDensity) / a ^ 3
  let radiationTerm := 0.0001 / a ^ 4
  let darkTerm := consts.darkEnergyDensity
  let H_eff := H0 * ops.sqrt (max 0 (matterTerm + radiationTerm + darkTerm))
  let expansionFactor := H_eff * dt
  let cappedExpansion := clamp expansionFactor (-0.1) 0.1
  let growth := safeExp ops opts cappedExpansion
  let cs := { cs with scaleFactor := clamp (cs.scaleFactor * growth) 1e-10 1e10 }
  let cs := { cs with expansionRate := H_eff * 3.08567758128e19 / 3.15576e7 }
  let cs := { cs with temperature := clamp (T0 / cs.scaleFactor) 0.01 (T0 * 100) }
  let volumeRatio := cs.scaleFactor ^ 3
  let entropyGrowth := ops.log (max 1 volumeRatio) * 1e5 * (dt / 1e8)
  let cs := { cs with entropy := clamp (cs.entropy + entropyGrowth) 0 1e16 }
  let energyDecay := 5e-13 * dt
  let cs := { cs with energyBudget := clamp (cs.energyBudget - energyDecay) 0 1.0 }
  updateCosmicPhase cs

/-- The engine-side mutable context threaded through one physics step:
the universe fields the engine touches plus the engine-local tracking
(`stabilityHistory`, `stepsSinceLastCull`) and the stream cursors. -/
structure PhysSt where
  cs : CurrentState
  milestones : Milestones
  events : List SigEvent
  civs : List Civilization
  metrics : Metrics
  physRng : Rng
  clock : Rng
  stepsSinceLastCull : ℕ
  stabilityHistory : List ℚ
  lastModified : ℚ

/-- Milestone keys of the enhanced engine. -/
inductive MilestoneKey where
  | firstGalaxy
  | firstStar
  | firstLife
  | firstCivilization
  | stellarPopulationI
  | complexLifeEra
  | technologicalSingularity
  | greatFilter
  | transcendence
deriving DecidableEq

/-- Read a milestone flag. -/
def Milestones.get (m : Milestones) : MilestoneKey → Bool
  | .firstGalaxy => m.firstGalaxy
  | .firstStar => m.firstStar
  | .firstLife => m.firstLife
  | .firstCivilization => m.firstCivilization
  | .stellarPopulationI => m.stellarPopulationI
  | .complexLifeEra => m.complexLifeEra
  | .technologicalSingularity => m.technologicalSingularity
  | .greatFilter => m.greatFilter
  | .transcendence => m.transcendence

/-- Set a milestone flag to true. -/
def Milestones.set (m : Milestones) : MilestoneKey → Milestones
  | .firstGalaxy => { m with firstGalaxy := true }
  | .firstStar => { m with firstStar := true }
  | .firstLife => { m with firstLife := true }
  | .firstCivilization => { m with firstCivilization := true }
  | .stellarPopulationI => { m with stellarPopulationI := true }
  | .complexLifeEra => { m with complexLifeEra := true }
  | .technologicalSingularity => { m with technologicalSingularity := true }
  | .greatFilter => { m with greatFilter := true }
  | .transcendence => { m with transcendence := true }

/-- The milestone key's string, used in the event payload. -/
def MilestoneKey.name : MilestoneKey → String
  | .firstGalaxy => "firstGalaxy"
  | .firstStar => "firstStar"
  | .firstLife => "firstLife"
  | .firstCivilization => "firstCivilization"
  | .stellarPopulationI => "stellarPopulationI"
  | .complexLifeEra => "complexLifeEra"
  | .technologicalSingularity => "technologicalSingularity"
  | .greatFilter => "greatFilter"
  | .transcendence => "transcendence"

/-- `_recordSignificantEvent(type, description, effects)`: evict the oldest
500 events past 2000, then append, with a `new Date()` timestamp. -/
def recordSignificantEvent (typ description : String) (fx : EvEffects)
    (st : PhysSt) : PhysSt :=
  let events := if 2000 < st.events.length then st.events.drop 500 else st.events
  let ts := st.clock.next
  { st with
    clock := ts.2,
    events := events ++ [{ timestamp := ts.1, age := st.cs.age, type := typ,
                           description := description, effects := fx,
                           ageGyr := st.cs.age / 1e9 }] }

/-- `_recordMilestone(key, title, description)`: flag first (skipping when
already set), then record the milestone event. -/
def recordMilestone (key : MilestoneKey) (title description : String)
    (st : PhysSt) : PhysSt :=
  if st.milestones.get key then st
  else
    let st := { st with milestones := st.milestones.set key }
    recordSignificantEvent "milestone" ("MILESTONE: " ++ title)
      (EvEffects.milestoneFx description key.name) st

/-- The galaxy seeding/logistic-growth block of `_updateStructures()`
(enhanced variant), with its bootstraps and the `firstGalaxy` milestone. -/
def usGalaxy (ops : MathOps) (opts : EngineOptions) (consts : Constants)
    (st0 : PhysSt) : PhysSt :=
  let cs := st0.cs
  let dt := opts.timeStepYears
  let ageGyr := cs.age / 1e9
  let K := consts.observableGalaxies
  let formationPeak := ops.exp (-(((ageGyr - 5) / 3) ^ 2))
  let baseRate := (0.15 : ℚ) / 1e9
  let r := baseRate * (1 + formationPeak * 2)
  let current := cs.galaxyCount
  let dG : ℚ :=
    if 0.1 < ageGyr ∧ ageGyr < 2.5 ∧ current < 1000 then
      2000 * ops.exp (-(((ageGyr - 0.5) / 0.7) ^ 2)) * (dt / 1e7)
    else if 0 < current then
      r * current * (1 - current / max 1 K) * dt
    else 0
  let dG := if 1.0 < ageGyr ∧ current < 100 then dG + 100 else dG
  let st := { st0 with cs := { cs with galaxyCount := clamp (current + dG) 0 (K * 1.5) } }
  if 1 ≤ st.cs.galaxyCount ∧ st.milestones.firstGalaxy = false then
    recordMilestone .firstGalaxy "First Galaxy Formation"
      "The first galaxy has formed from primordial gas clouds" st
  else st

/-- The star-formation block of `_updateStructures()` with the bootstrap and
the `firstStar` milestone (`age` is unchanged by the galaxy block, so reading
`ageGyr` here matches the source's single computation at the top). -/
def usStars (ops : MathOps) (opts : EngineOptions) (consts : Constants)
    (st : PhysSt) : PhysSt :=
  let dt := opts.timeStepYears
  let ageGyr := st.cs.age / 1e9
  let starsPerGalaxy := consts.averageStarsPerGalaxy
  let starsTarget := st.cs.galaxyCount * starsPerGalaxy
  if 0 < st.cs.galaxyCount then
    let metallicityBoost := 1 + st.cs.metallicity * 0.5
    let gasFraction := ops.exp (-(ageGyr / 10))
    let sfRate := 0.003 * gasFraction * metallicityBoost
    let starGrowth := (starsTarget - st.cs.starCount) * sfRate * (dt / 1e7)
    let st := { st with cs := { st.cs with starCount := max 0 (st.cs.starCount + starGrowth) } }
    let st :=
      if 0.5 < ageGyr ∧ 10 < st.cs.galaxyCount ∧ st.cs.starCount < 1e6 then
        { st with cs := { st.cs with starCount := st.cs.starCount + 1e6 } }
      else st
    if 1 ≤ st.cs.starCount ∧ st.milestones.firstStar = false then
      recordMilestone .firstStar "First Star Ignition"
        "The first stars have ignited, ending the cosmic dark ages" st
    else st
  else st

/-- The stellar-evolution block of `_updateStructures()`: generation growth,
metal production, the `stellarPopulationI` milestone. -/
def usStellar (opts : EngineOptions) (consts : Constants) (st : PhysSt) :
    PhysSt :=
  let dt := opts.timeStepYears
  let starsPerGalaxy := consts.averageStarsPerGalaxy
  if 0 < st.cs.starCount then
    let stellarDeathRate := st.cs.starCount * 1e-11 * dt
    let generationIncrease := stellarDeathRate / (starsPerGalaxy * 10)
    let st := { st with cs := { st.cs with
      stellarGenerations := min (st.cs.stellarGenerations + generationIncrease) 10 } }
    let metalProduction := stellarDeathRate * 1e-14
    let st := { st with cs := { st.cs with
      metallicity := clamp (st.cs.metallicity + metalProduction) 0 1 } }
    if (0.1 : ℚ) < st.cs.metallicity ∧ st.milestones.stellarPopulationI = false then
      recordMilestone .stellarPopulationI "Population I Stars"
        "Metal-rich stars capable of forming rocky planets" st
    else st
  else st

/-- The black-hole-formation block of `_updateStructures()`. -/
def usBlackHoles (opts : EngineOptions) (st : PhysSt) : PhysSt :=
  let dt := opts.timeStepYears
  if 0 < st.cs.starCount then
    let massiveStarFraction := (1e-4 : ℚ)
    let bhFormationRate := (0.1 : ℚ)
    let newBHs := st.cs.starCount * massiveStarFraction * bhFormationRate * (dt / 1e9)
    { st with cs := { st.cs with blackHoleCount := max 0 (st.cs.blackHoleCount + newBHs) } }
  else st

/-- `_updateStructures()` (enhanced variant): galaxy seeding/logistic growth
with bootstraps, star formation, stellar evolution, black-hole formation,
and the three structure milestones, in source order. -/
def updateStructures (ops : MathOps) (opts : EngineOptions) (consts : Constants)
    (st0 : PhysSt) : PhysSt :=
  usBlackHoles opts (usStellar opts consts
    (usStars ops opts consts (usGalaxy ops opts consts st0)))

/-- `_determineCivilizationType(ageGyr)` — draws its roll before the age
gate, as the source does. -/
def determineCivilizationType (rng : Rng) (ageGyr : ℚ) : CivType × Rng :=
  let r := rng.next
  (if ageGyr < 8 then CivType.Type0
   else if r.1 < 0.98 then CivType.Type0
   else if r.1 < 0.998 then CivType.Type1
   else if r.1 < 0.9998 then CivType.Type2
   else CivType.Type3, r.2)

/-- The spawn loop of `_spawnCivilizations(count, ageGyr)`, with the source's
draw order per civilization: type roll, id clock + id suffix roll,
`createdAt` clock, then developmentLevel / technology / stability /
population / warlikeness rolls. -/
def spawnLoop (ageGyr : ℚ) : ℕ → PhysSt → PhysSt
  | 0, st => st
  | n + 1, st =>
    let ct := determineCivilizationType st.physRng ageGyr
    let idNow := st.clock.next
    let idRoll := ct.2.next
    let createdAt := idNow.2.next
    let dev := idRoll.2.next
    let tech := dev.2.next
    let stab := tech.2.next
    let pop := stab.2.next
    let war := pop.2.next
    let civ : Civilization :=
      { idClock := idNow.1, idRand := idRoll.1, type := ct.1,
        createdAt := createdAt.1, age := 0,
        developmentLevel := dev.1, technology := tech.1 * 10,
        stability := 0.5 + stab.1 * 0.5,
        population := jsFloor (1e6 + pop.1 * 1e9),
        resourceDepletion := 0, warlikeness := war.1,
        extinct := false, extinctionDate := none, extinctionAge := none }
    spawnLoop ageGyr n
      { st with civs := st.civs ++ [civ], physRng := war.2, clock := createdAt.2 }

/-- `_spawnCivilizations(count, ageGyr)`: run the loop, then the
`firstCivilization` milestone check (note it reads `cs.civilizationCount`
before the caller increments it). -/
def spawnCivilizations (count : ℕ) (ageGyr : ℚ) (st0 : PhysSt) : PhysSt :=
  let st := spawnLoop ageGyr count st0
  if 1 ≤ st.cs.civilizationCount ∧ st.milestones.firstCivilization = false then
    recordMilestone .firstCivilization "First Civilization"
      "Intelligent civilization has emerged" st
  else st

/-- `_calculateExtinctionRisk(civ, cosmicState)` — transcribed exactly,
including the `else if (civ.stability < 0.1)` branch that the preceding
`civ.stability < 0.3` test shadows. -/
def calculateExtinctionRisk (civ : Civilization) (cosmicState : CurrentState) : ℚ :=
  let baseRisk : ℚ := 1e-5
  let baseRisk :=
    if civ.stability < 0.3 then baseRisk * ((1 - civ.stability) * 50)
    else if civ.stability < 0.1 then baseRisk * 100
    else baseRisk
  let baseRisk := if 0.8 < civ.resourceDepletion then baseRisk * 20 else baseRisk
  let baseRisk := if 0.8 < civ.warlikeness then baseRisk * 10 else baseRisk
  let baseRisk :=
    if civ.type = CivType.Type0 then baseRisk * 5
    else if civ.type = CivType.Type3 then baseRisk * 0.1
    else baseRisk
  let baseRisk :=
    if cosmicState.stabilityIndex < 0.5 then
      baseRisk * ((1 - cosmicState.stabilityIndex) * 3)
    else baseRisk
  let ageMillions := civ.age / 1e6
  let baseRisk :=
    if ageMillions < 10 then baseRisk * 2
    else if 1000 < ageMillions then baseRisk * 1.5
    else baseRisk
  min baseRisk 0.5

/-- `_determineExtinctionType(civ)` — draws its roll first. -/
def determineExtinctionType (rng : Rng) (civ : Civilization) : String × Rng :=
  let r := rng.next
  (if civ.stability < 0.2 then
     if r.1 < 0.5 then "Nuclear War" else "Civil Collapse"
   else if 0.8 < civ.resourceDepletion then "Resource Exhaustion"
   else if 0.8 < civ.warlikeness then "Self-Destruction"
   else if r.1 < 0.3 then "Pandemic"
   else if r.1 < 0.5 then "Climate Catastrophe"
   else if r.1 < 0.7 then "Asteroid Impact"
   else if r.1 < 0.85 then "AI Singularity Failure"
   else "Unknown Event", r.2)

/-- The per-civilization body of `_evolveCivilizations(dt, ageGyr)` for a
non-extinct civilization: technology growth, resource depletion, type
progression (the three guards test distinct types, so at most one draws, as
in the JS `else if` chain with short-circuit `&&`), gaussian stability
fluctuation, and the extinction roll. -/
def evolveCivStep (ops : MathOps) (dt : ℚ) (civ1 : Civilization) (st1 : PhysSt) :
    Civilization × PhysSt :=
      let st := st1
      let civ := { civ1 with age := civ1.age + dt }
      let techGrowth := 0.01 * (dt / 1e8) * (1 + civ.developmentLevel)
      let civ := { civ with technology := min 100 (civ.technology + techGrowth) }
      let civ := { civ with resourceDepletion := min 1 (civ.resourceDepletion + techGrowth * 0.005) }
      let step1 : Civilization × PhysSt :=
        if 20 < civ.technology ∧ civ.type = CivType.Type0 then
          let r := st.physRng.next
          let st := { st with physRng := r.2 }
          if r.1 < 0.001 then
            let civ := { civ with type := CivType.Type1 }
            (civ, recordSignificantEvent "civilization" "Type I Civilization Achieved"
              (EvEffects.civFx civ.idClock civ.idRand
                "A civilization has achieved planetary energy mastery") st)
          else (civ, st)
        else if 50 < civ.technology ∧ civ.type = CivType.Type1 then
          let r := st.physRng.next
          let st := { st with physRng := r.2 }
          if r.1 < 0.0001 then
            let civ := { civ with type := CivType.Type2 }
            (civ, recordSignificantEvent "civilization" "Type II Civilization Achieved"
              (EvEffects.civFx civ.idClock civ.idRand
                "A civilization has achieved stellar energy mastery") st)
          else (civ, st)
        else if 80 < civ.technology ∧ civ.type = CivType.Type2 then
          let r := st.physRng.next
          let st := { st with physRng := r.2 }
          if r.1 < 0.00001 then
            let civ := { civ with type := CivType.Type3 }
            let st := recordSignificantEvent "civilization" "Type III Civilization Achieved"
              (EvEffects.civFx civ.idClock civ.idRand
                "A civilization has achieved galactic energy mastery") st
            let st :=
              if st.milestones.transcendence = false then
                recordMilestone .transcendence "Transcendence"
                  "A civilization has transcended to Type III status" st
              else st
            (civ, st)
          else (civ, st)
        else (civ, st)
      let civ := step1.1
      let st := step1.2
      let g := gaussianRandom ops st.physRng 0 0.01
      let st := { st with physRng := g.2 }
      let resourcePressure := -(civ.resourceDepletion * 0.02)
      let warPressure := -(civ.warlikeness * 0.01)
      let civ := { civ with stability := clamp (civ.stability + g.1 + resourcePressure + warPressure) 0 1 }
      let extinctionChance := calculateExtinctionRisk civ st.cs
      let er := st.physRng.next
      let st := { st with physRng := er.2 }
      if er.1 < extinctionChance then
        let ed := st.clock.next
        let st := { st with clock := ed.2 }
        let civ := { civ with
          extinct := true, extinctionDate := some ed.1,
          extinctionAge := some civ.age }
        let st := { st with
          cs := { st.cs with
                  civilizationsExtinct := st.cs.civilizationsExtinct + 1,
                  civilizationCount := max 0 (st.cs.civilizationCount - 1) } }
        let et := determineExtinctionType st.physRng civ
        let st := { st with physRng := et.2 }
        let st := recordSignificantEvent "extinction"
          ("Civilization Extinction: " ++ et.1)
          (EvEffects.extinctionFx civ.idClock civ.idRand civ.type civ.age
            civ.technology et.1) st
        (civ, st)
      else
        (civ, st)

/-- The civilization loop (`for (const civ of this.universe.civilizations)`),
skipping extinct records and applying `evolveCivStep` to the rest. -/
def evolveLoop (ops : MathOps) (dt : ℚ) :
    List Civilization → PhysSt → List Civilization × PhysSt
  | [], st => ([], st)
  | civ :: rest, st =>
    if civ.extinct then
      let t := evolveLoop ops dt rest st
      (civ :: t.1, t.2)
    else
      let p := evolveCivStep ops dt civ st
      let t := evolveLoop ops dt rest p.2
      (p.1 :: t.1, t.2)

/-- `_evolveCivilizations(dt, ageGyr)`: the loop, then the
`technologicalSingularity` milestone check over the surviving advanced
civilizations. -/
def evolveCivilizations (ops : MathOps) (dt : ℚ) (st0 : PhysSt) : PhysSt :=
  let t := evolveLoop ops dt st0.civs st0
  let st := { t.2 with civs := t.1 }
  let advancedCivs :=
    (st.civs.filter fun c => decide (c.extinct = false ∧ c.type ≠ CivType.Type0)).length
  if (0 : ℕ) < advancedCivs ∧ st.milestones.technologicalSingularity = false then
    recordMilestone .technologicalSingularity "Technological Singularity"
      "Advanced civilizations have transcended planetary boundaries" st
  else st

/-- `_cullCivilizations()`: keep all active civilizations plus the 100 most
recently extinct (stable sort by `extinctionDate`, descending). -/
def cullCivilizations (st : PhysSt) : PhysSt :=
  let extinctCivs := st.civs.filter fun c => c.extinct
  let activeCivs := st.civs.filter fun c => !c.extinct
  let recentExtinct :=
    (extinctCivs.mergeSort fun a b =>
      decide (b.extinctionDate.getD 0 ≤ a.extinctionDate.getD 0)).take 100
  { st with civs := activeCivs ++ recentExtinct }

/-- Mark the first `k` non-extinct civilizations extinct (the
`activeCivs.slice(0, killCount)` loop of `_checkCatastrophicEvents`), each
with its own `new Date()` observation and `currentState` decrement. -/
def killFirstActive : ℕ → Rng → CurrentState → List Civilization →
    List Civilization × Rng × CurrentState
  | 0, clock, cs, l => (l, clock, cs)
  | _ + 1, clock, cs, [] => ([], clock, cs)
  | k + 1, clock, cs, c :: rest =>
    if c.extinct then
      let t := killFirstActive (k + 1) clock cs rest
      (c :: t.1, t.2)
    else
      let ed := clock.next
      let c' := { c with
        extinct := true, extinctionDate := some ed.1,
        extinctionAge := some c.age }
      let cs' := { cs with
        civilizationsExtinct := cs.civilizationsExtinct + 1,
        civilizationCount := max 0 (cs.civilizationCount - 1) }
      let t := killFirstActive k ed.2 cs' rest
      (c' :: t.1, t.2)

/-- `_checkCatastrophicEvents(ageGyr)`: a Great Filter roll every step;
on success (and the milestone unset), kill a random fraction of active
civilizations when more than 10 would die. -/
def checkCatastrophicEvents (st0 : PhysSt) : PhysSt :=
  let r := st0.physRng.next
  let st := { st0 with physRng := r.2 }
  if r.1 < 1e-6 ∧ st.milestones.greatFilter = false then
    let activeCount := (st.civs.filter fun c => !c.extinct).length
    let kr := st.physRng.next
    let st := { st with physRng := kr.2 }
    let killCount : ℤ := ⌊(activeCount : ℚ) * (0.5 + kr.1 * 0.4)⌋
    if 10 < killCount then
      let t := killFirstActive killCount.toNat st.clock st.cs st.civs
      let st := { st with civs := t.1, clock := t.2.1, cs := t.2.2 }
      let st := recordMilestone .greatFilter "The Great Filter"
        ("A cosmic catastrophe has destroyed " ++ toString killCount ++
          " civilizations") st
      recordSignificantEvent "catastrophe" "Great Filter Event"
        (EvEffects.catastropheFx (killCount : ℚ)
          "A universe-wide catastrophic event has caused mass extinction") st
    else st
  else st

/-- `_manageCivilizations(ageGyr, dt)`: gate, expected-count spawning under
the hard cap (a fractional `needToAdd` runs the JS `for` loop ⌈needToAdd⌉
times), evolution, periodic culling, catastrophic events. -/
def manageCivilizations (ops : MathOps) (opts : EngineOptions) (ageGyr dt : ℚ)
    (st0 : PhysSt) : PhysSt :=
  if ageGyr < 5 ∨ st0.cs.lifeBearingPlanetsCount < 1000 then st0
  else
    let cs := st0.cs
    let civProb := 1e-7 * (1 + cs.metallicity * 0.5)
    let expectedCivs := jsFloor (cs.lifeBearingPlanetsCount * civProb)
    let activeCivs := (st0.civs.filter fun c => !c.extinct).length
    let maxCivs := opts.maxCivilizations
    let st :=
      if cs.civilizationCount < expectedCivs ∧ (activeCivs : ℚ) < maxCivs then
        let needToAdd :=
          min (min (expectedCivs - cs.civilizationCount) (maxCivs - (activeCivs : ℚ))) 10
        if 0 < needToAdd then
          let st := spawnCivilizations ⌈needToAdd⌉.toNat ageGyr st0
          { st with cs := { st.cs with
            civilizationCount := st.cs.civilizationCount + needToAdd,
            civilizationsCreated := st.cs.civilizationsCreated + needToAdd } }
        else st0
      else st0
    let st := evolveCivilizations ops dt st
    let st := { st with stepsSinceLastCull := st.stepsSinceLastCull + 1 }
    let st :=
      if opts.civilizationCullInterval ≤ st.stepsSinceLastCull then
        { cullCivilizations st with stepsSinceLastCull := 0 }
      else st
    checkCatastrophicEvents st

/-- `_getTemperatureSuitability()`. -/
def getTemperatureSuitability (ops : MathOps) (cs : CurrentState) : ℚ :=
  ops.exp (-(((cs.temperature - 2.725) / 5) ^ 2))

/-- `_updateLifeEvolution()` (enhanced variant): habitable systems, life
emergence with its two milestones, then civilization management. -/
def updateLifeEvolution (ops : MathOps) (opts : EngineOptions) (st0 : PhysSt) :
    PhysSt :=
  let cs := st0.cs
  let dt := opts.timeStepYears
  let ageGyr := cs.age / 1e9
  if ageGyr < 1 ∨ cs.metallicity < 0.01 then st0
  else
    let metallicityFactor := clamp (cs.metallicity / 0.3) 0 1
    let maturityFactor := min 1 ((ageGyr - 1) / 3)
    let habitableFraction := 0.001 + metallicityFactor * maturityFactor * 0.015
    let st := { st0 with cs := { cs with
      habitableSystemsCount := max 0 (cs.starCount * habitableFraction) } }
    let st :=
      if 3 < ageGyr ∧ 100 < st.cs.habitableSystemsCount then
        let timeFactor := clamp ((ageGyr - 3) / 5) 0 1
        let temperatureFactor := getTemperatureSuitability ops st.cs
        let lifeProbPerHabitable := 1e-8 * timeFactor * metallicityFactor * temperatureFactor
        let deltaLife := st.cs.habitableSystemsCount * lifeProbPerHabitable * (dt / 1e8)
        let st := { st with cs := { st.cs with
          lifeBearingPlanetsCount := max 0 (st.cs.lifeBearingPlanetsCount + deltaLife) } }
        let st :=
          if 1 ≤ st.cs.lifeBearingPlanetsCount ∧ st.milestones.firstLife = false then
            recordMilestone .firstLife "Abiogenesis Event"
              "Life has emerged in the universe" st
          else st
        if 1000 < st.cs.lifeBearingPlanetsCount ∧ st.milestones.complexLifeEra = false then
          recordMilestone .complexLifeEra "Complex Life Era"
            "Complex multicellular life is widespread" st
        else st
      else st
    manageCivilizations ops opts ageGyr dt st

/-- `_calculateEntropyFactor()`. -/
def calculateEntropyFactor (ops : MathOps) (cs : CurrentState) : ℚ :=
  max 0 (1 - ops.pow07 (cs.entropy / 3e14))

/-- `_calculateStructureFactor()`. -/
def calculateStructureFactor (consts : Constants) (cs : CurrentState) : ℚ :=
  let ageGyr := cs.age / 1e9
  let expectedGalaxies := consts.observableGalaxies * min (ageGyr / 13.8) 1
  let galaxyFactor := min 1 (cs.galaxyCount / max 1 (expectedGalaxies * 0.3))
  let expectedStars := cs.galaxyCount * consts.averageStarsPerGalaxy * 0.5
  let starFactor := min 1 (cs.starCount / max 1 expectedStars)
  (galaxyFactor + starFactor) / 2

/-- `_calculateDarkEnergyFactor()`. -/
def calculateDarkEnergyFactor (consts : Constants) (cs : CurrentState) : ℚ :=
  let a := cs.scaleFactor
  let matterDensity := (consts.darkMatterDensity + consts.baryonicDensity) / a ^ 3
  let darkEnergyDensity := consts.darkEnergyDensity
  let totalDensity := matterDensity + darkEnergyDensity
  let deFraction := darkEnergyDensity / max 1e-12 totalDensity
  if deFraction < 0.95 then 1.0
  else max 0 (1 - ((deFraction - 0.95) / 0.05) ^ 2)

/-- `_calculateAnomalyFactor()` — reads only the resolved flags of the
universe's anomaly list. -/
def calculateAnomalyFactor (anoms : List Anomaly) : ℚ :=
  let unresolved := (anoms.filter fun a => !a.resolved).length
  let total := anoms.length
  let unresolvedImpact := min ((unresolved : ℚ) * 0.008) 0.35
  let totalImpact := min ((total : ℚ) * 0.0015) 0.25
  max 0 (1 - unresolvedImpact - totalImpact)

/-- `_calculateStabilityTrend()`: mean of the last 10 history entries minus
the mean of the 10 before (slice semantics preserved for short lists). -/
def calculateStabilityTrend (hist : List ℚ) : ℚ :=
  if hist.length < 10 then 0
  else
    let recent := hist.drop (hist.length - 10)
    let older := (hist.take (hist.length - 10)).drop (hist.length - 20)
    if older.length = 0 then 0
    else recent.sum / (recent.length : ℚ) - older.sum / (older.length : ℚ)

/-- `_calculateComplexityIndex()`. -/
def calculateComplexityIndex (ops : MathOps) (cs : CurrentState) : ℚ :=
  let g := ops.log10 (max 1 cs.galaxyCount) / 12
  let s := ops.log10 (max 1 cs.starCount) / 23
  let l := ops.log10 (max 1 (cs.lifeBearingPlanetsCount + 1)) / 10
  let c := ops.log10 (max 1 (cs.civilizationCount + 1)) / 3
  clamp ((g + s + l + c) / 4) 0 1

/-- `_calculateLifePotentialIndex()`. -/
def calculateLifePotentialIndex (ops : MathOps) (cs : CurrentState) : ℚ :=
  if cs.starCount ≤ 0 then 0
  else
    let habitableFraction := cs.habitableSystemsCount / cs.starCount
    let tempSuitability := getTemperatureSuitability ops cs
    clamp ((habitableFraction * 100 + tempSuitability + cs.stabilityIndex +
      cs.metallicity) / 4) 0 1

/-- `_calculateCosmicHealth()`. -/
def calculateCosmicHealth (ops : MathOps) (cs : CurrentState) : ℚ :=
  clamp (cs.stabilityIndex * 0.4 + calculateComplexityIndex ops cs * 0.3 +
    calculateLifePotentialIndex ops cs * 0.3) 0 1

/-- `_updateStability()`: weighted composite, difficulty scaling, clamp,
history push (ring of 100), and the metrics refresh. -/
def updateStability (ops : MathOps) (opts : EngineOptions) (consts : Constants)
    (anoms : List Anomaly) (st0 : PhysSt) : PhysSt :=
  let cs := st0.cs
  let entropyFactor := calculateEntropyFactor ops cs
  let structureFactor := calculateStructureFactor consts cs
  let darkEnergyFactor := calculateDarkEnergyFactor consts cs
  let temperatureFactor := getTemperatureSuitability ops cs
  let anomalyFactor := calculateAnomalyFactor anoms
  let energyFactor := cs.energyBudget
  let rawStability :=
    0.15 * entropyFactor + 0.25 * structureFactor + 0.15 * darkEnergyFactor +
    0.15 * temperatureFactor + 0.20 * anomalyFactor + 0.10 * energyFactor
  let diffMod := opts.difficultyModifier
  let rawStability := rawStability * (0.6 + 0.4 / diffMod)
  let cs := { cs with stabilityIndex := clamp rawStability 0 1 }
  let hist := st0.stabilityHistory ++ [cs.stabilityIndex]
  let hist := if 100 < hist.length then hist.drop 1 else hist
  let metrics := { st0.metrics with
    stabilityScore := cs.stabilityIndex,
    stabilityTrend := calculateStabilityTrend hist,
    complexityIndex := calculateComplexityIndex ops cs,
    lifePotentialIndex := calculateLifePotentialIndex ops cs,
    cosmicHealth := calculateCosmicHealth ops cs }
  { st0 with cs := cs, stabilityHistory := hist, metrics := metrics }

/-- `simulateStep()` of the enhanced engine: expansion, structures, life,
stability, then `lastModified = new Date()`. `anoms` is the universe's
anomaly list (read by the anomaly factor). -/
def simulateStep (ops : MathOps) (opts : EngineOptions) (consts : Constants)
    (T0 : ℚ) (anoms : List Anomaly) (st0 : PhysSt) : PhysSt :=
  let st := { st0 with cs := updateExpansion ops opts consts T0 st0.cs }
  let st := updateStructures ops opts consts st
  let st := updateLifeEvolution ops opts st
  let st := updateStability ops opts consts anoms st
  let lm := st.clock.next
  { st with clock := lm.2, lastModified := lm.1 }

/-! ## EndConditions (`EndConditions.checkEndConditions`) -/

/-- Set the four ending fields (`status/endCondition/endReason/finalAge`).
The source interpolates numbers into `endReason`; the embedding keeps the
fixed text. -/
def endUniverse (u : Universe) (cond reason : String) (ageGyr : ℚ) : Universe :=
  { u with
    status := UStatus.ended, endCondition := some cond,
    endReason := some reason, finalAge := some ageGyr }

/-- `checkEndConditions()`: the six predicates in source order; the first
match ends the universe and returns `true`. `hist` is the
`options.stabilityHistory` the orchestrator refreshes each tick;
`hist.drop (hist.length - 10)` is `slice(-10)`. -/
def checkEndConditions (diffMod : ℚ) (hist : List ℚ) (u : Universe) :
    Universe × Bool :=
  let cs := u.currentState
  let ageGyr := cs.age / 1e9
  let stabilityThreshold := 0.05 / diffMod
  let heatDeathAge := 200 / diffMod
  let recentStability := hist.drop (hist.length - 10)
  if cs.stabilityIndex < stabilityThreshold ∧ 10 ≤ recentStability.length ∧
      recentStability.sum / (recentStability.length : ℚ) < stabilityThreshold * 2 then
    (endUniverse u "instability-collapse"
      "Sustained stability below threshold for extended period" ageGyr, true)
  else if heatDeathAge < ageGyr ∧ cs.energyBudget < 0.05 then
    (endUniverse u "heat-death"
      "Universe reached extreme age with energy exhausted - thermal equilibrium achieved"
      ageGyr, true)
  else if 80 < ageGyr ∧ cs.starCount < 1e4 ∧ cs.energyBudget < 0.08 then
    (endUniverse u "stellar-death"
      "All stars have died - universe entering dark era" ageGyr, true)
  else if 1e9 < cs.scaleFactor then
    (endUniverse u "big-rip"
      "Expansion exceeded critical threshold - universe torn apart" ageGyr, true)
  else if cs.scaleFactor < 1e-8 then
    (endUniverse u "big-crunch" "Universe collapsed back to singularity" ageGyr, true)
  else if 2e15 < cs.entropy ∧ cs.energyBudget < 0.02 then
    (endUniverse u "maximum-entropy"
      "Maximum entropy reached - no free energy remains" ageGyr, true)
  else (u, false)

/-! ## Step orchestrator (`POST /:id/simulate` in the universe router) -/

/-- The difficulty configuration table (`difficultyOptions(difficulty)`). -/
structure DiffOpts where
  timeStepYears : ℚ
  anomalyProbabilityScale : ℚ
  maxAnomalyPerStep : ℚ
  observableGalaxiesMultiplier : ℚ
  difficultyModifier : ℚ
deriving DecidableEq

/-- `difficultyOptions(difficulty)` — unknown difficulties fall back to
Intermediate in the source; the model's `Difficulty` is already the enum. -/
def difficultyOptions : Difficulty → DiffOpts
  | .Beginner =>
    { timeStepYears := 5e7, anomalyProbabilityScale := 0.002,
      maxAnomalyPerStep := 1, observableGalaxiesMultiplier := 0.7,
      difficultyModifier := 0.5 }
  | .Intermediate =>
    { timeStepYears := 2e7, anomalyProbabilityScale := 0.008,
      maxAnomalyPerStep := 3, observableGalaxiesMultiplier := 1.0,
      difficultyModifier := 1.0 }
  | .Advanced =>
    { timeStepYears := 1e7, anomalyProbabilityScale := 0.02,
      maxAnomalyPerStep := 5, observableGalaxiesMultiplier := 1.3,
      difficultyModifier := 2.0 }

/-- Engine options the route builds (remaining fields are constructor
defaults). -/
def mkEngineOptions (d : DiffOpts) : EngineOptions :=
  { timeStepYears := d.timeStepYears, maxScaleFactorExp := 50,
    difficultyModifier := d.difficultyModifier, maxCivilizations := 500,
    civilizationCullInterval := 10 }

/-- Anomaly options the route builds (`playerPosition` defaults to the
origin). -/
def mkAnomalyOptions (d : DiffOpts) : AnomalyOptions :=
  { anomalyProbabilityScale := d.anomalyProbabilityScale,
    maxAnomalyPerStep := d.maxAnomalyPerStep,
    difficultyModifier := d.difficultyModifier,
    playerPositionX := 0, playerPositionY := 0 }

/-- The whole per-request simulation state: the universe document plus the
engines' stream cursors and engine-local tracking (fresh per request, since
the route constructs new engines every call). -/
structure EngineSt where
  uni : Universe
  physRng : Rng
  anomRng : Rng
  clock : Rng
  ambRand : Rng
  stabilityHistory : List ℚ
  stepsSinceLastCull : ℕ

/-- View the orchestrator state as the physics engine's context. -/
def EngineSt.physView (s : EngineSt) : PhysSt :=
  { cs := s.uni.currentState, milestones := s.uni.milestones,
    events := s.uni.significantEvents, civs := s.uni.civilizations,
    metrics := s.uni.metrics, physRng := s.physRng, clock := s.clock,
    stepsSinceLastCull := s.stepsSinceLastCull,
    stabilityHistory := s.stabilityHistory, lastModified := s.uni.lastModified }

/-- Write a physics context back into the orchestrator state. -/
def EngineSt.absorbPhys (s : EngineSt) (p : PhysSt) : EngineSt :=
  { s with
    uni := { s.uni with
             currentState := p.cs, milestones := p.milestones,
             significantEvents := p.events, civilizations := p.civs,
             metrics := p.metrics, lastModified := p.lastModified },
    physRng := p.physRng, clock := p.clock,
    stepsSinceLastCull := p.stepsSinceLastCull,
    stabilityHistory := p.stabilityHistory }

/-- The route's per-created-anomaly loop: apply `effectsRaw` to the state,
then record the anomaly event when fewer than 2000 events exist. -/
def applyCreated : List Anomaly → EngineSt → EngineSt
  | [], s => s
  | a :: rest, s =>
    let cs := applyAnomalyEffects a.effectsRaw s.uni.currentState
    let s := { s with uni := { s.uni with currentState := cs } }
    let s :=
      if s.uni.significantEvents.length < 2000 then
        let ts := s.clock.next
        { s with
          clock := ts.2,
          uni := { s.uni with
                   significantEvents := s.uni.significantEvents ++
                     [{ timestamp := ts.1, age := cs.age, type := a.type,
                        description := a.description,
                        effects := EvEffects.anomalyFx a.effectsRaw,
                        ageGyr := cs.age / 1e9 }] } }
      else s
    applyCreated rest s

/-- Tick sub-phase A: `Physics.simulateStep()`. -/
def tickPhysics (ops : MathOps) (d : DiffOpts) (s0 : EngineSt) : EngineSt :=
  s0.absorbPhys (simulateStep ops (mkEngineOptions d) s0.uni.constants
    s0.uni.initialTemperature s0.uni.anomalies s0.physView)

/-- Tick sub-phase B1: `AnomalyGen.generateAnomalies()` (which runs
`autoCleanup` internally); the state takes the cleaned list and the advanced
streams; the created anomalies are returned alongside. -/
def tickGenerate (ops : MathOps) (d : DiffOpts) (s : EngineSt) :
    EngineSt × List Anomaly :=
  let gen := generateAnomalies ops (mkAnomalyOptions d) s.uni s.anomRng s.clock
    s.ambRand
  ({ s with
     uni := { s.uni with anomalies := gen.anoms },
     anomRng := gen.anomRng, clock := gen.clock, ambRand := gen.ambRand },
   gen.created)

/-- Tick sub-phase B2: apply each created anomaly's effects and record its
event, then append the created anomalies to the universe's list. -/
def tickApplyEffects (created : List Anomaly) (s : EngineSt) : EngineSt :=
  let s := applyCreated created s
  { s with uni := { s.uni with anomalies := s.uni.anomalies ++ created } }

/-- Tick sub-phase C: `AnomalyGen.decayUnresolvedAnomalies()`. -/
def tickDecay (s : EngineSt) : EngineSt :=
  let dec := decayUnresolvedAnomalies s.anomRng s.uni.currentState.stabilityIndex
    s.uni.anomalies
  { s with
    uni := { s.uni with
             anomalies := dec.1,
             currentState := { s.uni.currentState with stabilityIndex := dec.2.1 } },
    anomRng := dec.2.2 }

/-- Tick sub-phase D: `Physics._updateStability()` after anomaly effects. -/
def tickStability (ops : MathOps) (d : DiffOpts) (s : EngineSt) : EngineSt :=
  s.absorbPhys (updateStability ops (mkEngineOptions d) s.uni.constants
    s.uni.anomalies s.physView)

/-- Tick sub-phase E: `EndChecker.checkEndConditions()` with the engine's
current stability history; on termination record the `universe_end` event. -/
def tickEndCheck (d : DiffOpts) (s : EngineSt) : EngineSt × Bool :=
  let ec := checkEndConditions d.difficultyModifier s.stabilityHistory s.uni
  if ec.2 then
    let u := ec.1
    let ts := s.clock.next
    let u := { u with
      significantEvents := u.significantEvents ++
        [{ timestamp := ts.1, age := u.currentState.age, type := "universe_end",
           description := u.endReason.getD "", effects := EvEffects.emptyFx,
           ageGyr := u.currentState.age / 1e9 }] }
    ({ s with uni := u, clock := ts.2 }, true)
  else ({ s with uni := ec.1 }, false)

/-- One iteration of the route's simulation loop: physics step, anomaly
generation, effect application and event recording, appending the new
anomalies, decay, stability refresh, end-condition check. Returns the state
and the `hasEnded` flag. -/
def orchTick (ops : MathOps) (d : DiffOpts) (s0 : EngineSt) : EngineSt × Bool :=
  let s := tickPhysics ops d s0
  let g := tickGenerate ops d s
  let s := tickApplyEffects g.2 g.1
  let s := tickDecay s
  let s := tickStability ops d s
  tickEndCheck d s

/-- The `for (let i = 0; i < steps; i++) { ...; if (hasEnded) break; }` loop;
also counts executed ticks. -/
def orchLoop (ops : MathOps) (d : DiffOpts) : ℕ → EngineSt → EngineSt × ℕ
  | 0, s => (s, 0)
  | n + 1, s =>
    let t := orchTick ops d s
    if t.2 then (t.1, 1)
    else
      let r := orchLoop ops d n t.1
      (r.1, r.2 + 1)

/-- `steps = Math.min(Math.max(1, Math.floor(requested)), 100)`. -/
def computeSteps (requested : ℚ) : ℕ := (min (max 1 ⌊requested⌋) 100).toNat

/-- Outcome of `POST /:id/simulate` (universe-found case): the HTTP status,
the persisted universe, and how many ticks ran. -/
structure SimulateResult where
  httpStatus : ℕ
  uni : Universe
  ticksRun : ℕ

/-- `POST /:id/simulate`: reject ended universes with 400; otherwise apply
the difficulty's `observableGalaxies` multiplier (over the hardcoded 2e11
base), construct fresh engines (fresh stream cursors and engine-local
history), run the loop, set `lastModified`, and persist. -/
def simulateRoute (ops : MathOps) (physStream anomStream clockStream ambStream : ℕ → ℚ)
    (requested : ℚ) (u : Universe) : SimulateResult :=
  let steps := computeSteps requested
  if u.status = UStatus.ended then { httpStatus := 400, uni := u, ticksRun := 0 }
  else
    let d := difficultyOptions u.difficulty
    let u := { u with constants := { u.constants with
      observableGalaxies := 2e11 * d.observableGalaxiesMultiplier } }
    let s : EngineSt :=
      { uni := u, physRng := ⟨physStream, 0⟩, anomRng := ⟨anomStream, 0⟩,
        clock := ⟨clockStream, 0⟩, ambRand := ⟨ambStream, 0⟩,
        stabilityHistory := [], stepsSinceLastCull := 0 }
    let r := orchLoop ops d steps s
    let lm := r.1.clock.next
    { httpStatus := 200, uni := { r.1.uni with lastModified := lm.1 },
      ticksRun := r.2 }

/-- Outcome of `POST /:id/resolve-anomaly` (universe-found case). -/
structure ResolveRouteResult where
  httpStatus : ℕ
  uni : Universe
deriving DecidableEq

/-- `POST /:id/resolve-anomaly`: 400 when `anomalyId` is missing, when the
universe has ended, or when `resolveAnomaly` refuses (unknown id or already
resolved); on success record the `anomaly_resolved` event (under the 2000
guard), touch `lastModified`, persist, and answer 200. -/
def resolveAnomalyRoute (u : Universe) (anomalyId : Option (ℚ × ℚ))
    (clockStream : ℕ → ℚ) : ResolveRouteResult :=
  match anomalyId with
  | none => { httpStatus := 400, uni := u }
  | some idv =>
    if u.status = UStatus.ended then { httpStatus := 400, uni := u }
    else
      let clock : Rng := ⟨clockStream, 0⟩
      let now := clock.next
      let r := resolveAnomaly u idv.1 idv.2 now.1
      if r.1.success = false then { httpStatus := 400, uni := u }
      else
        let u' := r.2
        let resolvedType := (r.1.anomaly.map fun a => a.type).getD ""
        let resolvedCat := (r.1.anomaly.map fun a => a.category).getD Category.quantum
        let resolvedSev := (r.1.anomaly.map fun a => a.severity).getD 0
        let u' :=
          if u'.significantEvents.length < 2000 then
            let ts := now.2.next
            { u' with
              significantEvents := u'.significantEvents ++
                [{ timestamp := ts.1, age := u'.currentState.age,
                   type := "anomaly_resolved",
                   description := "Resolved " ++ resolvedType ++ " anomaly",
                   effects := EvEffects.resolvedFx idv.1 idv.2 resolvedCat
                     resolvedSev r.1.stabilityBoost r.1.entropyReduction,
                   ageGyr := u'.currentState.age / 1e9 }] }
          else u'
        let lm := (now.2.next).2.next
        { httpStatus := 200, uni := { u' with lastModified := lm.1 } }

/-- `POST /:id/cleanup-anomalies`: drop resolved anomalies older than
`keepRecentMinutes`; only a nonempty removal touches `lastModified` and
saves. -/
def cleanupAnomaliesRoute (u : Universe) (keepRecentMinutes : ℚ)
    (clockStream : ℕ → ℚ) : Universe :=
  let cutoffTime := clockStream 0 - keepRecentMinutes * 60 * 1000
  let anoms := u.anomalies.filter fun a =>
    !a.resolved || decide (cutoffTime < a.resolvedAt.getD a.timestamp)
  if anoms.length < u.anomalies.length then
    { u with anomalies := anoms, lastModified := clockStream 1 }
  else u

/-- The universe `POST /universe` creates: the route's `currentState` literal
combined with the schema defaults for the fields it leaves out
(`metallicity`, `cosmicPhase`, `stellarGenerations`, `energyBudget`, the
civilization counters, the milestone flags, the remaining metrics).
`constants` is the user-supplied object merged over the defaults, `T0` the
initial temperature, `now` the creation clock. -/
def initialUniverse (difficulty : Difficulty) (constants : Constants)
    (T0 now : ℚ) : Universe :=
  { difficulty := difficulty, constants := constants,
    initialTemperature := T0,
    currentState :=
      { age := 0, scaleFactor := 1.0, expansionRate := constants.H0_km_s_Mpc,
        temperature := T0, entropy := 0, stabilityIndex := 1.0,
        galaxyCount := 0, starCount := 0, blackHoleCount := 0,
        habitableSystemsCount := 0, lifeBearingPlanetsCount := 0,
        civilizationCount := 0, metallicity := 0,
        cosmicPhase := CosmicPhase.dark_ages, stellarGenerations := 0,
        energyBudget := 1.0, civilizationsCreated := 0,
        civilizationsExtinct := 0 },
    anomalies := [], civilizations := [], significantEvents := [],
    milestones :=
      { firstGalaxy := false, firstStar := false, firstLife := false,
        firstCivilization := false, stellarPopulationI := false,
        complexLifeEra := false, technologicalSingularity := false,
        greatFilter := false, transcendence := false },
    metrics :=
      { playerInterventions := 0, anomalyResolutionRate := 0,
        anomaliesResolved := 0, stabilityScore := 1.0, stabilityTrend := 0,
        complexityIndex := 0, lifePotentialIndex := 0, cosmicHealth := 1.0 },
    status := UStatus.running, endCondition := none, endReason := none,
    finalAge := none, lastModified := now }

/-! ## Concrete fixtures

Used by witnesses and counterexamples. `constOps` is one admissible
instantiation of the abstracted `Math.*` primitives (any instantiation
satisfying a theorem's stated hypotheses would do). -/

/-- A concrete `MathOps` instantiation: `exp ≡ 1`, all other primitives `≡ 0`.
It satisfies the bounds the theorems assume of the real primitives on the
relevant intervals (`9/10 ≤ exp x ≤ 2` on `[-1/10, 1/10]`, `log x ≥ 0` for
`x ≥ 1`). -/
def constOps : MathOps :=
  { exp := fun _ => 1, log := fun _ => 0, sqrt := fun _ => 0,
    cos := fun _ => 0, sin := fun _ => 0, pow07 := fun _ => 0,
    log10 := fun _ => 0, pi := 0 }

/-- The default constants (`POST /universe` with no user overrides). -/
def defaultConstants : Constants :=
  { H0_km_s_Mpc := 67.4, darkMatterDensity := 0.26, darkEnergyDensity := 0.69,
    baryonicDensity := 0.05, observableGalaxies := 2e11,
    averageStarsPerGalaxy := 1e10 }

/-- The all-zero stream. -/
def zeroStream : ℕ → ℚ := fun _ => 0

/-- A freshly created universe (Beginner, default constants, `T0 = 2.725`,
created at clock 0). -/
def freshU : Universe := initialUniverse Difficulty.Beginner defaultConstants 2.725 0

/-- `_calculateExtinctionRisk` with the shadowed
`else if (civ.stability < 0.1) baseRisk *= 100` branch removed — used only to
state that that branch is dead code in the source. -/
def calculateExtinctionRiskNo100 (civ : Civilization) (cosmicState : CurrentState) : ℚ :=
  let baseRisk : ℚ := 1e-5
  let baseRisk :=
    if civ.stability < 0.3 then baseRisk * ((1 - civ.stability) * 50)
    else baseRisk
  let baseRisk := if 0.8 < civ.resourceDepletion then baseRisk * 20 else baseRisk
  let baseRisk := if 0.8 < civ.warlikeness then baseRisk * 10 else baseRisk
  let baseRisk :=
    if civ.type = CivType.Type0 then baseRisk * 5
    else if civ.type = CivType.Type3 then baseRisk * 0.1
    else baseRisk
  let baseRisk :=
    if cosmicState.stabilityIndex < 0.5 then
      baseRisk * ((1 - cosmicState.stabilityIndex) * 3)
    else baseRisk
  let ageMillions := civ.age / 1e6
  let baseRisk :=
    if ageMillions < 10 then baseRisk * 2
    else if 1000 < ageMillions then baseRisk * 1.5
    else baseRisk
  min baseRisk 0.5

/-- A civilization with `stability = 0.05 < 0.1` and every other multiplier
neutral (Type1, no depletion, not warlike, 500 million years old). -/
def civC6 : Civilization :=
  { idClock := 0, idRand := 0, type := CivType.Type1, createdAt := 0,
    age := 5e8, developmentLevel := 0.5, technology := 30, stability := 0.05,
    population := 1e8, resourceDepletion := 0, warlikeness := 0,
    extinct := false, extinctionDate := none, extinctionAge := none }

/-- A cosmic state with `stabilityIndex = 0.6 ≥ 0.5` (no cosmic multiplier). -/
def csC6 : CurrentState := { freshU.currentState with stabilityIndex := 0.6 }

/-- The postcondition of a successful `resolveAnomaly` call on anomaly `a`
(the first match of the id): the result reports success with the marked
anomaly, the stored anomaly is marked resolved at `now`, the state receives
the stability boost, entropy reduction and energy refund, the two counters
increment, and the resolution rate is the resolved/total ratio. -/
def ResolvePost (u : Universe) (idC idR now : ℚ) (a : Anomaly) : Prop :=
  let r := resolveAnomaly u idC idR now
  r.1.success = true ∧
  r.1.anomaly = some { a with resolved := true, resolvedAt := some now } ∧
  r.2.anomalies.find? (idMatches idC idR) =
    some { a with resolved := true, resolvedAt := some now } ∧
  r.2.currentState.stabilityIndex =
    clamp (u.currentState.stabilityIndex + 0.015 * a.severity) 0 1 ∧
  r.2.currentState.entropy = max 0 (u.currentState.entropy - 3e6 * a.severity) ∧
  r.2.currentState.energyBudget =
    clamp (u.currentState.energyBudget + 0.002 * a.severity) 0 1 ∧
  r.2.metrics.playerInterventions = u.metrics.playerInterventions + 1 ∧
  r.2.metrics.anomaliesResolved = u.metrics.anomaliesResolved + 1 ∧
  r.2.metrics.anomalyResolutionRate =
    ((r.2.anomalies.filter fun x => x.resolved).length : ℚ) /
      (r.2.anomalies.length : ℚ)

/-- An unresolved severity-2 anomaly with id components `(5, 7)`. -/
def aC4 : Anomaly :=
  { idClock := 5, idRand := 7, type := "quantumFluctuation",
    category := Category.quantum, severity := 2, timestamp := 0,
    resolved := false, resolvedAt := none, effectsRaw := {}, locX := 0,
    locY := 0, locZ := 0, radius := 2000,
    description := "Quantum vacuum instability", decayRate := 0 }

/-- A running universe holding just `aC4`, with nontrivial state values. -/
def uC4 : Universe :=
  { freshU with
    anomalies := [aC4],
    currentState := { freshU.currentState with
                      stabilityIndex := 0.4, entropy := 1e7,
                      energyBudget := 0.5 } }

/-- `aC4` already resolved, in a universe of its own — the idempotence-side
fixture. -/
def aC5res : Anomaly := { aC4 with resolved := true, resolvedAt := some 1 }

/-- A running universe whose only anomaly is already resolved. -/
def uC5res : Universe := { freshU with anomalies := [aC5res] }

/-- One whole decay pass (`decayUnresolvedAnomalies` over the full list) as a
transformer of (anomaly stream, stabilityIndex, anomaly list) — the shape the
orchestrator applies once per tick. -/
def decayPass (t : Rng × ℚ × List Anomaly) : Rng × ℚ × List Anomaly :=
  let r := decayUnresolvedAnomalies t.1 t.2.1 t.2.2
  (r.2.2, r.2.1, r.1)

/-- The severity invariant decay maintains: at least 1, and an exact multiple
of `0.1` (so the `-0.1` decrement can never cross below 1). -/
def SevOk (a : Anomaly) : Prop := 1 ≤ a.severity ∧ (10 * a.severity).den = 1

/-- A plain unresolved anomaly used to pad fixture lists. -/
def baseAnomaly : Anomaly :=
  { idClock := 0, idRand := 0, type := "quantumFluctuation",
    category := Category.quantum, severity := 2, timestamp := 0,
    resolved := false, resolvedAt := none, effectsRaw := {}, locX := 0,
    locY := 0, locZ := 0, radius := 2000,
    description := "Quantum vacuum instability", decayRate := 0 }

/-- A mature, structure-rich state: several anomaly-type conditions hold and
galactic activity is maximal. -/
def csC2 : CurrentState :=
  { freshU.currentState with
    age := 4e9, galaxyCount := 2e11, starCount := 2e9, blackHoleCount := 2e5,
    cosmicPhase := CosmicPhase.galaxy_formation }

/-- An Advanced universe holding 199 anomalies — one below the cap — in the
`csC2` state. -/
def uC2 : Universe :=
  { (initialUniverse Difficulty.Advanced defaultConstants 2.725 0) with
    currentState := csC2,
    anomalies := List.replicate 199 baseAnomaly }

/-- The orchestrator state for one tick over `uC2` with all-zero streams. -/
def simC2 : EngineSt :=
  { uni := uC2, physRng := ⟨zeroStream, 0⟩, anomRng := ⟨zeroStream, 0⟩,
    clock := ⟨zeroStream, 0⟩, ambRand := ⟨zeroStream, 0⟩,
    stabilityHistory := [], stepsSinceLastCull := 0 }

/-- A concrete generation run (Advanced difficulty, zero streams, `uC2`). -/
def genC10 : GenResult :=
  generateAnomalies constOps (mkAnomalyOptions (difficultyOptions Difficulty.Advanced))
    uC2 ⟨zeroStream, 0⟩ ⟨zeroStream, 0⟩ ⟨zeroStream, 0⟩

/-- The first anomaly `genC10` creates. -/
def aC10 : Anomaly := genC10.created.getD 0 baseAnomaly

/-- `uC2` with one more anomaly: exactly at the 200 cap. -/
def uC2full : Universe := { uC2 with anomalies := List.replicate 200 baseAnomaly }

/-- A concrete physics-engine context over the fresh universe (fixture for
monotonicity witnesses). -/
def stC9 : PhysSt :=
  { cs := freshU.currentState, milestones := freshU.milestones,
    events := [], civs := [], metrics := freshU.metrics,
    physRng := ⟨zeroStream, 0⟩, clock := ⟨zeroStream, 0⟩,
    stepsSinceLastCull := 0, stabilityHistory := [], lastModified := 0 }

/-- `uC2` at the cap with all 200 anomalies resolved long ago (`resolvedAt`
epoch 0): whether `autoCleanup` clears them depends on `Date.now()`. -/
def uC1 : Universe :=
  { uC2 with anomalies :=
      List.replicate 200 { baseAnomaly with resolved := true, resolvedAt := some 0 } }

/-- A wall clock reading five minutes past the other run's. -/
def clockC1 : ℕ → ℚ := fun _ => 1e6

/-- Blank out the part of an anomaly's identifier that comes from the ambient
`Math.random()` source (the spec's "ids aside" comparison). -/
def Anomaly.eraseId (a : Anomaly) : Anomaly := { a with idRand := 0 }

/-- A universe up to ambient-random anomaly-id suffixes. -/
def Universe.eraseIds (u : Universe) : Universe :=
  { u with anomalies := u.anomalies.map Anomaly.eraseId }

/-- An engine state up to the ambient `Math.random()` source: the id suffixes
it produced and the cursor into it. -/
def EngineSt.erase (s : EngineSt) : EngineSt :=
  { s with uni := s.uni.eraseIds, ambRand := ⟨zeroStream, 0⟩ }

/-- A fresh per-request engine state over the fresh universe (fixture for the
range-invariant witness). -/
def sC3 : EngineSt :=
  { uni := freshU, physRng := ⟨zeroStream, 0⟩, anomRng := ⟨zeroStream, 0⟩,
    clock := ⟨zeroStream, 0⟩, ambRand := ⟨zeroStream, 0⟩,
    stabilityHistory := [], stepsSinceLastCull := 0 }

/-- The fresh Beginner universe with `_scaleFactor` forced to `2e9` (the
spec's big-rip test fixture). -/
def uC8 : Universe :=
  { freshU with currentState := { freshU.currentState with scaleFactor := 2e9 } }

/-- The `currentState` fields none of the life/civilization sub-phases ever
write (used to state frame lemmas compactly). -/
def csSim (cs : CurrentState) : ℚ × ℚ × ℚ × ℚ × ℚ × ℚ × ℚ × ℚ :=
  (cs.scaleFactor, cs.stabilityIndex, cs.energyBudget, cs.metallicity,
   cs.age, cs.entropy, cs.stellarGenerations, cs.starCount)

/-- The analytic fact the range proofs assume of the abstracted `Math.exp`:
on `[-1/10, 1/10]` (the only interval `_updateExpansion` ever feeds it after
clamping) the exponential lies between `9/10` and `2`. The true exponential
satisfies this (`e^{0.1} < 2`, `e^{-0.1} > 9/10`). -/
def ExpBounded (ops : MathOps) : Prop :=
  ∀ x : ℚ, -(1/10) ≤ x → x ≤ 1/10 → 9/10 ≤ ops.exp x ∧ ops.exp x ≤ 2

/-- The creation-time shape of an anomaly's severity and of its only
non-clamped multiplicative effect: severity is 1, 2 or 3, and
`scaleFactorBump`, when present, is `0.001 * severity` (only the
`darkEnergySurge` table entry carries it). -/
def BumpOk (a : Anomaly) : Prop :=
  (a.severity = 1 ∨ a.severity = 2 ∨ a.severity = 3) ∧
  (a.effectsRaw.scaleFactorBump = none ∨
   a.effectsRaw.scaleFactorBump = some (0.001 * a.severity))

/-- The declared ranges of the clamped `currentState` fields:
`stabilityIndex`, `energyBudget`, `metallicity` in `[0, 1]` and
`_scaleFactor` in `[1e-10, 1e10]`. -/
def Ranges (cs : CurrentState) : Prop :=
  0 ≤ cs.stabilityIndex ∧ cs.stabilityIndex ≤ 1 ∧
  0 ≤ cs.energyBudget ∧ cs.energyBudget ≤ 1 ∧
  0 ≤ cs.metallicity ∧ cs.metallicity ≤ 1 ∧
  1e-10 ≤ cs.scaleFactor ∧ cs.scaleFactor ≤ 1e10

/-- The reachability invariant: the ranges hold and, while the universe is
still running, the big-rip end check has bounded the scale factor by `1e9`
at the last tick boundary. -/
def UInv (u : Universe) : Prop :=
  Ranges u.currentState ∧
  (u.status ≠ UStatus.ended → u.currentState.scaleFactor ≤ 1e9)

/-- Universe states reachable through the API: creation, simulation ticks
(under the analytic exponential bounds and an in-range anomaly stream),
anomaly resolution, and anomaly cleanup. -/
inductive Reachable : Universe → Prop where
  | init (d : Difficulty) (consts : Constants) (T0 now : ℚ) :
      Reachable (initialUniverse d consts T0 now)
  | simulate (ops : MathOps) (pS aS cS ambS : ℕ → ℚ) (req : ℚ) (u : Universe) :
      Reachable u → ExpBounded ops → ValidStream aS →
      Reachable (simulateRoute ops pS aS cS ambS req u).uni
  | resolve (u : Universe) (idv : Option (ℚ × ℚ)) (cS : ℕ → ℚ) :
      Reachable u → Reachable (resolveAnomalyRoute u idv cS).uni
  | cleanup (u : Universe) (keep : ℚ) (cS : ℕ → ℚ) :
      Reachable u → Reachable (cleanupAnomaliesRoute u keep cS)

/-! ## Lemmas and claim theorems -/

attribute [local semireducible] Rat.add Rat.mul Rat.inv Rat.sub Rat.ofScientific

set_option maxRecDepth 100000

/-- `zeroStream` is in range. -/
theorem zeroStream_valid : ValidStream zeroStream := by
  intro n
  constructor <;> norm_num [zeroStream]

/-- C6: in `_calculateExtinctionRisk`, the per-step risk starts at base
`1e-5` and is multiplied by `(1 - stability) * 50` whenever
`stability < 0.3`; the claimed additional `×100` multiplier for
`stability < 0.1` never applies, because its `else if` is shadowed by the
`stability < 0.3` test: the function coincides everywhere with the variant
whose `×100` branch is deleted, and at a civilization with
`stability = 0.05` the computed risk is `1e-5 · 47.5 = 19/40000`, not the
`1e-5 · 100 = 1/1000` the claim prescribes. -/
theorem C6_extinction_risk_dead_branch :
    (∀ civ cs, calculateExtinctionRisk civ cs = calculateExtinctionRiskNo100 civ cs) ∧
    calculateExtinctionRisk civC6 csC6 = 19 / 40000 ∧
    ((19 : ℚ) / 40000 ≠ 1e-5 * 100) := by
  refine ⟨?_, by decide, by decide⟩
  intro civ cs
  unfold calculateExtinctionRisk calculateExtinctionRiskNo100
  by_cases h : civ.stability < 0.3
  · simp only [if_pos h]
  · have h2 : ¬ civ.stability < 0.1 := fun hc => h (hc.trans (by norm_num))
    simp only [if_neg h, if_neg h2]

/-- Marking the first match keeps the list length. -/
theorem markResolvedFirst_length (idC idR now : ℚ) (l : List Anomaly) :
    (markResolvedFirst idC idR now l).length = l.length := by
  induction l with
  | nil => rfl
  | cons a rest ih =>
    simp only [markResolvedFirst]
    split
    · simp
    · simp [ih]

/-- The marked record still matches the id (only `resolved`/`resolvedAt`
change). -/
theorem idMatches_mark (idC idR now : ℚ) (a : Anomaly) :
    idMatches idC idR { a with resolved := true, resolvedAt := some now } =
      idMatches idC idR a := by
  simp [idMatches]

/-- After marking, `find?` returns the marked first match. -/
theorem markResolvedFirst_find (idC idR now : ℚ) (l : List Anomaly) (a : Anomaly)
    (h : l.find? (idMatches idC idR) = some a) :
    (markResolvedFirst idC idR now l).find? (idMatches idC idR) =
      some { a with resolved := true, resolvedAt := some now } := by
  induction l with
  | nil => simp at h
  | cons x rest ih =>
    by_cases hx : idMatches idC idR x
    · have hxa : x = a := by
        have := List.find?_cons_of_pos (p := idMatches idC idR) rest hx
        rw [this] at h
        exact Option.some_injective _ h
      subst hxa
      rw [markResolvedFirst, if_pos hx]
      exact List.find?_cons_of_pos _ (by rw [idMatches_mark]; exact hx)
    · have hrest : rest.find? (idMatches idC idR) = some a := by
        have := List.find?_cons_of_neg (p := idMatches idC idR) rest
          (by simpa using hx)
        rw [this] at h
        exact h
      rw [markResolvedFirst, if_neg hx]
      rw [List.find?_cons_of_neg _ (by simpa using hx)]
      exact ih hrest

/-- C4: resolving an unresolved anomaly (the first match of the given id)
succeeds, marks it resolved with a `resolvedAt` time, adds exactly
`0.015 * severity` to `stabilityIndex` before the `[0,1]` clamp, subtracts
`3e6 * severity` from entropy floored at 0, adds `0.002 * severity` to
`energyBudget` clamped to `[0,1]`, increments `playerInterventions` and
`anomaliesResolved` by one each, and sets `anomalyResolutionRate` to the
resolved/total ratio. -/
theorem C4_resolve_effects (u : Universe) (idC idR now : ℚ) (a : Anomaly)
    (hfind : u.anomalies.find? (idMatches idC idR) = some a)
    (hunres : a.resolved = false) :
    ResolvePost u idC idR now a := by
  have hmem : a ∈ u.anomalies := List.mem_of_find?_eq_some hfind
  have hne : u.anomalies ≠ [] := List.ne_nil_of_mem hmem
  have hlen : 0 < u.anomalies.length := List.length_pos.mpr hne
  have hlen' : 0 < (markResolvedFirst idC idR now u.anomalies).length := by
    rw [markResolvedFirst_length]; exact hlen
  have hf := markResolvedFirst_find idC idR now u.anomalies a hfind
  unfold ResolvePost resolveAnomaly
  rw [hfind]
  simp only [hunres, Bool.false_eq_true, if_false, if_pos hlen']
  simp [hf]

/-- Witness for C4 at the concrete fixture `uC4` / `aC4`. -/
theorem C4_resolve_effects_witness :
    (uC4.anomalies.find? (idMatches 5 7) = some aC4 ∧ aC4.resolved = false) ∧
    ResolvePost uC4 5 7 1000 aC4 :=
  ⟨⟨by decide, by decide⟩,
   C4_resolve_effects uC4 5 7 1000 aC4 (by decide) (by decide)⟩

/-- C5 counterexample: on a running universe with no matching anomaly, the
resolve route answers HTTP 400 — not the 404 a `NotFound` failure would
carry — with the universe unchanged. -/
theorem C5_unknown_id_is_400_not_404 :
    (resolveAnomalyRoute freshU (some (1, 2)) zeroStream).httpStatus = 400 ∧
    (resolveAnomalyRoute freshU (some (1, 2)) zeroStream).httpStatus ≠ 404 ∧
    (resolveAnomalyRoute freshU (some (1, 2)) zeroStream).uni = freshU :=
  ⟨by decide, by decide, by decide⟩

/-- C5 (amended): on a running universe, a resolve call whose id matches no
anomaly, or whose first match is already resolved, is rejected with the same
HTTP 400 business-rule error ("Anomaly not found or already resolved") and
leaves the whole universe — `currentState`, anomaly list and metrics —
unchanged. -/
theorem C5_resolve_failure_unchanged (u : Universe) (p : ℚ × ℚ)
    (clockS : ℕ → ℚ) (hrun : u.status ≠ UStatus.ended)
    (hfail : u.anomalies.find? (idMatches p.1 p.2) = none ∨
      ∃ a, u.anomalies.find? (idMatches p.1 p.2) = some a ∧ a.resolved = true) :
    resolveAnomalyRoute u (some p) clockS =
      { httpStatus := 400, uni := u } := by
  have hstat : ¬ u.status = UStatus.ended := hrun
  simp only [resolveAnomalyRoute]
  rw [if_neg hstat]
  rcases hfail with h | ⟨a, h, hres⟩
  · simp [resolveAnomaly, h]
  · simp [resolveAnomaly, h, hres]

/-- Witness for C5 at the already-resolved fixture `uC5res`. -/
theorem C5_resolve_failure_unchanged_witness :
    (uC5res.status ≠ UStatus.ended ∧
      uC5res.anomalies.find? (idMatches 5 7) = some aC5res ∧
      aC5res.resolved = true) ∧
    resolveAnomalyRoute uC5res (some (5, 7)) zeroStream =
      { httpStatus := 400, uni := uC5res } :=
  ⟨⟨by decide, by decide, by decide⟩,
   C5_resolve_failure_unchanged uC5res (5, 7) zeroStream (by decide)
     (Or.inr ⟨aC5res, by decide, by decide⟩)⟩

/-- A severity roll in `[0,1)` yields severity 1, 2 or 3. -/
theorem severity_roll_cases (r : ℚ) (h0 : 0 ≤ r) (h1 : r < 1) :
    1 + jsFloor (r * 3) = 1 ∨ 1 + jsFloor (r * 3) = 2 ∨ 1 + jsFloor (r * 3) = 3 := by
  have hk0 : (0 : ℤ) ≤ ⌊r * 3⌋ := Int.floor_nonneg.mpr (by nlinarith)
  have hk3 : ⌊r * 3⌋ < 3 := by
    rw [Int.floor_lt]
    push_cast
    nlinarith
  unfold jsFloor
  set k : ℤ := ⌊r * 3⌋ with hk
  interval_cases k <;> norm_num

/-- A spawn does not change the anomaly stream, only its cursor. -/
theorem spawnAnomaly_stream (ops : MathOps) (opts : AnomalyOptions)
    (d : AnomalyTypeDef) (created : List Anomaly) (rng clock amb : Rng) :
    (spawnAnomaly ops opts d created rng clock amb).anomRng.stream = rng.stream :=
  rfl

/-- A spawn appends exactly one anomaly, whose severity comes from the next
roll and whose effects table entry is evaluated at that severity. -/
theorem spawnAnomaly_created (ops : MathOps) (opts : AnomalyOptions)
    (d : AnomalyTypeDef) (created : List Anomaly) (rng clock amb : Rng) :
    ∃ anom : Anomaly,
      (spawnAnomaly ops opts d created rng clock amb).created = created ++ [anom] ∧
      anom.severity = 1 + jsFloor (rng.next.1 * 3) ∧
      anom.effectsRaw = d.effects (1 + jsFloor (rng.next.1 * 3)) :=
  ⟨_, rfl, rfl, rfl⟩

/-- Any per-spawn property lifts to everything `genLoop` creates. -/
theorem genLoop_created (ops : MathOps) (opts : AnomalyOptions)
    (cs : CurrentState) (ageGyr baseProb : ℚ) (cap : ℤ) (P : Anomaly → Prop)
    (stream : ℕ → ℚ) :
    ∀ (defs : List AnomalyTypeDef) (st : GenState),
      (∀ d ∈ defs, ∀ (idx : ℕ) (clock amb : Rng) (created : List Anomaly),
        ∀ a ∈ (spawnAnomaly ops opts d created ⟨stream, idx⟩ clock amb).created,
          a ∈ created ∨ P a) →
      st.anomRng.stream = stream → (∀ a ∈ st.created, P a) →
      ∀ a ∈ (genLoop ops opts cs ageGyr baseProb cap defs st).created, P a := by
  intro defs
  induction defs with
  | nil =>
    intro st _ _ hc a ha
    exact hc a ha
  | cons d rest ih =>
    intro st hspawnAll hs hc a ha
    have hspawn := hspawnAll d (List.mem_cons_self d rest)
    have hspawnRest := fun d' hd' => hspawnAll d' (List.mem_cons_of_mem d hd')
    rw [genLoop] at ha
    by_cases hcond : d.condition cs ageGyr = true
    · rw [if_pos hcond] at ha
      simp only [] at ha
      by_cases hroll : st.anomRng.next.1 < d.probability * baseProb * 10000
      · rw [if_pos hroll] at ha
        have hnext : st.anomRng.next.2 = ⟨stream, st.anomRng.idx + 1⟩ := by
          rw [← hs]; rfl
        have hsp :
            ∀ b ∈ (spawnAnomaly ops opts d st.created st.anomRng.next.2
                st.clock st.ambRand).created, b ∈ st.created ∨ P b := by
          rw [hnext]
          exact hspawn (st.anomRng.idx + 1) st.clock st.ambRand st.created
        have hsp' :
            ∀ b ∈ (spawnAnomaly ops opts d st.created st.anomRng.next.2
                st.clock st.ambRand).created, P b := by
          intro b hb
          rcases hsp b hb with h | h
          · exact hc b h
          · exact h
        by_cases hcap :
            cap ≤ ((spawnAnomaly ops opts d st.created st.anomRng.next.2
              st.clock st.ambRand).created.length : ℤ)
        · rw [if_pos hcap] at ha
          exact hsp' a ha
        · rw [if_neg hcap] at ha
          exact ih _ hspawnRest (by rw [spawnAnomaly_stream]; rw [← hs]; rfl)
            hsp' a ha
      · rw [if_neg hroll] at ha
        exact ih { st with anomRng := st.anomRng.next.2 } hspawnRest hs hc a ha
    · rw [if_neg hcond] at ha
      exact ih st hspawnRest hs hc a ha

/-- C10: every anomaly `generateAnomalies` creates from in-range rolls has
integer severity 1, 2 or 3; one decay pass preserves the invariant
`severity ≥ 1 ∧ severity a multiple of 0.1` (the `-0.1` decrement fires only
when `severity > 1`, which under the invariant means `severity ≥ 1.1`); the
invariant is preserved by any number of decay passes; and a creation-time
severity in `{1,2,3}` establishes the invariant — so severity never drops
below 1, with exact arithmetic. -/
theorem C10_severity_never_below_one :
    (∀ (ops : MathOps) (opts : AnomalyOptions) (u : Universe)
      (anomRng clock ambRand : Rng), ValidStream anomRng.stream →
      ∀ a ∈ (generateAnomalies ops opts u anomRng clock ambRand).created,
        a.severity = 1 ∨ a.severity = 2 ∨ a.severity = 3) ∧
    (∀ (rng : Rng) (si : ℚ) (l : List Anomaly), (∀ a ∈ l, SevOk a) →
      ∀ a ∈ (decayUnresolvedAnomalies rng si l).1, SevOk a) ∧
    (∀ (n : ℕ) (t : Rng × ℚ × List Anomaly), (∀ a ∈ t.2.2, SevOk a) →
      ∀ a ∈ (decayPass^[n] t).2.2, SevOk a) ∧
    (∀ a : Anomaly, a.severity = 1 ∨ a.severity = 2 ∨ a.severity = 3 → SevOk a) := by
  have harith : ∀ q : ℚ, (10 * q).den = 1 → 1 < q →
      1 ≤ q - 0.1 ∧ (10 * (q - 0.1)).den = 1 := by
    intro q hden hq
    have hnum : ((10 * q).num : ℚ) = 10 * q := by
      rw [← Rat.den_eq_one_iff]
      exact hden
    have h10 : (10 : ℚ) < 10 * q := by linarith
    have hz : (10 : ℤ) < (10 * q).num := by
      have := h10
      rw [← hnum] at this
      exact_mod_cast this
    have hge : (11 : ℤ) ≤ (10 * q).num := hz
    have hge' : (11 : ℚ) ≤ 10 * q := by
      rw [← hnum]
      exact_mod_cast hge
    constructor
    · linarith
    · have : 10 * (q - 0.1) = (((10 * q).num - 1 : ℤ) : ℚ) := by
        push_cast
        rw [hnum]
        ring
      rw [this]
      exact Rat.den_intCast _
  have hdecayStep : ∀ (rng : Rng) (si : ℚ) (a : Anomaly), SevOk a →
      SevOk (decayStep rng si a).1 := by
    intro rng si a h
    unfold decayStep
    split
    · split
      · next hcond =>
        have hh := harith a.severity h.2 hcond.2
        exact ⟨by simpa using hh.1, by simpa using hh.2⟩
      · exact h
    · exact h
  have hdecayList : ∀ (rng : Rng) (si : ℚ) (l : List Anomaly),
      (∀ a ∈ l, SevOk a) →
      ∀ a ∈ (decayUnresolvedAnomalies rng si l).1, SevOk a := by
    intro rng si l
    induction l generalizing rng si with
    | nil =>
      intro _ a ha
      simp [decayUnresolvedAnomalies] at ha
    | cons x rest ih =>
      intro hl a ha
      rw [decayUnresolvedAnomalies] at ha
      simp only [List.mem_cons] at ha
      rcases ha with ha | ha
      · subst ha
        exact hdecayStep _ _ _ (hl x (by simp))
      · exact ih _ _ (fun b hb => hl b (by simp [hb])) a ha
  refine ⟨?_, hdecayList, ?_, ?_⟩
  · intro ops opts u anomRng clock ambRand hvs a ha
    unfold generateAnomalies at ha
    by_cases hskip :
        MAX_ANOMALIES_PER_UNIVERSE ≤ (autoCleanup u.anomalies clock).1.length
    · rw [if_pos hskip] at ha
      simp at ha
    · rw [if_neg hskip] at ha
      refine genLoop_created ops opts u.currentState (u.currentState.age / 1e9)
        (opts.anomalyProbabilityScale *
          min 1 (u.currentState.galaxyCount / max 1 u.constants.observableGalaxies))
        (max 1 ⌊opts.maxAnomalyPerStep⌋)
        (fun a => a.severity = 1 ∨ a.severity = 2 ∨ a.severity = 3)
        anomRng.stream getAnomalyTypes _ ?_ rfl (by simp) a ha
      intro d hd idx clock' amb' created b hb
      rcases spawnAnomaly_created ops opts d created ⟨anomRng.stream, idx⟩ clock' amb'
        with ⟨anom, heq, hsev, _⟩
      rw [heq] at hb
      rcases List.mem_append.mp hb with h | h
      · exact Or.inl h
      · refine Or.inr ?_
        have hba : b = anom := List.mem_singleton.mp h
        subst hba
        show b.severity = 1 ∨ b.severity = 2 ∨ b.severity = 3
        rw [hsev]
        exact severity_roll_cases _ (hvs idx).1 (hvs idx).2
  · intro n
    induction n with
    | zero =>
      intro t ht a ha
      simpa using ht a (by simpa using ha)
    | succ m ihm =>
      intro t ht a ha
      rw [Function.iterate_succ_apply] at ha
      refine ihm (decayPass t) ?_ a ha
      intro b hb
      exact hdecayList _ _ _ ht b hb
  · intro a h
    rcases h with h | h | h <;> rw [SevOk, h] <;> exact ⟨by norm_num, by decide⟩

/-- Witness for C10 at the concrete generation `genC10` and a one-element
decay list. -/
theorem C10_severity_never_below_one_witness :
    (ValidStream zeroStream ∧ aC10 ∈ genC10.created) ∧
    (aC10.severity = 1 ∨ aC10.severity = 2 ∨ aC10.severity = 3) ∧ SevOk aC10 :=
  ⟨⟨zeroStream_valid, by decide⟩,
   C10_severity_never_below_one.1 constOps
     (mkAnomalyOptions (difficultyOptions Difficulty.Advanced)) uC2
     ⟨zeroStream, 0⟩ ⟨zeroStream, 0⟩ ⟨zeroStream, 0⟩ zeroStream_valid aC10
     (by decide),
   C10_severity_never_below_one.2.2.2 aC10
     (C10_severity_never_below_one.1 constOps
       (mkAnomalyOptions (difficultyOptions Difficulty.Advanced)) uC2
       ⟨zeroStream, 0⟩ ⟨zeroStream, 0⟩ ⟨zeroStream, 0⟩ zeroStream_valid aC10
       (by decide))⟩

/-- The generation loop never grows `created` past the cap, starting below
it. -/
theorem genLoop_length_le (ops : MathOps) (opts : AnomalyOptions)
    (cs : CurrentState) (ageGyr baseProb : ℚ) (cap : ℤ) :
    ∀ (defs : List AnomalyTypeDef) (st : GenState),
      (st.created.length : ℤ) < cap →
      ((genLoop ops opts cs ageGyr baseProb cap defs st).created.length : ℤ) ≤ cap := by
  intro defs
  induction defs with
  | nil =>
    intro st h
    exact le_of_lt h
  | cons d rest ih =>
    intro st h
    rw [genLoop]
    by_cases hcond : d.condition cs ageGyr = true
    · rw [if_pos hcond]
      simp only []
      by_cases hroll : st.anomRng.next.1 < d.probability * baseProb * 10000
      · rw [if_pos hroll]
        have hlen : ((spawnAnomaly ops opts d st.created st.anomRng.next.2
            st.clock st.ambRand).created.length : ℤ) = st.created.length + 1 := by
          rcases spawnAnomaly_created ops opts d st.created st.anomRng.next.2
            st.clock st.ambRand with ⟨anom, heq, -, -⟩
          rw [heq]
          simp
        by_cases hcap : cap ≤ ((spawnAnomaly ops opts d st.created
            st.anomRng.next.2 st.clock st.ambRand).created.length : ℤ)
        · rw [if_pos hcap, hlen]
          omega
        · rw [if_neg hcap]
          exact ih _ (not_le.mp hcap)
      · rw [if_neg hroll]
        exact ih _ h
    · rw [if_neg hcond]
      exact ih st h

/-- `autoCleanup` can only shrink the list. -/
theorem autoCleanup_length_le (anoms : List Anomaly) (clock : Rng) :
    (autoCleanup anoms clock).1.length ≤ anoms.length := by
  unfold autoCleanup
  split
  · exact List.length_filter_le _ _
  · exact le_rfl

/-- `autoCleanup` never removes an unresolved anomaly. -/
theorem autoCleanup_keeps_unresolved (anoms : List Anomaly) (clock : Rng)
    (a : Anomaly) (ha : a ∈ anoms) (hres : a.resolved = false) :
    a ∈ (autoCleanup anoms clock).1 := by
  unfold autoCleanup
  split
  · exact List.mem_filter.mpr ⟨ha, by simp [hres]⟩
  · exact ha

/-- The anomaly list `generateAnomalies` leaves in the universe is exactly
the `autoCleanup` output. -/
theorem generateAnomalies_anoms (ops : MathOps) (opts : AnomalyOptions)
    (u : Universe) (anomRng clock ambRand : Rng) :
    (generateAnomalies ops opts u anomRng clock ambRand).anoms =
      (autoCleanup u.anomalies clock).1 := by
  simp only [generateAnomalies]
  split <;> rfl

/-- C2 counterexample: a universe holding 199 anomalies is below the cap, so
generation still runs, and one Advanced tick (cap 5 per step) pushes the
total to 204 — the "never exceeds 200" bound is false. -/
theorem C2_cap_exceeded_counterexample :
    (orchTick constOps (difficultyOptions Difficulty.Advanced) simC2).1.uni.anomalies.length = 204 ∧
    200 < (orchTick constOps (difficultyOptions Difficulty.Advanced) simC2).1.uni.anomalies.length := by
  have h : (orchTick constOps (difficultyOptions Difficulty.Advanced) simC2).1.uni.anomalies.length = 204 := by
    decide
  exact ⟨h, by rw [h]; norm_num⟩

/-- C2 (amended): the cap machinery as the code implements it — when the
post-cleanup list is at or above 200, generation returns no anomalies; a
generation step creates at most `max(1, ⌊maxAnomalyPerStep⌋)` anomalies, so
the post-append total is bounded by
`max(previous total, 199 + max(1, ⌊maxAnomalyPerStep⌋))` rather than 200;
cleanup removes only resolved anomalies (those older than five minutes),
never unresolved ones. -/
theorem C2_cap_mechanism (ops : MathOps) (opts : AnomalyOptions) (u : Universe)
    (anomRng clock ambRand : Rng) :
    (MAX_ANOMALIES_PER_UNIVERSE ≤ (autoCleanup u.anomalies clock).1.length →
      (generateAnomalies ops opts u anomRng clock ambRand).created = []) ∧
    (((generateAnomalies ops opts u anomRng clock ambRand).created.length : ℤ) ≤
      max 1 ⌊opts.maxAnomalyPerStep⌋) ∧
    (((generateAnomalies ops opts u anomRng clock ambRand).anoms.length : ℤ) +
      (generateAnomalies ops opts u anomRng clock ambRand).created.length ≤
      max (u.anomalies.length : ℤ) (199 + max 1 ⌊opts.maxAnomalyPerStep⌋)) ∧
    (∀ a ∈ u.anomalies, a.resolved = false →
      a ∈ (generateAnomalies ops opts u anomRng clock ambRand).anoms) := by
  have hanoms := generateAnomalies_anoms ops opts u anomRng clock ambRand
  have hcap1 : (1 : ℤ) ≤ max 1 ⌊opts.maxAnomalyPerStep⌋ := le_max_left _ _
  have hskip : MAX_ANOMALIES_PER_UNIVERSE ≤ (autoCleanup u.anomalies clock).1.length →
      (generateAnomalies ops opts u anomRng clock ambRand).created = [] := by
    intro h
    simp only [generateAnomalies]
    rw [if_pos h]
  have hle : ((generateAnomalies ops opts u anomRng clock ambRand).created.length : ℤ) ≤
      max 1 ⌊opts.maxAnomalyPerStep⌋ := by
    by_cases h : MAX_ANOMALIES_PER_UNIVERSE ≤ (autoCleanup u.anomalies clock).1.length
    · rw [hskip h]
      simpa using le_trans zero_le_one hcap1
    · simp only [generateAnomalies]
      rw [if_neg h]
      exact genLoop_length_le ops opts u.currentState (u.currentState.age / 1e9)
        (opts.anomalyProbabilityScale *
          min 1 (u.currentState.galaxyCount / max 1 u.constants.observableGalaxies))
        (max 1 ⌊opts.maxAnomalyPerStep⌋) getAnomalyTypes
        { created := [], anomRng := anomRng,
          clock := (autoCleanup u.anomalies clock).2, ambRand := ambRand }
        (by simpa using lt_of_lt_of_le zero_lt_one hcap1)
  refine ⟨hskip, hle, ?_, ?_⟩
  · by_cases h : MAX_ANOMALIES_PER_UNIVERSE ≤ (autoCleanup u.anomalies clock).1.length
    · rw [hskip h, hanoms]
      have := autoCleanup_length_le u.anomalies clock
      simp only [List.length_nil]
      have hcast : ((autoCleanup u.anomalies clock).1.length : ℤ) ≤ u.anomalies.length := by
        exact_mod_cast this
      exact le_max_of_le_left (by omega)
    · have hclean : ((autoCleanup u.anomalies clock).1.length : ℤ) ≤ 199 := by
        have : (autoCleanup u.anomalies clock).1.length < MAX_ANOMALIES_PER_UNIVERSE :=
          not_le.mp h
        have h200 : (autoCleanup u.anomalies clock).1.length ≤ 199 := by
          unfold MAX_ANOMALIES_PER_UNIVERSE at this
          omega
        exact_mod_cast h200
      rw [hanoms]
      exact le_max_of_le_right (by omega)
  · intro a ha hres
    rw [hanoms]
    exact autoCleanup_keeps_unresolved u.anomalies clock a ha hres

/-- Witness for C2 at the at-cap fixture `uC2full` (generation skipped) and
the below-cap fixture `uC2` (an unresolved anomaly survives cleanup). -/
theorem C2_cap_mechanism_witness :
    (MAX_ANOMALIES_PER_UNIVERSE ≤
      (autoCleanup uC2full.anomalies ⟨zeroStream, 0⟩).1.length) ∧
    (generateAnomalies constOps (mkAnomalyOptions (difficultyOptions Difficulty.Advanced))
      uC2full ⟨zeroStream, 0⟩ ⟨zeroStream, 0⟩ ⟨zeroStream, 0⟩).created = [] ∧
    (baseAnomaly ∈ uC2.anomalies ∧ baseAnomaly.resolved = false) ∧
    baseAnomaly ∈ (generateAnomalies constOps
      (mkAnomalyOptions (difficultyOptions Difficulty.Advanced)) uC2
      ⟨zeroStream, 0⟩ ⟨zeroStream, 0⟩ ⟨zeroStream, 0⟩).anoms :=
  ⟨by decide,
   (C2_cap_mechanism constOps (mkAnomalyOptions (difficultyOptions Difficulty.Advanced))
     uC2full ⟨zeroStream, 0⟩ ⟨zeroStream, 0⟩ ⟨zeroStream, 0⟩).1 (by decide),
   ⟨by decide, by decide⟩,
   (C2_cap_mechanism constOps (mkAnomalyOptions (difficultyOptions Difficulty.Advanced))
     uC2 ⟨zeroStream, 0⟩ ⟨zeroStream, 0⟩ ⟨zeroStream, 0⟩).2.2.2 baseAnomaly
     (by decide) (by decide)⟩

/-- When `checkEndConditions` reports `true`, it has set `status = ended`. -/
theorem checkEndConditions_true_status (m : ℚ) (h : List ℚ) (u : Universe)
    (he : (checkEndConditions m h u).2 = true) :
    (checkEndConditions m h u).1.status = UStatus.ended := by
  unfold checkEndConditions at he ⊢
  simp only [] at he ⊢
  split_ifs at he ⊢ <;> simp_all [endUniverse]

/-- The end-check sub-phase propagates the ended status. -/
theorem tickEndCheck_ended (d : DiffOpts) (s : EngineSt)
    (he : (tickEndCheck d s).2 = true) :
    (tickEndCheck d s).1.uni.status = UStatus.ended := by
  unfold tickEndCheck at he ⊢
  by_cases hec : (checkEndConditions d.difficultyModifier s.stabilityHistory s.uni).2 = true
  · rw [if_pos hec]
    simpa using checkEndConditions_true_status _ _ _ hec
  · rw [if_neg hec] at he
    simp at he

/-- A tick that reports `hasEnded` leaves the universe ended. -/
theorem orchTick_ended (ops : MathOps) (d : DiffOpts) (s : EngineSt)
    (he : (orchTick ops d s).2 = true) :
    (orchTick ops d s).1.uni.status = UStatus.ended :=
  tickEndCheck_ended d _ he

/-- The simulation loop runs at most `n` ticks, runs fewer than `n` only when
it ended the universe, and runs at least one tick when asked for any. -/
theorem orchLoop_spec (ops : MathOps) (d : DiffOpts) :
    ∀ (n : ℕ) (s : EngineSt),
      (orchLoop ops d n s).2 ≤ n ∧
      ((orchLoop ops d n s).2 < n →
        (orchLoop ops d n s).1.uni.status = UStatus.ended) ∧
      (1 ≤ n → 1 ≤ (orchLoop ops d n s).2) := by
  intro n
  induction n with
  | zero =>
    intro s
    refine ⟨le_rfl, ?_, ?_⟩ <;> intro h <;> simp [orchLoop] at h
  | succ m ihm =>
    intro s
    rw [orchLoop]
    by_cases ht : (orchTick ops d s).2 = true
    · rw [if_pos ht]
      exact ⟨by omega, fun _ => orchTick_ended ops d s ht, fun _ => le_rfl⟩
    · rw [if_neg ht]
      simp only []
      rcases ihm (orchTick ops d s).1 with ⟨h1, h2, _⟩
      exact ⟨by omega, fun hlt => h2 (by omega), fun _ => by omega⟩

/-- C7: a simulate request on an ended universe is rejected (HTTP 400) with
no tick executed and the universe untouched; otherwise the loop executes
exactly `min(max(1, ⌊requestedSteps⌋), 100)` ticks — fewer only when an end
condition terminated the loop, in which case the returned universe is
ended — and always at least one. -/
theorem C7_simulate_step_count (ops : MathOps)
    (physS anomS clockS ambS : ℕ → ℚ) (requested : ℚ) (u : Universe) :
    (u.status = UStatus.ended →
      simulateRoute ops physS anomS clockS ambS requested u =
        { httpStatus := 400, uni := u, ticksRun := 0 }) ∧
    (u.status ≠ UStatus.ended →
      (simulateRoute ops physS anomS clockS ambS requested u).ticksRun ≤
        computeSteps requested ∧
      1 ≤ (simulateRoute ops physS anomS clockS ambS requested u).ticksRun ∧
      ((simulateRoute ops physS anomS clockS ambS requested u).ticksRun <
          computeSteps requested →
        (simulateRoute ops physS anomS clockS ambS requested u).uni.status =
          UStatus.ended) ∧
      computeSteps requested = (min (max 1 ⌊requested⌋) 100).toNat) := by
  have hsteps : 1 ≤ computeSteps requested := by
    unfold computeSteps
    have h1 : (1 : ℤ) ≤ min (max 1 ⌊requested⌋) 100 :=
      le_min (le_max_left _ _) (by norm_num)
    omega
  constructor
  · intro hend
    unfold simulateRoute
    rw [if_pos hend]
  · intro hrun
    unfold simulateRoute
    rw [if_neg hrun]
    rcases orchLoop_spec ops (difficultyOptions u.difficulty)
      (computeSteps requested)
      { uni := { u with constants := { u.constants with
          observableGalaxies := 2e11 *
            (difficultyOptions u.difficulty).observableGalaxiesMultiplier } },
        physRng := ⟨physS, 0⟩, anomRng := ⟨anomS, 0⟩, clock := ⟨clockS, 0⟩,
        ambRand := ⟨ambS, 0⟩, stabilityHistory := [], stepsSinceLastCull := 0 }
      with ⟨h1, h2, h3⟩
    exact ⟨h1, h3 hsteps, fun hlt => by simpa using h2 hlt, rfl⟩

/-- Witness for C7: an ended universe is rejected without ticks; a fresh
universe asked for 3 steps runs within the cap. -/
theorem C7_simulate_step_count_witness :
    ({ freshU with status := UStatus.ended }.status = UStatus.ended ∧
      freshU.status ≠ UStatus.ended) ∧
    simulateRoute constOps zeroStream zeroStream zeroStream zeroStream 3
      { freshU with status := UStatus.ended } =
      { httpStatus := 400, uni := { freshU with status := UStatus.ended },
        ticksRun := 0 } ∧
    (simulateRoute constOps zeroStream zeroStream zeroStream zeroStream 3
      freshU).ticksRun ≤ computeSteps 3 :=
  ⟨⟨by decide, by decide⟩,
   (C7_simulate_step_count constOps zeroStream zeroStream zeroStream zeroStream 3
     { freshU with status := UStatus.ended }).1 (by decide),
   ((C7_simulate_step_count constOps zeroStream zeroStream zeroStream zeroStream 3
     freshU).2 (by decide)).1⟩

/-! ## Frame lemmas: which `currentState` fields each sub-phase leaves alone -/

/-- `clamp` lands in `[lo, hi]` whenever the interval is nonempty. -/
theorem clamp_mem (v lo hi : ℚ) (h : lo ≤ hi) :
    lo ≤ clamp v lo hi ∧ clamp v lo hi ≤ hi := by
  unfold clamp
  exact ⟨le_max_left _ _, max_le h (min_le_left _ _)⟩

/-- `clamp` is bounded by any upper bound of both the value and the floor. -/
theorem clamp_le_of_le (v lo hi B : ℚ) (hv : v ≤ B) (hlo : lo ≤ B) :
    clamp v lo hi ≤ B := by
  unfold clamp
  exact max_le hlo (le_trans (min_le_right _ _) hv)

/-- `clamp` is above any lower bound of both the value and the cap. -/
theorem le_clamp_of_le (v lo hi L : ℚ) (hv : L ≤ v) (hhi : L ≤ hi) :
    L ≤ clamp v lo hi := by
  unfold clamp
  exact le_max_of_le_right (le_min hhi hv)

theorem recordSignificantEvent_cs (typ d : String) (fx : EvEffects) (st : PhysSt) :
    (recordSignificantEvent typ d fx st).cs = st.cs := rfl

theorem recordSignificantEvent_hist (typ d : String) (fx : EvEffects) (st : PhysSt) :
    (recordSignificantEvent typ d fx st).stabilityHistory = st.stabilityHistory := rfl

theorem recordSignificantEvent_civs (typ d : String) (fx : EvEffects) (st : PhysSt) :
    (recordSignificantEvent typ d fx st).civs = st.civs := rfl

theorem recordMilestone_cs (k : MilestoneKey) (t d : String) (st : PhysSt) :
    (recordMilestone k t d st).cs = st.cs := by
  unfold recordMilestone
  split <;> rfl

theorem recordMilestone_hist (k : MilestoneKey) (t d : String) (st : PhysSt) :
    (recordMilestone k t d st).stabilityHistory = st.stabilityHistory := by
  unfold recordMilestone
  split <;> rfl

theorem recordMilestone_civs (k : MilestoneKey) (t d : String) (st : PhysSt) :
    (recordMilestone k t d st).civs = st.civs := by
  unfold recordMilestone
  split <;> rfl

/-- The galaxy block only writes `galaxyCount` (plus its milestone). -/
theorem usGalaxy_frame (ops : MathOps) (opts : EngineOptions)
    (consts : Constants) (st : PhysSt) :
    (usGalaxy ops opts consts st).cs.scaleFactor = st.cs.scaleFactor ∧
    (usGalaxy ops opts consts st).cs.stabilityIndex = st.cs.stabilityIndex ∧
    (usGalaxy ops opts consts st).cs.energyBudget = st.cs.energyBudget ∧
    (usGalaxy ops opts consts st).cs.age = st.cs.age ∧
    (usGalaxy ops opts consts st).cs.entropy = st.cs.entropy ∧
    (usGalaxy ops opts consts st).stabilityHistory = st.stabilityHistory ∧
    (usGalaxy ops opts consts st).cs.metallicity = st.cs.metallicity ∧
    (usGalaxy ops opts consts st).cs.stellarGenerations = st.cs.stellarGenerations ∧
    (usGalaxy ops opts consts st).cs.starCount = st.cs.starCount := by
  refine ⟨?_, ?_, ?_, ?_, ?_, ?_, ?_, ?_, ?_⟩ <;>
  · unfold usGalaxy
    simp only [apply_ite PhysSt.cs, apply_ite PhysSt.stabilityHistory,
      apply_ite CurrentState.scaleFactor, apply_ite CurrentState.stabilityIndex,
      apply_ite CurrentState.energyBudget, apply_ite CurrentState.age,
      apply_ite CurrentState.entropy, apply_ite CurrentState.metallicity,
      apply_ite CurrentState.stellarGenerations, apply_ite CurrentState.starCount,
      recordMilestone_cs, recordMilestone_hist, ite_self]

/-- The star-formation block only writes `starCount` (plus its milestone). -/
theorem usStars_frame (ops : MathOps) (opts : EngineOptions)
    (consts : Constants) (st : PhysSt) :
    (usStars ops opts consts st).cs.scaleFactor = st.cs.scaleFactor ∧
    (usStars ops opts consts st).cs.stabilityIndex = st.cs.stabilityIndex ∧
    (usStars ops opts consts st).cs.energyBudget = st.cs.energyBudget ∧
    (usStars ops opts consts st).cs.age = st.cs.age ∧
    (usStars ops opts consts st).cs.entropy = st.cs.entropy ∧
    (usStars ops opts consts st).stabilityHistory = st.stabilityHistory ∧
    (usStars ops opts consts st).cs.metallicity = st.cs.metallicity ∧
    (usStars ops opts consts st).cs.stellarGenerations = st.cs.stellarGenerations := by
  refine ⟨?_, ?_, ?_, ?_, ?_, ?_, ?_, ?_⟩ <;>
  · unfold usStars
    simp only [apply_ite PhysSt.cs, apply_ite PhysSt.stabilityHistory,
      apply_ite CurrentState.scaleFactor, apply_ite CurrentState.stabilityIndex,
      apply_ite CurrentState.energyBudget, apply_ite CurrentState.age,
      apply_ite CurrentState.entropy, apply_ite CurrentState.metallicity,
      apply_ite CurrentState.stellarGenerations,
      recordMilestone_cs, recordMilestone_hist, ite_self]

/-- The stellar-evolution block only writes `stellarGenerations` and
`metallicity` (plus its milestone). -/
theorem usStellar_frame (opts : EngineOptions) (consts : Constants)
    (st : PhysSt) :
    (usStellar opts consts st).cs.scaleFactor = st.cs.scaleFactor ∧
    (usStellar opts consts st).cs.stabilityIndex = st.cs.stabilityIndex ∧
    (usStellar opts consts st).cs.energyBudget = st.cs.energyBudget ∧
    (usStellar opts consts st).cs.age = st.cs.age ∧
    (usStellar opts consts st).cs.entropy = st.cs.entropy ∧
    (usStellar opts consts st).stabilityHistory = st.stabilityHistory ∧
    (usStellar opts consts st).cs.starCount = st.cs.starCount := by
  refine ⟨?_, ?_, ?_, ?_, ?_, ?_, ?_⟩ <;>
  · unfold usStellar
    simp only [apply_ite PhysSt.cs, apply_ite PhysSt.stabilityHistory,
      apply_ite CurrentState.scaleFactor, apply_ite CurrentState.stabilityIndex,
      apply_ite CurrentState.energyBudget, apply_ite CurrentState.age,
      apply_ite CurrentState.entropy, apply_ite CurrentState.starCount,
      recordMilestone_cs, recordMilestone_hist, ite_self]

/-- The black-hole block only writes `blackHoleCount`. -/
theorem usBlackHoles_frame (opts : EngineOptions) (st : PhysSt) :
    (usBlackHoles opts st).cs.scaleFactor = st.cs.scaleFactor ∧
    (usBlackHoles opts st).cs.stabilityIndex = st.cs.stabilityIndex ∧
    (usBlackHoles opts st).cs.energyBudget = st.cs.energyBudget ∧
    (usBlackHoles opts st).cs.age = st.cs.age ∧
    (usBlackHoles opts st).cs.entropy = st.cs.entropy ∧
    (usBlackHoles opts st).stabilityHistory = st.stabilityHistory ∧
    (usBlackHoles opts st).cs.metallicity = st.cs.metallicity ∧
    (usBlackHoles opts st).cs.stellarGenerations = st.cs.stellarGenerations := by
  refine ⟨?_, ?_, ?_, ?_, ?_, ?_, ?_, ?_⟩ <;>
  · unfold usBlackHoles
    split <;> rfl

/-- `_updateStructures` leaves `scaleFactor`, `stabilityIndex`, `energyBudget`,
`age`, `entropy` and the stability history untouched. -/
theorem updateStructures_frame (ops : MathOps) (opts : EngineOptions)
    (consts : Constants) (st : PhysSt) :
    (updateStructures ops opts consts st).cs.scaleFactor = st.cs.scaleFactor ∧
    (updateStructures ops opts consts st).cs.stabilityIndex = st.cs.stabilityIndex ∧
    (updateStructures ops opts consts st).cs.energyBudget = st.cs.energyBudget ∧
    (updateStructures ops opts consts st).cs.age = st.cs.age ∧
    (updateStructures ops opts consts st).cs.entropy = st.cs.entropy ∧
    (updateStructures ops opts consts st).stabilityHistory = st.stabilityHistory := by
  have hg := usGalaxy_frame ops opts consts st
  have hs := usStars_frame ops opts consts (usGalaxy ops opts consts st)
  have hl := usStellar_frame opts consts
    (usStars ops opts consts (usGalaxy ops opts consts st))
  have hb := usBlackHoles_frame opts (usStellar opts consts
    (usStars ops opts consts (usGalaxy ops opts consts st)))
  unfold updateStructures
  exact ⟨hb.1.trans (hl.1.trans (hs.1.trans hg.1)),
    hb.2.1.trans (hl.2.1.trans (hs.2.1.trans hg.2.1)),
    hb.2.2.1.trans (hl.2.2.1.trans (hs.2.2.1.trans hg.2.2.1)),
    hb.2.2.2.1.trans (hl.2.2.2.1.trans (hs.2.2.2.1.trans hg.2.2.2.1)),
    hb.2.2.2.2.1.trans (hl.2.2.2.2.1.trans (hs.2.2.2.2.1.trans hg.2.2.2.2.1)),
    hb.2.2.2.2.2.1.trans (hl.2.2.2.2.2.1.trans
      (hs.2.2.2.2.2.1.trans hg.2.2.2.2.2.1))⟩

/-- The civilization spawn loop never touches `currentState` or the history. -/
theorem spawnLoop_frame (ageGyr : ℚ) : ∀ (n : ℕ) (st : PhysSt),
    (spawnLoop ageGyr n st).cs = st.cs ∧
    (spawnLoop ageGyr n st).stabilityHistory = st.stabilityHistory := by
  intro n
  induction n with
  | zero => intro st; exact ⟨rfl, rfl⟩
  | succ m ih =>
    intro st
    rw [spawnLoop]
    exact ih _

/-- `_spawnCivilizations` never touches `currentState` or the history. -/
theorem spawnCivilizations_frame (count : ℕ) (ageGyr : ℚ) (st : PhysSt) :
    (spawnCivilizations count ageGyr st).cs = st.cs ∧
    (spawnCivilizations count ageGyr st).stabilityHistory = st.stabilityHistory := by
  unfold spawnCivilizations
  rcases spawnLoop_frame ageGyr count st with ⟨h1, h2⟩
  simp only []
  split
  · rw [recordMilestone_cs, recordMilestone_hist]
    exact ⟨h1, h2⟩
  · exact ⟨h1, h2⟩

/-- The per-civilization evolution body only touches the civilization
counters of `currentState` (via extinction), never the `csSim` fields or the
stability history. -/
theorem evolveCivStep_frame (ops : MathOps) (dt : ℚ) (civ : Civilization)
    (st : PhysSt) :
    csSim (evolveCivStep ops dt civ st).2.cs = csSim st.cs ∧
    (evolveCivStep ops dt civ st).2.stabilityHistory = st.stabilityHistory := by
  refine ⟨?_, ?_⟩ <;>
  · unfold evolveCivStep
    simp only [csSim, apply_ite (Prod.snd : Civilization × PhysSt → PhysSt),
      apply_ite PhysSt.cs, apply_ite PhysSt.stabilityHistory,
      apply_ite CurrentState.scaleFactor, apply_ite CurrentState.stabilityIndex,
      apply_ite CurrentState.energyBudget, apply_ite CurrentState.metallicity,
      apply_ite CurrentState.age, apply_ite CurrentState.entropy,
      apply_ite CurrentState.stellarGenerations, apply_ite CurrentState.starCount,
      recordMilestone_cs, recordMilestone_hist, recordSignificantEvent_cs,
      recordSignificantEvent_hist, ite_self, Prod.mk.injEq, and_self]

/-- The civilization evolution loop preserves the `csSim` fields and the
history. -/
theorem evolveLoop_frame (ops : MathOps) (dt : ℚ) : ∀ (l : List Civilization)
    (st : PhysSt),
    csSim (evolveLoop ops dt l st).2.cs = csSim st.cs ∧
    (evolveLoop ops dt l st).2.stabilityHistory = st.stabilityHistory := by
  intro l
  induction l with
  | nil => intro st; exact ⟨rfl, rfl⟩
  | cons civ rest ih =>
    intro st
    rw [evolveLoop]
    by_cases h : civ.extinct
    · rw [if_pos h]
      exact ih st
    · rw [if_neg h]
      simp only []
      rcases evolveCivStep_frame ops dt civ st with ⟨h1, h2⟩
      rcases ih (evolveCivStep ops dt civ st).2 with ⟨h3, h4⟩
      exact ⟨h3.trans h1, h4.trans h2⟩

/-- `_evolveCivilizations` preserves the `csSim` fields and the history. -/
theorem evolveCivilizations_frame (ops : MathOps) (dt : ℚ) (st : PhysSt) :
    csSim (evolveCivilizations ops dt st).cs = csSim st.cs ∧
    (evolveCivilizations ops dt st).stabilityHistory = st.stabilityHistory := by
  unfold evolveCivilizations
  rcases evolveLoop_frame ops dt st.civs st with ⟨h1, h2⟩
  simp only []
  split
  · rw [recordMilestone_cs, recordMilestone_hist]
    exact ⟨h1, h2⟩
  · exact ⟨h1, h2⟩

/-- Culling only rearranges the civilization list. -/
theorem cullCivilizations_frame (st : PhysSt) :
    (cullCivilizations st).cs = st.cs ∧
    (cullCivilizations st).stabilityHistory = st.stabilityHistory :=
  ⟨rfl, rfl⟩

/-- The catastrophe kill loop only touches the civilization counters of
`currentState`. -/
theorem killFirstActive_frame : ∀ (l : List Civilization) (k : ℕ) (clock : Rng)
    (cs : CurrentState),
    csSim (killFirstActive k clock cs l).2.2 = csSim cs := by
  intro l
  induction l with
  | nil =>
    intro k clock cs
    cases k with
    | zero => rfl
    | succ m => rfl
  | cons c rest ih =>
    intro k clock cs
    cases k with
    | zero => rfl
    | succ m =>
      rw [killFirstActive]
      by_cases h : c.extinct
      · rw [if_pos h]
        exact ih (m + 1) clock cs
      · rw [if_neg h]
        simp only []
        exact (ih m _ _).trans rfl

/-- `_checkCatastrophicEvents` preserves the `csSim` fields and the
history. -/
theorem checkCatastrophicEvents_frame (st : PhysSt) :
    csSim (checkCatastrophicEvents st).cs = csSim st.cs ∧
    (checkCatastrophicEvents st).stabilityHistory = st.stabilityHistory := by
  unfold checkCatastrophicEvents
  simp only []
  split
  · split
    · constructor
      · rw [recordSignificantEvent_cs, recordMilestone_cs]
        exact killFirstActive_frame _ _ _ _
      · rw [recordSignificantEvent_hist, recordMilestone_hist]
    · exact ⟨rfl, rfl⟩
  · exact ⟨rfl, rfl⟩

theorem csSim_eq_scaleFactor {a b : CurrentState} (h : csSim a = csSim b) :
    a.scaleFactor = b.scaleFactor := congrArg (fun p => p.1) h

theorem csSim_eq_stabilityIndex {a b : CurrentState} (h : csSim a = csSim b) :
    a.stabilityIndex = b.stabilityIndex := congrArg (fun p => p.2.1) h

theorem csSim_eq_energyBudget {a b : CurrentState} (h : csSim a = csSim b) :
    a.energyBudget = b.energyBudget := congrArg (fun p => p.2.2.1) h

theorem csSim_eq_metallicity {a b : CurrentState} (h : csSim a = csSim b) :
    a.metallicity = b.metallicity := congrArg (fun p => p.2.2.2.1) h

theorem csSim_eq_age {a b : CurrentState} (h : csSim a = csSim b) :
    a.age = b.age := congrArg (fun p => p.2.2.2.2.1) h

theorem csSim_eq_entropy {a b : CurrentState} (h : csSim a = csSim b) :
    a.entropy = b.entropy := congrArg (fun p => p.2.2.2.2.2.1) h

theorem csSim_eq_stellarGenerations {a b : CurrentState} (h : csSim a = csSim b) :
    a.stellarGenerations = b.stellarGenerations :=
  congrArg (fun p => p.2.2.2.2.2.2.1) h

theorem csSim_eq_starCount {a b : CurrentState} (h : csSim a = csSim b) :
    a.starCount = b.starCount := congrArg (fun p => p.2.2.2.2.2.2.2) h

/-- The civilization counters are invisible to `csSim`. -/
theorem csSim_counters (cs : CurrentState) (a b : ℚ) :
    csSim { cs with civilizationCount := a, civilizationsCreated := b } =
      csSim cs := rfl

/-- `habitableSystemsCount` is invisible to `csSim`. -/
theorem csSim_habitable (cs : CurrentState) (v : ℚ) :
    csSim { cs with habitableSystemsCount := v } = csSim cs := rfl

/-- `lifeBearingPlanetsCount` is invisible to `csSim`. -/
theorem csSim_lifeBearing (cs : CurrentState) (v : ℚ) :
    csSim { cs with lifeBearingPlanetsCount := v } = csSim cs := rfl

theorem spawnCivilizations_cs (count : ℕ) (ageGyr : ℚ) (st : PhysSt) :
    (spawnCivilizations count ageGyr st).cs = st.cs :=
  (spawnCivilizations_frame count ageGyr st).1

theorem spawnCivilizations_hist (count : ℕ) (ageGyr : ℚ) (st : PhysSt) :
    (spawnCivilizations count ageGyr st).stabilityHistory = st.stabilityHistory :=
  (spawnCivilizations_frame count ageGyr st).2

theorem evolveCivilizations_csSim (ops : MathOps) (dt : ℚ) (st : PhysSt) :
    csSim (evolveCivilizations ops dt st).cs = csSim st.cs :=
  (evolveCivilizations_frame ops dt st).1

theorem evolveCivilizations_hist (ops : MathOps) (dt : ℚ) (st : PhysSt) :
    (evolveCivilizations ops dt st).stabilityHistory = st.stabilityHistory :=
  (evolveCivilizations_frame ops dt st).2

theorem cullCivilizations_cs (st : PhysSt) :
    (cullCivilizations st).cs = st.cs := rfl

theorem cullCivilizations_hist (st : PhysSt) :
    (cullCivilizations st).stabilityHistory = st.stabilityHistory := rfl

theorem checkCatastrophicEvents_csSim (st : PhysSt) :
    csSim (checkCatastrophicEvents st).cs = csSim st.cs :=
  (checkCatastrophicEvents_frame st).1

theorem checkCatastrophicEvents_hist (st : PhysSt) :
    (checkCatastrophicEvents st).stabilityHistory = st.stabilityHistory :=
  (checkCatastrophicEvents_frame st).2

/-- `_manageCivilizations` only touches the civilization side of
`currentState`, never the `csSim` fields or the history. -/
theorem manageCivilizations_frame (ops : MathOps) (opts : EngineOptions)
    (ageGyr dt : ℚ) (st0 : PhysSt) :
    csSim (manageCivilizations ops opts ageGyr dt st0).cs = csSim st0.cs ∧
    (manageCivilizations ops opts ageGyr dt st0).stabilityHistory =
      st0.stabilityHistory := by
  unfold manageCivilizations
  split
  · exact ⟨rfl, rfl⟩
  · refine ⟨?_, ?_⟩ <;>
    · simp only [checkCatastrophicEvents_csSim, checkCatastrophicEvents_hist,
        apply_ite PhysSt.cs, apply_ite PhysSt.stabilityHistory, apply_ite csSim,
        cullCivilizations_cs, cullCivilizations_hist, evolveCivilizations_csSim,
        evolveCivilizations_hist, spawnCivilizations_cs, spawnCivilizations_hist,
        csSim_counters, ite_self]

theorem manageCivilizations_csSim (ops : MathOps) (opts : EngineOptions)
    (ageGyr dt : ℚ) (st : PhysSt) :
    csSim (manageCivilizations ops opts ageGyr dt st).cs = csSim st.cs :=
  (manageCivilizations_frame ops opts ageGyr dt st).1

theorem manageCivilizations_hist (ops : MathOps) (opts : EngineOptions)
    (ageGyr dt : ℚ) (st : PhysSt) :
    (manageCivilizations ops opts ageGyr dt st).stabilityHistory =
      st.stabilityHistory :=
  (manageCivilizations_frame ops opts ageGyr dt st).2

/-- `_updateLifeEvolution` only touches the life/civilization side of
`currentState`, never the `csSim` fields or the history. -/
theorem updateLifeEvolution_frame (ops : MathOps) (opts : EngineOptions)
    (st0 : PhysSt) :
    csSim (updateLifeEvolution ops opts st0).cs = csSim st0.cs ∧
    (updateLifeEvolution ops opts st0).stabilityHistory =
      st0.stabilityHistory := by
  unfold updateLifeEvolution
  simp only []
  split
  · exact ⟨rfl, rfl⟩
  · refine ⟨?_, ?_⟩ <;>
    · simp only [manageCivilizations_csSim, manageCivilizations_hist,
        apply_ite PhysSt.cs, apply_ite PhysSt.stabilityHistory, apply_ite csSim,
        recordMilestone_cs, recordMilestone_hist, csSim_habitable,
        csSim_lifeBearing, ite_self]
      try split <;> rfl

theorem updateLifeEvolution_csSim (ops : MathOps) (opts : EngineOptions)
    (st : PhysSt) :
    csSim (updateLifeEvolution ops opts st).cs = csSim st.cs :=
  (updateLifeEvolution_frame ops opts st).1

theorem updateLifeEvolution_hist (ops : MathOps) (opts : EngineOptions)
    (st : PhysSt) :
    (updateLifeEvolution ops opts st).stabilityHistory = st.stabilityHistory :=
  (updateLifeEvolution_frame ops opts st).2

/-- `_updateStability` only writes `stabilityIndex` (and the history/metrics). -/
theorem updateStability_frame (ops : MathOps) (opts : EngineOptions)
    (consts : Constants) (anoms : List Anomaly) (st : PhysSt) :
    (updateStability ops opts consts anoms st).cs.scaleFactor = st.cs.scaleFactor ∧
    (updateStability ops opts consts anoms st).cs.energyBudget = st.cs.energyBudget ∧
    (updateStability ops opts consts anoms st).cs.metallicity = st.cs.metallicity ∧
    (updateStability ops opts consts anoms st).cs.age = st.cs.age ∧
    (updateStability ops opts consts anoms st).cs.entropy = st.cs.entropy ∧
    (updateStability ops opts consts anoms st).cs.stellarGenerations =
      st.cs.stellarGenerations ∧
    (updateStability ops opts consts anoms st).cs.starCount = st.cs.starCount :=
  ⟨rfl, rfl, rfl, rfl, rfl, rfl, rfl⟩

/-- After `_updateStability` the stability index is clamped into `[0, 1]`. -/
theorem updateStability_stab_mem (ops : MathOps) (opts : EngineOptions)
    (consts : Constants) (anoms : List Anomaly) (st : PhysSt) :
    0 ≤ (updateStability ops opts consts anoms st).cs.stabilityIndex ∧
    (updateStability ops opts consts anoms st).cs.stabilityIndex ≤ 1 :=
  clamp_mem _ 0 1 (by norm_num)

theorem updateCosmicPhase_proj (cs : CurrentState) :
    (updateCosmicPhase cs).scaleFactor = cs.scaleFactor ∧
    (updateCosmicPhase cs).stabilityIndex = cs.stabilityIndex ∧
    (updateCosmicPhase cs).energyBudget = cs.energyBudget ∧
    (updateCosmicPhase cs).metallicity = cs.metallicity ∧
    (updateCosmicPhase cs).age = cs.age ∧
    (updateCosmicPhase cs).entropy = cs.entropy ∧
    (updateCosmicPhase cs).stellarGenerations = cs.stellarGenerations ∧
    (updateCosmicPhase cs).starCount = cs.starCount :=
  ⟨rfl, rfl, rfl, rfl, rfl, rfl, rfl, rfl⟩

/-- `_updateExpansion` advances `age` by exactly `timeStepYears` and leaves
`stabilityIndex`, `metallicity`, `stellarGenerations`, `starCount` alone. -/
theorem updateExpansion_proj (ops : MathOps) (opts : EngineOptions)
    (consts : Constants) (T0 : ℚ) (cs : CurrentState) :
    (updateExpansion ops opts consts T0 cs).age = cs.age + opts.timeStepYears ∧
    (updateExpansion ops opts consts T0 cs).stabilityIndex = cs.stabilityIndex ∧
    (updateExpansion ops opts consts T0 cs).metallicity = cs.metallicity ∧
    (updateExpansion ops opts consts T0 cs).stellarGenerations =
      cs.stellarGenerations ∧
    (updateExpansion ops opts consts T0 cs).starCount = cs.starCount :=
  ⟨rfl, rfl, rfl, rfl, rfl⟩

/-- The clamps of `_updateExpansion` put `scaleFactor`, `energyBudget` and
`entropy` into their declared ranges unconditionally. -/
theorem updateExpansion_ranges (ops : MathOps) (opts : EngineOptions)
    (consts : Constants) (T0 : ℚ) (cs : CurrentState) :
    1e-10 ≤ (updateExpansion ops opts consts T0 cs).scaleFactor ∧
    (updateExpansion ops opts consts T0 cs).scaleFactor ≤ 1e10 ∧
    0 ≤ (updateExpansion ops opts consts T0 cs).energyBudget ∧
    (updateExpansion ops opts consts T0 cs).energyBudget ≤ 1 ∧
    0 ≤ (updateExpansion ops opts consts T0 cs).entropy ∧
    (updateExpansion ops opts consts T0 cs).entropy ≤ 1e16 :=
  ⟨(clamp_mem _ _ _ (by norm_num)).1, (clamp_mem _ _ _ (by norm_num)).2,
   (clamp_mem _ _ _ (by norm_num)).1, (clamp_mem _ _ _ (by norm_num)).2,
   (clamp_mem _ _ _ (by norm_num)).1, (clamp_mem _ _ _ (by norm_num)).2⟩

/-- Over a clamped exponent and under `ExpBounded`, `_safeExp` stays in
`[9/10, 2]` (the exponent cap `50` never binds). -/
theorem safeExp_clamped_mem (ops : MathOps) (opts : EngineOptions) (y : ℚ)
    (hexp : ExpBounded ops) (hcap : (1/10 : ℚ) ≤ opts.maxScaleFactorExp) :
    9/10 ≤ safeExp ops opts (clamp y (-0.1) 0.1) ∧
    safeExp ops opts (clamp y (-0.1) 0.1) ≤ 2 := by
  have hmem := clamp_mem y (-0.1) 0.1 (by norm_num)
  have h1 : (-(1/10) : ℚ) ≤ clamp y (-0.1) 0.1 := by
    calc (-(1/10) : ℚ) = -0.1 := by norm_num
    _ ≤ _ := hmem.1
  have h2 : clamp y (-0.1) 0.1 ≤ 1/10 := by
    calc clamp y (-0.1) 0.1 ≤ 0.1 := hmem.2
    _ = 1/10 := by norm_num
  unfold safeExp
  rw [if_neg (by push_neg; exact h2.trans hcap),
      if_neg (by push_neg; calc -opts.maxScaleFactorExp ≤ -(1/10) := by linarith
                 _ ≤ _ := h1)]
  exact hexp _ h1 h2

/-- Under `ExpBounded` and a scale factor already in `[0, 1e9]`,
`_updateExpansion` keeps the scale factor at or below `2e9`. -/
theorem updateExpansion_sF_le (ops : MathOps) (opts : EngineOptions)
    (consts : Constants) (T0 : ℚ) (cs : CurrentState)
    (hexp : ExpBounded ops) (hcap : (1/10 : ℚ) ≤ opts.maxScaleFactorExp)
    (ha0 : 0 ≤ cs.scaleFactor) (ha : cs.scaleFactor ≤ 1e9) :
    (updateExpansion ops opts consts T0 cs).scaleFactor ≤ 2e9 := by
  have hg := safeExp_clamped_mem ops opts
    (consts.H0 * (MathOps.sqrt ops
      (0 ⊔ ((consts.darkMatterDensity + consts.baryonicDensity) /
          cs.scaleFactor ^ 3 + 1e-4 / cs.scaleFactor ^ 4 +
          consts.darkEnergyDensity))) * opts.timeStepYears) hexp hcap
  have hmul : cs.scaleFactor *
      safeExp ops opts (clamp (consts.H0 * (MathOps.sqrt ops
        (0 ⊔ ((consts.darkMatterDensity + consts.baryonicDensity) /
            cs.scaleFactor ^ 3 + 1e-4 / cs.scaleFactor ^ 4 +
            consts.darkEnergyDensity))) * opts.timeStepYears) (-0.1) 0.1) ≤
      2e9 := by
    calc cs.scaleFactor * _ ≤ 1e9 * 2 :=
      mul_le_mul ha hg.2 (le_trans (by norm_num) hg.1) (by norm_num)
    _ = 2e9 := by norm_num
  exact clamp_le_of_le _ _ _ _ hmul (by norm_num)

theorem updateStructures_sF (ops : MathOps) (opts : EngineOptions)
    (consts : Constants) (st : PhysSt) :
    (updateStructures ops opts consts st).cs.scaleFactor = st.cs.scaleFactor :=
  (updateStructures_frame ops opts consts st).1

theorem updateStructures_stab (ops : MathOps) (opts : EngineOptions)
    (consts : Constants) (st : PhysSt) :
    (updateStructures ops opts consts st).cs.stabilityIndex =
      st.cs.stabilityIndex :=
  (updateStructures_frame ops opts consts st).2.1

theorem updateStructures_eb (ops : MathOps) (opts : EngineOptions)
    (consts : Constants) (st : PhysSt) :
    (updateStructures ops opts consts st).cs.energyBudget = st.cs.energyBudget :=
  (updateStructures_frame ops opts consts st).2.2.1

theorem updateStructures_age (ops : MathOps) (opts : EngineOptions)
    (consts : Constants) (st : PhysSt) :
    (updateStructures ops opts consts st).cs.age = st.cs.age :=
  (updateStructures_frame ops opts consts st).2.2.2.1

theorem updateStructures_ent (ops : MathOps) (opts : EngineOptions)
    (consts : Constants) (st : PhysSt) :
    (updateStructures ops opts consts st).cs.entropy = st.cs.entropy :=
  (updateStructures_frame ops opts consts st).2.2.2.2.1

theorem updateStructures_hist (ops : MathOps) (opts : EngineOptions)
    (consts : Constants) (st : PhysSt) :
    (updateStructures ops opts consts st).stabilityHistory =
      st.stabilityHistory :=
  (updateStructures_frame ops opts consts st).2.2.2.2.2

theorem updateStability_sF (ops : MathOps) (opts : EngineOptions)
    (consts : Constants) (anoms : List Anomaly) (st : PhysSt) :
    (updateStability ops opts consts anoms st).cs.scaleFactor =
      st.cs.scaleFactor := rfl

theorem updateStability_eb (ops : MathOps) (opts : EngineOptions)
    (consts : Constants) (anoms : List Anomaly) (st : PhysSt) :
    (updateStability ops opts consts anoms st).cs.energyBudget =
      st.cs.energyBudget := rfl

theorem updateStability_met (ops : MathOps) (opts : EngineOptions)
    (consts : Constants) (anoms : List Anomaly) (st : PhysSt) :
    (updateStability ops opts consts anoms st).cs.metallicity =
      st.cs.metallicity := rfl

theorem updateStability_age (ops : MathOps) (opts : EngineOptions)
    (consts : Constants) (anoms : List Anomaly) (st : PhysSt) :
    (updateStability ops opts consts anoms st).cs.age = st.cs.age := rfl

theorem updateStability_ent (ops : MathOps) (opts : EngineOptions)
    (consts : Constants) (anoms : List Anomaly) (st : PhysSt) :
    (updateStability ops opts consts anoms st).cs.entropy = st.cs.entropy := rfl

theorem updateStability_sg (ops : MathOps) (opts : EngineOptions)
    (consts : Constants) (anoms : List Anomaly) (st : PhysSt) :
    (updateStability ops opts consts anoms st).cs.stellarGenerations =
      st.cs.stellarGenerations := rfl

theorem updateLifeEvolution_sF (ops : MathOps) (opts : EngineOptions)
    (st : PhysSt) :
    (updateLifeEvolution ops opts st).cs.scaleFactor = st.cs.scaleFactor :=
  csSim_eq_scaleFactor (updateLifeEvolution_csSim ops opts st)

theorem updateLifeEvolution_stab (ops : MathOps) (opts : EngineOptions)
    (st : PhysSt) :
    (updateLifeEvolution ops opts st).cs.stabilityIndex = st.cs.stabilityIndex :=
  csSim_eq_stabilityIndex (updateLifeEvolution_csSim ops opts st)

theorem updateLifeEvolution_eb (ops : MathOps) (opts : EngineOptions)
    (st : PhysSt) :
    (updateLifeEvolution ops opts st).cs.energyBudget = st.cs.energyBudget :=
  csSim_eq_energyBudget (updateLifeEvolution_csSim ops opts st)

theorem updateLifeEvolution_met (ops : MathOps) (opts : EngineOptions)
    (st : PhysSt) :
    (updateLifeEvolution ops opts st).cs.metallicity = st.cs.metallicity :=
  csSim_eq_metallicity (updateLifeEvolution_csSim ops opts st)

theorem updateLifeEvolution_age (ops : MathOps) (opts : EngineOptions)
    (st : PhysSt) :
    (updateLifeEvolution ops opts st).cs.age = st.cs.age :=
  csSim_eq_age (updateLifeEvolution_csSim ops opts st)

theorem updateLifeEvolution_ent (ops : MathOps) (opts : EngineOptions)
    (st : PhysSt) :
    (updateLifeEvolution ops opts st).cs.entropy = st.cs.entropy :=
  csSim_eq_entropy (updateLifeEvolution_csSim ops opts st)

theorem updateLifeEvolution_sg (ops : MathOps) (opts : EngineOptions)
    (st : PhysSt) :
    (updateLifeEvolution ops opts st).cs.stellarGenerations =
      st.cs.stellarGenerations :=
  csSim_eq_stellarGenerations (updateLifeEvolution_csSim ops opts st)

/-- The stellar block keeps a `[0, 1]` metallicity in `[0, 1]` (the only
write is clamped). -/
theorem usStellar_met_mem (opts : EngineOptions) (consts : Constants)
    (st : PhysSt) (h0 : 0 ≤ st.cs.metallicity) (h1 : st.cs.metallicity ≤ 1) :
    0 ≤ (usStellar opts consts st).cs.metallicity ∧
    (usStellar opts consts st).cs.metallicity ≤ 1 := by
  unfold usStellar
  simp only [apply_ite PhysSt.cs, apply_ite CurrentState.metallicity,
    recordMilestone_cs, ite_self]
  split
  · exact clamp_mem _ 0 1 (by norm_num)
  · exact ⟨h0, h1⟩

/-- The stellar block never decreases `stellarGenerations` and keeps it
capped at `10`. -/
theorem usStellar_sg_mono (opts : EngineOptions) (consts : Constants)
    (st : PhysSt) (hdt : 0 ≤ opts.timeStepYears)
    (hspg : 0 ≤ consts.averageStarsPerGalaxy)
    (hsg : st.cs.stellarGenerations ≤ 10) :
    st.cs.stellarGenerations ≤
      (usStellar opts consts st).cs.stellarGenerations ∧
    (usStellar opts consts st).cs.stellarGenerations ≤ 10 := by
  unfold usStellar
  simp only [apply_ite PhysSt.cs, apply_ite CurrentState.stellarGenerations,
    recordMilestone_cs, ite_self]
  split
  · rename_i hsc
    constructor
    · refine le_min (le_add_of_nonneg_right ?_) hsg
      refine div_nonneg (mul_nonneg (mul_nonneg (le_of_lt hsc) (by norm_num)) hdt) ?_
      exact mul_nonneg hspg (by norm_num)
    · exact min_le_right _ _
  · exact ⟨le_refl _, hsg⟩

/-- `_updateStructures` keeps a `[0, 1]` metallicity in `[0, 1]` (the only
write is clamped). -/
theorem updateStructures_met_mem (ops : MathOps) (opts : EngineOptions)
    (consts : Constants) (st : PhysSt)
    (h0 : 0 ≤ st.cs.metallicity) (h1 : st.cs.metallicity ≤ 1) :
    0 ≤ (updateStructures ops opts consts st).cs.metallicity ∧
    (updateStructures ops opts consts st).cs.metallicity ≤ 1 := by
  have hg := (usGalaxy_frame ops opts consts st).2.2.2.2.2.2.1
  have hs := (usStars_frame ops opts consts (usGalaxy ops opts consts st)).2.2.2.2.2.2.1
  have hb := (usBlackHoles_frame opts (usStellar opts consts
    (usStars ops opts consts (usGalaxy ops opts consts st)))).2.2.2.2.2.2.1
  have hmem := usStellar_met_mem opts consts
    (usStars ops opts consts (usGalaxy ops opts consts st))
    (by rw [hs, hg]; exact h0) (by rw [hs, hg]; exact h1)
  unfold updateStructures
  rw [hb]
  exact hmem

/-- `_updateStructures` never decreases `stellarGenerations` and keeps it
capped at `10`. -/
theorem updateStructures_sg_mono (ops : MathOps) (opts : EngineOptions)
    (consts : Constants) (st : PhysSt)
    (hdt : 0 ≤ opts.timeStepYears)
    (hspg : 0 ≤ consts.averageStarsPerGalaxy)
    (hsg : st.cs.stellarGenerations ≤ 10) :
    st.cs.stellarGenerations ≤
      (updateStructures ops opts consts st).cs.stellarGenerations ∧
    (updateStructures ops opts consts st).cs.stellarGenerations ≤ 10 := by
  have hg := (usGalaxy_frame ops opts consts st).2.2.2.2.2.2.2.1
  have hs := (usStars_frame ops opts consts (usGalaxy ops opts consts st)).2.2.2.2.2.2.2
  have hb := (usBlackHoles_frame opts (usStellar opts consts
    (usStars ops opts consts (usGalaxy ops opts consts st)))).2.2.2.2.2.2.2
  have hmono := usStellar_sg_mono opts consts
    (usStars ops opts consts (usGalaxy ops opts consts st)) hdt hspg
    (by rw [hs, hg]; exact hsg)
  unfold updateStructures
  rw [hb]
  refine ⟨?_, hmono.2⟩
  calc st.cs.stellarGenerations
      = (usStars ops opts consts (usGalaxy ops opts consts st)).cs.stellarGenerations := by
        rw [hs, hg]
    _ ≤ _ := hmono.1

/-- One physics step advances `age` by exactly `timeStepYears`. -/
theorem simulateStep_age (ops : MathOps) (opts : EngineOptions)
    (consts : Constants) (T0 : ℚ) (anoms : List Anomaly) (st : PhysSt) :
    (simulateStep ops opts consts T0 anoms st).cs.age =
      st.cs.age + opts.timeStepYears := by
  unfold simulateStep
  simp only [updateStability_age, updateLifeEvolution_age, updateStructures_age]
  exact (updateExpansion_proj ops opts consts T0 st.cs).1

/-- One physics step never decreases `entropy` and keeps it at or below the
`1e16` cap (the only write is `_updateExpansion`'s clamped growth). -/
theorem simulateStep_entropy (ops : MathOps) (opts : EngineOptions)
    (consts : Constants) (T0 : ℚ) (anoms : List Anomaly) (st : PhysSt)
    (hdt : 0 ≤ opts.timeStepYears) (hlog : ∀ x, 1 ≤ x → 0 ≤ ops.log x)
    (hent : st.cs.entropy ≤ 1e16) :
    st.cs.entropy ≤ (simulateStep ops opts consts T0 anoms st).cs.entropy ∧
    (simulateStep ops opts consts T0 anoms st).cs.entropy ≤ 1e16 := by
  unfold simulateStep
  simp only [updateStability_ent, updateLifeEvolution_ent, updateStructures_ent]
  constructor
  · refine le_clamp_of_le _ _ _ _ (le_add_of_nonneg_right ?_) hent
    refine mul_nonneg (mul_nonneg (hlog _ (le_max_left 1 _)) (by norm_num)) ?_
    exact div_nonneg hdt (by norm_num)
  · exact (updateExpansion_ranges ops opts consts T0 st.cs).2.2.2.2.2

/-- One physics step never decreases `stellarGenerations` and keeps it at or
below `10`. -/
theorem simulateStep_sg (ops : MathOps) (opts : EngineOptions)
    (consts : Constants) (T0 : ℚ) (anoms : List Anomaly) (st : PhysSt)
    (hdt : 0 ≤ opts.timeStepYears) (hspg : 0 ≤ consts.averageStarsPerGalaxy)
    (hsg : st.cs.stellarGenerations ≤ 10) :
    st.cs.stellarGenerations ≤
      (simulateStep ops opts consts T0 anoms st).cs.stellarGenerations ∧
    (simulateStep ops opts consts T0 anoms st).cs.stellarGenerations ≤ 10 := by
  have hin : ({ st with cs := updateExpansion ops opts consts T0 st.cs } :
      PhysSt).cs.stellarGenerations = st.cs.stellarGenerations :=
    (updateExpansion_proj ops opts consts T0 st.cs).2.2.2.1
  have hmono := updateStructures_sg_mono ops opts consts
    { st with cs := updateExpansion ops opts consts T0 st.cs } hdt hspg
    (by rw [hin]; exact hsg)
  unfold simulateStep
  simp only [updateStability_sg, updateLifeEvolution_sg]
  constructor
  · calc st.cs.stellarGenerations
        = ({ st with cs := updateExpansion ops opts consts T0 st.cs } :
            PhysSt).cs.stellarGenerations := hin.symm
      _ ≤ _ := hmono.1
  · exact hmono.2

/-- C9: across every sequence of physics simulation steps (the phase that
runs absent anomaly effects and anomaly resolution), `age` grows by exactly
`timeStepYears` per tick — in particular strictly increases — and `entropy`
and `stellarGenerations` are monotone non-decreasing, given a positive time
step, the analytic fact `log x ≥ 0` for `x ≥ 1`, a non-negative
`averageStarsPerGalaxy`, and a start state inside the engine's own caps
(`stellarGenerations ≤ 10`, `entropy ≤ 1e16`). -/
theorem C9_monotonicity (ops : MathOps) (opts : EngineOptions)
    (consts : Constants) (T0 : ℚ) (anoms : List Anomaly) (st : PhysSt)
    (hdt : 0 < opts.timeStepYears) (hlog : ∀ x, 1 ≤ x → 0 ≤ ops.log x)
    (hspg : 0 ≤ consts.averageStarsPerGalaxy)
    (hsg : st.cs.stellarGenerations ≤ 10) (hent : st.cs.entropy ≤ 1e16) :
    (∀ n : ℕ, ((simulateStep ops opts consts T0 anoms)^[n] st).cs.age =
      st.cs.age + n * opts.timeStepYears) ∧
    (∀ n : ℕ,
      ((simulateStep ops opts consts T0 anoms)^[n] st).cs.age <
        ((simulateStep ops opts consts T0 anoms)^[n + 1] st).cs.age ∧
      ((simulateStep ops opts consts T0 anoms)^[n] st).cs.entropy ≤
        ((simulateStep ops opts consts T0 anoms)^[n + 1] st).cs.entropy ∧
      ((simulateStep ops opts consts T0 anoms)^[n] st).cs.stellarGenerations ≤
        ((simulateStep ops opts consts T0 anoms)^[n + 1] st).cs.stellarGenerations) := by
  have hinv : ∀ n : ℕ,
      ((simulateStep ops opts consts T0 anoms)^[n] st).cs.entropy ≤ 1e16 ∧
      ((simulateStep ops opts consts T0 anoms)^[n] st).cs.stellarGenerations ≤ 10 := by
    intro n
    induction n with
    | zero => exact ⟨hent, hsg⟩
    | succ m ih =>
      rw [Function.iterate_succ_apply']
      exact ⟨(simulateStep_entropy ops opts consts T0 anoms _ hdt.le hlog ih.1).2,
        (simulateStep_sg ops opts consts T0 anoms _ hdt.le hspg ih.2).2⟩
  constructor
  · intro n
    induction n with
    | zero => simp
    | succ m ih =>
      rw [Function.iterate_succ_apply', simulateStep_age, ih]
      push_cast
      ring
  · intro n
    rw [Function.iterate_succ_apply']
    refine ⟨?_,
      (simulateStep_entropy ops opts consts T0 anoms _ hdt.le hlog (hinv n).1).1,
      (simulateStep_sg ops opts consts T0 anoms _ hdt.le hspg (hinv n).2).1⟩
    rw [simulateStep_age]
    linarith

/-- Witness for C9 at the fresh-universe engine context with the Beginner
options: the hypotheses hold and, e.g., three steps add three time steps of
age. -/
theorem C9_monotonicity_witness :
    (0 < (mkEngineOptions (difficultyOptions Difficulty.Beginner)).timeStepYears ∧
     0 ≤ defaultConstants.averageStarsPerGalaxy ∧
     stC9.cs.stellarGenerations ≤ 10 ∧ stC9.cs.entropy ≤ 1e16) ∧
    (∀ n : ℕ, ((simulateStep constOps
        (mkEngineOptions (difficultyOptions Difficulty.Beginner))
        defaultConstants 2.725 [])^[n] stC9).cs.age =
      stC9.cs.age + n *
        (mkEngineOptions (difficultyOptions Difficulty.Beginner)).timeStepYears) :=
  ⟨⟨by decide, by decide, by decide, by decide⟩,
   (C9_monotonicity constOps (mkEngineOptions (difficultyOptions Difficulty.Beginner))
     defaultConstants 2.725 [] stC9 (by decide) (fun x hx => le_refl 0)
     (by decide) (by decide) (by decide)).1⟩

/-- C8: whenever `_scaleFactor` exceeds `1e9` at the end-condition check and
none of the earlier-ordered predicates (instability-collapse, heat-death,
stellar-death) matches, `checkEndConditions` reports termination and sets
`status = ended`, `endCondition = "big-rip"`, the end reason and `finalAge`;
and concretely, forcing `_scaleFactor = 2e9` on the fresh universe and
simulating one tick yields `status = ended` with `endCondition = "big-rip"`
after exactly one executed tick. -/
theorem C8_big_rip (m : ℚ) (hist : List ℚ) (u : Universe)
    (h1 : ¬(u.currentState.stabilityIndex < 0.05 / m ∧
      10 ≤ (hist.drop (hist.length - 10)).length ∧
      (hist.drop (hist.length - 10)).sum /
        ((hist.drop (hist.length - 10)).length : ℚ) < 0.05 / m * 2))
    (h2 : ¬(200 / m < u.currentState.age / 1e9 ∧ u.currentState.energyBudget < 0.05))
    (h3 : ¬(80 < u.currentState.age / 1e9 ∧ u.currentState.starCount < 1e4 ∧
      u.currentState.energyBudget < 0.08))
    (h4 : 1e9 < u.currentState.scaleFactor) :
    (checkEndConditions m hist u =
      (endUniverse u "big-rip"
        "Expansion exceeded critical threshold - universe torn apart"
        (u.currentState.age / 1e9), true) ∧
     (checkEndConditions m hist u).1.status = UStatus.ended ∧
     (checkEndConditions m hist u).1.endCondition = some "big-rip" ∧
     (checkEndConditions m hist u).1.finalAge = some (u.currentState.age / 1e9)) ∧
    ((simulateRoute constOps zeroStream zeroStream zeroStream zeroStream 1
        uC8).uni.status = UStatus.ended ∧
     (simulateRoute constOps zeroStream zeroStream zeroStream zeroStream 1
        uC8).uni.endCondition = some "big-rip" ∧
     (simulateRoute constOps zeroStream zeroStream zeroStream zeroStream 1
        uC8).ticksRun = 1) := by
  have h : checkEndConditions m hist u =
      (endUniverse u "big-rip"
        "Expansion exceeded critical threshold - universe torn apart"
        (u.currentState.age / 1e9), true) := by
    unfold checkEndConditions
    simp only []
    rw [if_neg h1, if_neg h2, if_neg h3, if_pos h4]
  exact ⟨⟨h, by rw [h]; rfl, by rw [h]; rfl, by rw [h]; rfl⟩,
    by decide, by decide, by decide⟩

/-- Witness for C8 with `diffMod = 1`, empty history, and the `2e9` fixture:
the guards hold and the check ends the universe with the big-rip condition. -/
theorem C8_big_rip_witness :
    (¬(uC8.currentState.stabilityIndex < 0.05 / 1 ∧
        10 ≤ (([] : List ℚ).drop (([] : List ℚ).length - 10)).length ∧
        (([] : List ℚ).drop (([] : List ℚ).length - 10)).sum /
          (((([] : List ℚ).drop (([] : List ℚ).length - 10)).length : ℕ) : ℚ) <
          0.05 / 1 * 2) ∧
     ¬(200 / 1 < uC8.currentState.age / 1e9 ∧
        uC8.currentState.energyBudget < 0.05) ∧
     ¬(80 < uC8.currentState.age / 1e9 ∧ uC8.currentState.starCount < 1e4 ∧
        uC8.currentState.energyBudget < 0.08) ∧
     1e9 < uC8.currentState.scaleFactor) ∧
    (checkEndConditions 1 [] uC8).1.status = UStatus.ended ∧
    (checkEndConditions 1 [] uC8).1.endCondition = some "big-rip" :=
  ⟨⟨by decide, by decide, by decide, by decide⟩,
   ((C8_big_rip 1 [] uC8 (by decide) (by decide) (by decide) (by decide)).1).2.1,
   ((C8_big_rip 1 [] uC8 (by decide) (by decide) (by decide) (by decide)).1).2.2.1⟩

theorem applyOpt_none (f : ℚ → CurrentState → CurrentState) (cs : CurrentState) :
    applyOpt none f cs = cs := rfl

theorem applyOpt_some (v : ℚ) (f : ℚ → CurrentState → CurrentState)
    (cs : CurrentState) : applyOpt (some v) f cs = f v cs := rfl

/-- A guarded update leaves every projection its body leaves alone. -/
theorem applyOpt_proj {α : Type} (g : CurrentState → α)
    (f : ℚ → CurrentState → CurrentState) (hf : ∀ v c, g (f v c) = g c) :
    ∀ (o : Option ℚ) (cs : CurrentState), g (applyOpt o f cs) = g cs := by
  intro o cs
  cases o with
  | none => rfl
  | some v => exact hf v cs

/-- `applyAnomalyEffects` never touches `energyBudget`. -/
theorem applyAnomalyEffects_eb (e : Effects) (cs : CurrentState) :
    (applyAnomalyEffects e cs).energyBudget = cs.energyBudget := by
  unfold applyAnomalyEffects
  simp only [applyOpt_proj CurrentState.energyBudget fxStabilityImpact (fun _ _ => rfl),
    applyOpt_proj CurrentState.energyBudget fxExpansionBoost (fun _ _ => rfl),
    applyOpt_proj CurrentState.energyBudget fxScaleFactorBump (fun _ _ => rfl),
    applyOpt_proj CurrentState.energyBudget fxEntropyAdd (fun _ _ => rfl),
    applyOpt_proj CurrentState.energyBudget fxStarDeathCount (fun _ _ => rfl),
    applyOpt_proj CurrentState.energyBudget fxStarFormationBurst (fun _ _ => rfl),
    applyOpt_proj CurrentState.energyBudget fxMetallicityIncrease (fun _ _ => rfl),
    applyOpt_proj CurrentState.energyBudget fxGalaxyLoss (fun _ _ => rfl),
    applyOpt_proj CurrentState.energyBudget fxHabitabilityReduction (fun _ _ => rfl),
    applyOpt_proj CurrentState.energyBudget fxBlackHoleFormation (fun _ _ => rfl)]

/-- The stability write of `applyAnomalyEffects` is clamped into `[0, 1]`. -/
theorem applyAnomalyEffects_stab_mem (e : Effects) (cs : CurrentState)
    (h0 : 0 ≤ cs.stabilityIndex) (h1 : cs.stabilityIndex ≤ 1) :
    0 ≤ (applyAnomalyEffects e cs).stabilityIndex ∧
    (applyAnomalyEffects e cs).stabilityIndex ≤ 1 := by
  unfold applyAnomalyEffects
  simp only [applyOpt_proj CurrentState.stabilityIndex fxExpansionBoost (fun _ _ => rfl),
    applyOpt_proj CurrentState.stabilityIndex fxScaleFactorBump (fun _ _ => rfl),
    applyOpt_proj CurrentState.stabilityIndex fxEntropyAdd (fun _ _ => rfl),
    applyOpt_proj CurrentState.stabilityIndex fxStarDeathCount (fun _ _ => rfl),
    applyOpt_proj CurrentState.stabilityIndex fxStarFormationBurst (fun _ _ => rfl),
    applyOpt_proj CurrentState.stabilityIndex fxMetallicityIncrease (fun _ _ => rfl),
    applyOpt_proj CurrentState.stabilityIndex fxGalaxyLoss (fun _ _ => rfl),
    applyOpt_proj CurrentState.stabilityIndex fxHabitabilityReduction (fun _ _ => rfl),
    applyOpt_proj CurrentState.stabilityIndex fxBlackHoleFormation (fun _ _ => rfl)]
  cases he : e.stabilityImpact with
  | none => exact ⟨h0, h1⟩
  | some v => exact clamp_mem _ 0 1 (by norm_num)

/-- The metallicity write of `applyAnomalyEffects` is clamped into `[0, 1]`. -/
theorem applyAnomalyEffects_met_mem (e : Effects) (cs : CurrentState)
    (h0 : 0 ≤ cs.metallicity) (h1 : cs.metallicity ≤ 1) :
    0 ≤ (applyAnomalyEffects e cs).metallicity ∧
    (applyAnomalyEffects e cs).metallicity ≤ 1 := by
  unfold applyAnomalyEffects
  simp only [applyOpt_proj CurrentState.metallicity fxStabilityImpact (fun _ _ => rfl),
    applyOpt_proj CurrentState.metallicity fxExpansionBoost (fun _ _ => rfl),
    applyOpt_proj CurrentState.metallicity fxScaleFactorBump (fun _ _ => rfl),
    applyOpt_proj CurrentState.metallicity fxEntropyAdd (fun _ _ => rfl),
    applyOpt_proj CurrentState.metallicity fxStarDeathCount (fun _ _ => rfl),
    applyOpt_proj CurrentState.metallicity fxStarFormationBurst (fun _ _ => rfl),
    applyOpt_proj CurrentState.metallicity fxGalaxyLoss (fun _ _ => rfl),
    applyOpt_proj CurrentState.metallicity fxHabitabilityReduction (fun _ _ => rfl),
    applyOpt_proj CurrentState.metallicity fxBlackHoleFormation (fun _ _ => rfl)]
  cases he : e.metallicityIncrease with
  | none =>
    simp only [applyOpt_none,
      applyOpt_proj CurrentState.metallicity fxStabilityImpact (fun _ _ => rfl),
      applyOpt_proj CurrentState.metallicity fxExpansionBoost (fun _ _ => rfl),
      applyOpt_proj CurrentState.metallicity fxScaleFactorBump (fun _ _ => rfl),
      applyOpt_proj CurrentState.metallicity fxEntropyAdd (fun _ _ => rfl),
      applyOpt_proj CurrentState.metallicity fxStarDeathCount (fun _ _ => rfl),
      applyOpt_proj CurrentState.metallicity fxStarFormationBurst (fun _ _ => rfl)]
    exact ⟨h0, h1⟩
  | some v =>
    simp only [applyOpt_some]
    exact clamp_mem _ 0 1 (by norm_num)

/-- The scale-factor write of `applyAnomalyEffects`: with a bump of the
creation-time shape (`0.001 * severity` with severity in `[0, 3]`, or
absent), the scale factor is multiplied by a factor in `[1, 1003/1000]`. -/
theorem applyAnomalyEffects_sF (e : Effects) (cs : CurrentState)
    (hb : e.scaleFactorBump = none ∨
      ∃ v : ℚ, e.scaleFactorBump = some v ∧ 0 ≤ v ∧ v ≤ 3/1000)
    (ha0 : 0 ≤ cs.scaleFactor) :
    cs.scaleFactor ≤ (applyAnomalyEffects e cs).scaleFactor ∧
    (applyAnomalyEffects e cs).scaleFactor ≤ cs.scaleFactor * (1003/1000) := by
  unfold applyAnomalyEffects
  simp only [applyOpt_proj CurrentState.scaleFactor fxStabilityImpact (fun _ _ => rfl),
    applyOpt_proj CurrentState.scaleFactor fxExpansionBoost (fun _ _ => rfl),
    applyOpt_proj CurrentState.scaleFactor fxEntropyAdd (fun _ _ => rfl),
    applyOpt_proj CurrentState.scaleFactor fxStarDeathCount (fun _ _ => rfl),
    applyOpt_proj CurrentState.scaleFactor fxStarFormationBurst (fun _ _ => rfl),
    applyOpt_proj CurrentState.scaleFactor fxMetallicityIncrease (fun _ _ => rfl),
    applyOpt_proj CurrentState.scaleFactor fxGalaxyLoss (fun _ _ => rfl),
    applyOpt_proj CurrentState.scaleFactor fxHabitabilityReduction (fun _ _ => rfl),
    applyOpt_proj CurrentState.scaleFactor fxBlackHoleFormation (fun _ _ => rfl)]
  rcases hb with hb | ⟨v, hb, hv0, hv3⟩ <;> rw [hb] <;>
    simp only [applyOpt_none, applyOpt_some, fxScaleFactorBump,
      applyOpt_proj CurrentState.scaleFactor fxStabilityImpact (fun _ _ => rfl),
      applyOpt_proj CurrentState.scaleFactor fxExpansionBoost (fun _ _ => rfl)]
  · constructor
    · exact le_refl _
    · nlinarith
  · constructor
    · nlinarith
    · nlinarith

/-- Everything `generateAnomalies` creates from an in-range anomaly stream
satisfies `BumpOk`: severity in `{1, 2, 3}` and the only possible
`scaleFactorBump` equal to `0.001 * severity`. -/
theorem generateAnomalies_bumpOk (ops : MathOps) (opts : AnomalyOptions)
    (u : Universe) (anomRng clock ambRand : Rng)
    (hvs : ValidStream anomRng.stream) :
    ∀ a ∈ (generateAnomalies ops opts u anomRng clock ambRand).created,
      BumpOk a := by
  intro a ha
  unfold generateAnomalies at ha
  by_cases hskip :
      MAX_ANOMALIES_PER_UNIVERSE ≤ (autoCleanup u.anomalies clock).1.length
  · rw [if_pos hskip] at ha
    simp at ha
  · rw [if_neg hskip] at ha
    refine genLoop_created ops opts u.currentState (u.currentState.age / 1e9)
      (opts.anomalyProbabilityScale *
        min 1 (u.currentState.galaxyCount / max 1 u.constants.observableGalaxies))
      (max 1 ⌊opts.maxAnomalyPerStep⌋) BumpOk
      anomRng.stream getAnomalyTypes _ ?_ rfl (by simp) a ha
    intro d hd idx clock' amb' created b hb
    rcases spawnAnomaly_created ops opts d created ⟨anomRng.stream, idx⟩ clock' amb'
      with ⟨anom, heq, hsev, heff⟩
    rw [heq] at hb
    rcases List.mem_append.mp hb with h | h
    · exact Or.inl h
    · refine Or.inr ?_
      have hba : b = anom := List.mem_singleton.mp h
      subst hba
      constructor
      · rw [hsev]
        exact severity_roll_cases _ (hvs idx).1 (hvs idx).2
      · rw [heff, ← hsev]
        unfold getAnomalyTypes at hd
        fin_cases hd
        · exact Or.inl rfl
        · exact Or.inr rfl
        · exact Or.inl rfl
        · exact Or.inl rfl
        · exact Or.inl rfl
        · exact Or.inl rfl
        · exact Or.inl rfl
        · exact Or.inl rfl

/-- `genLoop` appends at most one anomaly per table entry. -/
theorem genLoop_length_add (ops : MathOps) (opts : AnomalyOptions)
    (cs : CurrentState) (ageGyr baseProb : ℚ) (cap : ℤ) :
    ∀ (defs : List AnomalyTypeDef) (st : GenState),
      (genLoop ops opts cs ageGyr baseProb cap defs st).created.length ≤
        st.created.length + defs.length := by
  intro defs
  induction defs with
  | nil =>
    intro st
    simp [genLoop]
  | cons d rest ih =>
    intro st
    rw [genLoop]
    by_cases hcond : d.condition cs ageGyr = true
    · rw [if_pos hcond]
      simp only []
      by_cases hroll : st.anomRng.next.1 < d.probability * baseProb * 10000
      · rw [if_pos hroll]
        have hlen : (spawnAnomaly ops opts d st.created st.anomRng.next.2
            st.clock st.ambRand).created.length = st.created.length + 1 := by
          rcases spawnAnomaly_created ops opts d st.created st.anomRng.next.2
            st.clock st.ambRand with ⟨anom, heq, -, -⟩
          rw [heq]
          simp
        by_cases hcap : cap ≤ ((spawnAnomaly ops opts d st.created
            st.anomRng.next.2 st.clock st.ambRand).created.length : ℤ)
        · rw [if_pos hcap, hlen]
          simp only [List.length_cons]
          omega
        · rw [if_neg hcap]
          calc (genLoop ops opts cs ageGyr baseProb cap rest _).created.length
              ≤ _ + rest.length := ih _
            _ = st.created.length + 1 + rest.length := by rw [hlen]
            _ ≤ st.created.length + (d :: rest).length := by simp; omega
      · rw [if_neg hroll]
        refine le_trans (ih _) ?_
        simp only [List.length_cons]
        omega
    · rw [if_neg hcond]
      refine le_trans (ih st) ?_
      simp only [List.length_cons]
      omega

/-- A tick creates at most 8 anomalies (one per table entry). -/
theorem generateAnomalies_created_le (ops : MathOps) (opts : AnomalyOptions)
    (u : Universe) (anomRng clock ambRand : Rng) :
    (generateAnomalies ops opts u anomRng clock ambRand).created.length ≤ 8 := by
  unfold generateAnomalies
  by_cases hskip :
      MAX_ANOMALIES_PER_UNIVERSE ≤ (autoCleanup u.anomalies clock).1.length
  · rw [if_pos hskip]
    simp
  · rw [if_neg hskip]
    simp only []
    have h := genLoop_length_add ops opts u.currentState
      (u.currentState.age / 1e9)
      (opts.anomalyProbabilityScale *
        min 1 (u.currentState.galaxyCount / max 1 u.constants.observableGalaxies))
      (max 1 ⌊opts.maxAnomalyPerStep⌋) getAnomalyTypes
      { created := [], anomRng := anomRng, clock := (autoCleanup u.anomalies clock).2,
        ambRand := ambRand }
    simpa [getAnomalyTypes] using h

/-- The generation loop advances the anomaly cursor but never changes the
underlying stream. -/
theorem genLoop_stream (ops : MathOps) (opts : AnomalyOptions)
    (cs : CurrentState) (ageGyr baseProb : ℚ) (cap : ℤ) :
    ∀ (defs : List AnomalyTypeDef) (st : GenState),
      (genLoop ops opts cs ageGyr baseProb cap defs st).anomRng.stream =
        st.anomRng.stream := by
  intro defs
  induction defs with
  | nil =>
    intro st
    rfl
  | cons d rest ih =>
    intro st
    rw [genLoop]
    by_cases hcond : d.condition cs ageGyr = true
    · rw [if_pos hcond]
      simp only []
      by_cases hroll : st.anomRng.next.1 < d.probability * baseProb * 10000
      · rw [if_pos hroll]
        by_cases hcap : cap ≤ ((spawnAnomaly ops opts d st.created
            st.anomRng.next.2 st.clock st.ambRand).created.length : ℤ)
        · rw [if_pos hcap]
          rw [spawnAnomaly_stream]
          rfl
        · rw [if_neg hcap]
          rw [ih]
          rw [spawnAnomaly_stream]
          rfl
      · rw [if_neg hroll]
        exact ih _
    · rw [if_neg hcond]
      exact ih st

/-- `generateAnomalies` never changes the anomaly stream. -/
theorem generateAnomalies_stream (ops : MathOps) (opts : AnomalyOptions)
    (u : Universe) (anomRng clock ambRand : Rng) :
    (generateAnomalies ops opts u anomRng clock ambRand).anomRng.stream =
      anomRng.stream := by
  unfold generateAnomalies
  by_cases hskip :
      MAX_ANOMALIES_PER_UNIVERSE ≤ (autoCleanup u.anomalies clock).1.length
  · rw [if_pos hskip]
  · rw [if_neg hskip]
    exact genLoop_stream ops opts _ _ _ _ getAnomalyTypes _

/-- One decay step keeps the stability index where the clamp put it. -/
theorem decayStep_si_mem (rng : Rng) (si : ℚ) (a : Anomaly)
    (h0 : 0 ≤ si) (h1 : si ≤ 1) :
    0 ≤ (decayStep rng si a).2.1 ∧ (decayStep rng si a).2.1 ≤ 1 := by
  unfold decayStep
  split_ifs
  · exact clamp_mem _ 0 1 (by norm_num)
  · exact ⟨h0, h1⟩
  · exact ⟨h0, h1⟩

/-- One decay step advances the anomaly cursor but keeps the stream. -/
theorem decayStep_stream (rng : Rng) (si : ℚ) (a : Anomaly) :
    (decayStep rng si a).2.2.stream = rng.stream := by
  unfold decayStep
  split_ifs <;> rfl

/-- The decay pass keeps the stability index in `[0, 1]` and the anomaly
stream unchanged. -/
theorem decayList_si_stream : ∀ (l : List Anomaly) (rng : Rng) (si : ℚ),
    0 ≤ si → si ≤ 1 →
    (0 ≤ (decayUnresolvedAnomalies rng si l).2.1 ∧
      (decayUnresolvedAnomalies rng si l).2.1 ≤ 1) ∧
    (decayUnresolvedAnomalies rng si l).2.2.stream = rng.stream := by
  intro l
  induction l with
  | nil =>
    intro rng si h0 h1
    exact ⟨⟨h0, h1⟩, rfl⟩
  | cons a rest ih =>
    intro rng si h0 h1
    rw [decayUnresolvedAnomalies]
    simp only []
    have hstep := decayStep_si_mem rng si a h0 h1
    rcases ih (decayStep rng si a).2.2 (decayStep rng si a).2.1 hstep.1 hstep.2
      with ⟨hmem, hstream⟩
    exact ⟨hmem, hstream.trans (decayStep_stream rng si a)⟩

/-- The per-created-anomaly route loop never touches the anomaly stream, the
status, or the anomaly list. -/
theorem applyCreated_frame : ∀ (l : List Anomaly) (s : EngineSt),
    (applyCreated l s).anomRng = s.anomRng ∧
    (applyCreated l s).uni.status = s.uni.status ∧
    (applyCreated l s).uni.anomalies = s.uni.anomalies := by
  intro l
  induction l with
  | nil =>
    intro s
    exact ⟨rfl, rfl, rfl⟩
  | cons a rest ih =>
    intro s
    rw [applyCreated]
    simp only []
    split
    · exact ih _
    · exact ih _

/-- Ranges through the per-created-anomaly loop: the clamped fields stay in
`[0, 1]`, `energyBudget` is untouched, and the scale factor only grows, by at
most a factor `1003/1000` per processed anomaly. -/
theorem applyCreated_ranges : ∀ (l : List Anomaly) (s : EngineSt) (B : ℚ),
    (∀ a ∈ l, BumpOk a) →
    0 ≤ s.uni.currentState.stabilityIndex →
    s.uni.currentState.stabilityIndex ≤ 1 →
    0 ≤ s.uni.currentState.metallicity → s.uni.currentState.metallicity ≤ 1 →
    0 ≤ s.uni.currentState.scaleFactor →
    s.uni.currentState.scaleFactor ≤ B →
    (0 ≤ (applyCreated l s).uni.currentState.stabilityIndex ∧
      (applyCreated l s).uni.currentState.stabilityIndex ≤ 1) ∧
    (applyCreated l s).uni.currentState.energyBudget =
      s.uni.currentState.energyBudget ∧
    (0 ≤ (applyCreated l s).uni.currentState.metallicity ∧
      (applyCreated l s).uni.currentState.metallicity ≤ 1) ∧
    s.uni.currentState.scaleFactor ≤
      (applyCreated l s).uni.currentState.scaleFactor ∧
    (applyCreated l s).uni.currentState.scaleFactor ≤
      B * (1003/1000) ^ l.length := by
  intro l
  induction l with
  | nil =>
    intro s B _ h1 h2 h3 h4 h5 h6
    refine ⟨⟨h1, h2⟩, rfl, ⟨h3, h4⟩, le_refl _, ?_⟩
    simpa using h6
  | cons a rest ih =>
    intro s B hall h1 h2 h3 h4 h5 h6
    have hbump : a.effectsRaw.scaleFactorBump = none ∨
        ∃ v : ℚ, a.effectsRaw.scaleFactorBump = some v ∧ 0 ≤ v ∧ v ≤ 3/1000 := by
      rcases hall a (List.mem_cons_self a rest) with ⟨hsev, hb⟩
      rcases hb with hb | hb
      · exact Or.inl hb
      · refine Or.inr ⟨0.001 * a.severity, hb, ?_, ?_⟩ <;>
          rcases hsev with h | h | h <;> rw [h] <;> norm_num
    have hall' : ∀ b ∈ rest, BumpOk b :=
      fun b hb => hall b (List.mem_cons_of_mem a hb)
    have hstab := applyAnomalyEffects_stab_mem a.effectsRaw s.uni.currentState h1 h2
    have hmet := applyAnomalyEffects_met_mem a.effectsRaw s.uni.currentState h3 h4
    have heb := applyAnomalyEffects_eb a.effectsRaw s.uni.currentState
    have hsf := applyAnomalyEffects_sF a.effectsRaw s.uni.currentState hbump h5
    have hB0 : 0 ≤ B := le_trans h5 h6
    have main : ∀ s' : EngineSt,
        s'.uni.currentState = applyAnomalyEffects a.effectsRaw s.uni.currentState →
        (0 ≤ (applyCreated rest s').uni.currentState.stabilityIndex ∧
          (applyCreated rest s').uni.currentState.stabilityIndex ≤ 1) ∧
        (applyCreated rest s').uni.currentState.energyBudget =
          s.uni.currentState.energyBudget ∧
        (0 ≤ (applyCreated rest s').uni.currentState.metallicity ∧
          (applyCreated rest s').uni.currentState.metallicity ≤ 1) ∧
        s.uni.currentState.scaleFactor ≤
          (applyCreated rest s').uni.currentState.scaleFactor ∧
        (applyCreated rest s').uni.currentState.scaleFactor ≤
          B * (1003/1000) ^ (a :: rest).length := by
      intro s' hs'
      rcases ih s' (B * (1003/1000)) hall' (by rw [hs']; exact hstab.1)
        (by rw [hs']; exact hstab.2) (by rw [hs']; exact hmet.1)
        (by rw [hs']; exact hmet.2)
        (by rw [hs']; exact le_trans h5 hsf.1)
        (by rw [hs']; exact le_trans hsf.2 (by nlinarith)) with
        ⟨ih1, ih2, ih3, ih4, ih5⟩
      refine ⟨ih1, ih2.trans (by rw [hs']; exact heb), ih3, ?_, ?_⟩
      · refine le_trans hsf.1 ?_
        rw [hs'] at ih4
        exact ih4
      · calc (applyCreated rest s').uni.currentState.scaleFactor
            ≤ B * (1003/1000) * (1003/1000) ^ rest.length := ih5
          _ = B * (1003/1000) ^ (a :: rest).length := by
            rw [List.length_cons, pow_succ]
            ring
    rw [applyCreated]
    simp only []
    split
    · exact main _ rfl
    · exact main _ rfl

/-- Ranges through one physics step: the three clamped unit-interval fields
stay in `[0, 1]`, and from a scale factor in `[0, 1e9]` the step lands in
`[1e-10, 2e9]`. -/
theorem simulateStep_ranges (ops : MathOps) (opts : EngineOptions)
    (consts : Constants) (T0 : ℚ) (anoms : List Anomaly) (st : PhysSt)
    (hexp : ExpBounded ops) (hcap : (1/10 : ℚ) ≤ opts.maxScaleFactorExp)
    (hm0 : 0 ≤ st.cs.metallicity) (hm1 : st.cs.metallicity ≤ 1)
    (ha0 : 0 ≤ st.cs.scaleFactor) (ha : st.cs.scaleFactor ≤ 1e9) :
    (0 ≤ (simulateStep ops opts consts T0 anoms st).cs.stabilityIndex ∧
      (simulateStep ops opts consts T0 anoms st).cs.stabilityIndex ≤ 1) ∧
    (0 ≤ (simulateStep ops opts consts T0 anoms st).cs.energyBudget ∧
      (simulateStep ops opts consts T0 anoms st).cs.energyBudget ≤ 1) ∧
    (0 ≤ (simulateStep ops opts consts T0 anoms st).cs.metallicity ∧
      (simulateStep ops opts consts T0 anoms st).cs.metallicity ≤ 1) ∧
    (1e-10 ≤ (simulateStep ops opts consts T0 anoms st).cs.scaleFactor ∧
      (simulateStep ops opts consts T0 anoms st).cs.scaleFactor ≤ 2e9) := by
  have hexpand := updateExpansion_ranges ops opts consts T0 st.cs
  have hexpand2 := updateExpansion_sF_le ops opts consts T0 st.cs hexp hcap ha0 ha
  have hin : ({ st with cs := updateExpansion ops opts consts T0 st.cs } :
      PhysSt).cs.metallicity = st.cs.metallicity :=
    (updateExpansion_proj ops opts consts T0 st.cs).2.2.1
  have hmetS := updateStructures_met_mem ops opts consts
    { st with cs := updateExpansion ops opts consts T0 st.cs }
    (by rw [hin]; exact hm0) (by rw [hin]; exact hm1)
  refine ⟨?_, ?_, ?_, ?_⟩
  · unfold simulateStep
    exact updateStability_stab_mem ops opts consts anoms _
  · unfold simulateStep
    simp only [updateStability_eb, updateLifeEvolution_eb, updateStructures_eb]
    exact ⟨hexpand.2.2.1, hexpand.2.2.2.1⟩
  · unfold simulateStep
    simp only [updateStability_met, updateLifeEvolution_met]
    exact hmetS
  · unfold simulateStep
    simp only [updateStability_sF, updateLifeEvolution_sF, updateStructures_sF]
    exact ⟨hexpand.1, hexpand2⟩

theorem tickPhysics_cs (ops : MathOps) (d : DiffOpts) (s : EngineSt) :
    (tickPhysics ops d s).uni.currentState =
      (simulateStep ops (mkEngineOptions d) s.uni.constants
        s.uni.initialTemperature s.uni.anomalies s.physView).cs := rfl

theorem tickPhysics_frame (ops : MathOps) (d : DiffOpts) (s : EngineSt) :
    (tickPhysics ops d s).anomRng = s.anomRng ∧
    (tickPhysics ops d s).uni.status = s.uni.status ∧
    (tickPhysics ops d s).uni.anomalies = s.uni.anomalies :=
  ⟨rfl, rfl, rfl⟩

theorem tickGenerate_frame (ops : MathOps) (d : DiffOpts) (s : EngineSt) :
    (tickGenerate ops d s).1.uni.currentState = s.uni.currentState ∧
    (tickGenerate ops d s).1.uni.status = s.uni.status :=
  ⟨rfl, rfl⟩

theorem tickGenerate_stream (ops : MathOps) (d : DiffOpts) (s : EngineSt) :
    (tickGenerate ops d s).1.anomRng.stream = s.anomRng.stream :=
  generateAnomalies_stream ops (mkAnomalyOptions d) s.uni s.anomRng s.clock
    s.ambRand

theorem tickGenerate_bumpOk (ops : MathOps) (d : DiffOpts) (s : EngineSt)
    (hvs : ValidStream s.anomRng.stream) :
    ∀ a ∈ (tickGenerate ops d s).2, BumpOk a :=
  generateAnomalies_bumpOk ops (mkAnomalyOptions d) s.uni s.anomRng s.clock
    s.ambRand hvs

theorem tickGenerate_created_le (ops : MathOps) (d : DiffOpts) (s : EngineSt) :
    (tickGenerate ops d s).2.length ≤ 8 :=
  generateAnomalies_created_le ops (mkAnomalyOptions d) s.uni s.anomRng s.clock
    s.ambRand

theorem tickApplyEffects_cs (created : List Anomaly) (s : EngineSt) :
    (tickApplyEffects created s).uni.currentState =
      (applyCreated created s).uni.currentState := rfl

theorem tickApplyEffects_frame (created : List Anomaly) (s : EngineSt) :
    (tickApplyEffects created s).anomRng = s.anomRng ∧
    (tickApplyEffects created s).uni.status = s.uni.status := by
  rcases applyCreated_frame created s with ⟨h1, h2, h3⟩
  exact ⟨h1, h2⟩

theorem tickDecay_facts (s : EngineSt)
    (h0 : 0 ≤ s.uni.currentState.stabilityIndex)
    (h1 : s.uni.currentState.stabilityIndex ≤ 1) :
    (0 ≤ (tickDecay s).uni.currentState.stabilityIndex ∧
      (tickDecay s).uni.currentState.stabilityIndex ≤ 1) ∧
    (tickDecay s).uni.currentState.energyBudget =
      s.uni.currentState.energyBudget ∧
    (tickDecay s).uni.currentState.metallicity =
      s.uni.currentState.metallicity ∧
    (tickDecay s).uni.currentState.scaleFactor =
      s.uni.currentState.scaleFactor ∧
    (tickDecay s).uni.status = s.uni.status ∧
    (tickDecay s).anomRng.stream = s.anomRng.stream := by
  rcases decayList_si_stream s.uni.anomalies s.anomRng
    s.uni.currentState.stabilityIndex h0 h1 with ⟨hmem, hstream⟩
  exact ⟨hmem, rfl, rfl, rfl, rfl, hstream⟩

theorem tickStability_facts (ops : MathOps) (d : DiffOpts) (s : EngineSt) :
    (0 ≤ (tickStability ops d s).uni.currentState.stabilityIndex ∧
      (tickStability ops d s).uni.currentState.stabilityIndex ≤ 1) ∧
    (tickStability ops d s).uni.currentState.energyBudget =
      s.uni.currentState.energyBudget ∧
    (tickStability ops d s).uni.currentState.metallicity =
      s.uni.currentState.metallicity ∧
    (tickStability ops d s).uni.currentState.scaleFactor =
      s.uni.currentState.scaleFactor ∧
    (tickStability ops d s).uni.status = s.uni.status ∧
    (tickStability ops d s).anomRng = s.anomRng :=
  ⟨updateStability_stab_mem ops (mkEngineOptions d) s.uni.constants
    s.uni.anomalies s.physView, rfl, rfl, rfl, rfl, rfl⟩

/-- `checkEndConditions` keeps `currentState` untouched. -/
theorem checkEndConditions_cs (m : ℚ) (hist : List ℚ) (u : Universe) :
    (checkEndConditions m hist u).1.currentState = u.currentState := by
  unfold checkEndConditions
  simp only []
  split_ifs <;> rfl

/-- A `false` end check leaves the universe exactly as it was, and certifies
that the big-rip threshold has not been crossed. -/
theorem checkEndConditions_false (m : ℚ) (hist : List ℚ) (u : Universe)
    (h : (checkEndConditions m hist u).2 = false) :
    (checkEndConditions m hist u).1 = u ∧
    u.currentState.scaleFactor ≤ 1e9 := by
  unfold checkEndConditions at h ⊢
  simp only [] at h ⊢
  split_ifs at h ⊢ with c1 c2 c3 c4 c5 c6
  exact ⟨rfl, not_lt.mp c4⟩

theorem tickEndCheck_cs (d : DiffOpts) (s : EngineSt) :
    (tickEndCheck d s).1.uni.currentState = s.uni.currentState := by
  unfold tickEndCheck
  simp only []
  split
  · exact checkEndConditions_cs _ _ _
  · exact checkEndConditions_cs _ _ _

theorem tickEndCheck_anomRng (d : DiffOpts) (s : EngineSt) :
    (tickEndCheck d s).1.anomRng = s.anomRng := by
  unfold tickEndCheck
  simp only []
  split
  · rfl
  · rfl

/-- A tick whose end check reports `false` leaves the state exactly as the
stability phase left it. -/
theorem tickEndCheck_of_false (d : DiffOpts) (s : EngineSt)
    (h : (tickEndCheck d s).2 = false) :
    tickEndCheck d s = (s, false) ∧ s.uni.currentState.scaleFactor ≤ 1e9 := by
  have hflag : (checkEndConditions d.difficultyModifier s.stabilityHistory
      s.uni).2 = false := by
    by_contra hc
    have hc' : (checkEndConditions d.difficultyModifier s.stabilityHistory
        s.uni).2 = true := by
      cases hck : (checkEndConditions d.difficultyModifier s.stabilityHistory
          s.uni).2
      · exact absurd hck hc
      · rfl
    unfold tickEndCheck at h
    rw [if_pos hc'] at h
    simp at h
  rcases checkEndConditions_false _ _ _ hflag with ⟨hu, hsf⟩
  constructor
  · unfold tickEndCheck
    rw [if_neg (by simp [hflag])]
    rw [hu]
  · exact hsf

/-- One tick, stage by stage: from an in-range state with the big-rip bound,
every sub-phase (physics, generation, effect application, decay, stability,
end check) keeps the clamped fields in their declared ranges; the anomaly
stream survives; the stability phase leaves the status untouched; and a
`false` end check certifies the big-rip bound again. -/
theorem tickStages (ops : MathOps) (d : DiffOpts) (s : EngineSt)
    (hexp : ExpBounded ops) (hvs : ValidStream s.anomRng.stream)
    (hR : Ranges s.uni.currentState) (ha : s.uni.currentState.scaleFactor ≤ 1e9) :
    Ranges (tickPhysics ops d s).uni.currentState ∧
    Ranges (tickGenerate ops d (tickPhysics ops d s)).1.uni.currentState ∧
    Ranges (tickApplyEffects (tickGenerate ops d (tickPhysics ops d s)).2
      (tickGenerate ops d (tickPhysics ops d s)).1).uni.currentState ∧
    Ranges (tickDecay (tickApplyEffects
      (tickGenerate ops d (tickPhysics ops d s)).2
      (tickGenerate ops d (tickPhysics ops d s)).1)).uni.currentState ∧
    Ranges (tickStability ops d (tickDecay (tickApplyEffects
      (tickGenerate ops d (tickPhysics ops d s)).2
      (tickGenerate ops d (tickPhysics ops d s)).1))).uni.currentState ∧
    Ranges (tickEndCheck d (tickStability ops d (tickDecay (tickApplyEffects
      (tickGenerate ops d (tickPhysics ops d s)).2
      (tickGenerate ops d (tickPhysics ops d s)).1)))).1.uni.currentState ∧
    ValidStream (tickEndCheck d (tickStability ops d (tickDecay (tickApplyEffects
      (tickGenerate ops d (tickPhysics ops d s)).2
      (tickGenerate ops d (tickPhysics ops d s)).1)))).1.anomRng.stream ∧
    (tickStability ops d (tickDecay (tickApplyEffects
      (tickGenerate ops d (tickPhysics ops d s)).2
      (tickGenerate ops d (tickPhysics ops d s)).1))).uni.status = s.uni.status ∧
    ((tickEndCheck d (tickStability ops d (tickDecay (tickApplyEffects
        (tickGenerate ops d (tickPhysics ops d s)).2
        (tickGenerate ops d (tickPhysics ops d s)).1)))).2 = false →
      tickEndCheck d (tickStability ops d (tickDecay (tickApplyEffects
        (tickGenerate ops d (tickPhysics ops d s)).2
        (tickGenerate ops d (tickPhysics ops d s)).1))) =
        (tickStability ops d (tickDecay (tickApplyEffects
          (tickGenerate ops d (tickPhysics ops d s)).2
          (tickGenerate ops d (tickPhysics ops d s)).1)), false) ∧
      (tickStability ops d (tickDecay (tickApplyEffects
        (tickGenerate ops d (tickPhysics ops d s)).2
        (tickGenerate ops d (tickPhysics ops d s)).1))).uni.currentState.scaleFactor
        ≤ 1e9) := by
  rcases hR with ⟨r1, r2, r3, r4, r5, r6, r7, r8⟩
  set s1 := tickPhysics ops d s with hs1def
  set g := tickGenerate ops d s1 with hgdef
  set s2 := tickApplyEffects g.2 g.1 with hs2def
  set s3 := tickDecay s2 with hs3def
  set s4 := tickStability ops d s3 with hs4def
  have hps := simulateStep_ranges ops (mkEngineOptions d) s.uni.constants
    s.uni.initialTemperature s.uni.anomalies s.physView hexp
    ((by norm_num : (1/10 : ℚ) ≤ 50) : (1/10 : ℚ) ≤ (mkEngineOptions d).maxScaleFactorExp)
    r5 r6 (le_trans (by norm_num) r7) ha
  have hR1 : Ranges s1.uni.currentState := by
    rw [hs1def, tickPhysics_cs]
    exact ⟨hps.1.1, hps.1.2, hps.2.1.1, hps.2.1.2, hps.2.2.1.1, hps.2.2.1.2,
      hps.2.2.2.1, le_trans hps.2.2.2.2 (by norm_num)⟩
  have hsf1 : s1.uni.currentState.scaleFactor ≤ 2e9 := by
    rw [hs1def, tickPhysics_cs]
    exact hps.2.2.2.2
  have hcs2 : g.1.uni.currentState = s1.uni.currentState :=
    (tickGenerate_frame ops d s1).1
  have hR2 : Ranges g.1.uni.currentState := by
    rw [hcs2]
    exact hR1
  have hvs1 : ValidStream s1.anomRng.stream := by
    rw [hs1def, (tickPhysics_frame ops d s).1]
    exact hvs
  obtain ⟨g1, g2, g3, g4, g5, g6, g7, g8⟩ := hR2
  have hR2' : Ranges g.1.uni.currentState := ⟨g1, g2, g3, g4, g5, g6, g7, g8⟩
  have happ := applyCreated_ranges g.2 g.1 2e9
    (tickGenerate_bumpOk ops d s1 hvs1) g1 g2 g5 g6
    (le_trans (by norm_num) g7) (by rw [hcs2]; exact hsf1)
  have hlen := tickGenerate_created_le ops d s1
  have hpow : ((1003:ℚ)/1000) ^ g.2.length ≤ ((1003:ℚ)/1000) ^ 8 :=
    pow_le_pow_right₀ (by norm_num) hlen
  have hsf3 : (applyCreated g.2 g.1).uni.currentState.scaleFactor ≤ 1e10 := by
    refine le_trans happ.2.2.2.2 (le_trans ?_ (by norm_num :
      (2e9 : ℚ) * ((1003:ℚ)/1000) ^ 8 ≤ 1e10))
    exact mul_le_mul_of_nonneg_left hpow (by norm_num)
  have hR3 : Ranges s2.uni.currentState := by
    rw [hs2def, tickApplyEffects_cs]
    refine ⟨happ.1.1, happ.1.2, ?_, ?_, happ.2.2.1.1, happ.2.2.1.2, ?_, hsf3⟩
    · rw [happ.2.1]
      exact g3
    · rw [happ.2.1]
      exact g4
    · exact le_trans g7 happ.2.2.2.1
  have hdec := tickDecay_facts s2 hR3.1 hR3.2.1
  have hR4 : Ranges s3.uni.currentState := by
    rw [hs3def]
    refine ⟨hdec.1.1, hdec.1.2, ?_, ?_, ?_, ?_, ?_, ?_⟩
    · rw [hdec.2.1]
      exact hR3.2.2.1
    · rw [hdec.2.1]
      exact hR3.2.2.2.1
    · rw [hdec.2.2.1]
      exact hR3.2.2.2.2.1
    · rw [hdec.2.2.1]
      exact hR3.2.2.2.2.2.1
    · rw [hdec.2.2.2.1]
      exact hR3.2.2.2.2.2.2.1
    · rw [hdec.2.2.2.1]
      exact hR3.2.2.2.2.2.2.2
  have hstab := tickStability_facts ops d s3
  have hR5 : Ranges s4.uni.currentState := by
    rw [hs4def]
    refine ⟨hstab.1.1, hstab.1.2, ?_, ?_, ?_, ?_, ?_, ?_⟩
    · rw [hstab.2.1]
      exact hR4.2.2.1
    · rw [hstab.2.1]
      exact hR4.2.2.2.1
    · rw [hstab.2.2.1]
      exact hR4.2.2.2.2.1
    · rw [hstab.2.2.1]
      exact hR4.2.2.2.2.2.1
    · rw [hstab.2.2.2.1]
      exact hR4.2.2.2.2.2.2.1
    · rw [hstab.2.2.2.1]
      exact hR4.2.2.2.2.2.2.2
  have hR6 : Ranges (tickEndCheck d s4).1.uni.currentState := by
    rw [tickEndCheck_cs]
    exact hR5
  have hvs6 : ValidStream (tickEndCheck d s4).1.anomRng.stream := by
    rw [tickEndCheck_anomRng, hs4def, hstab.2.2.2.2.2, hs3def, hdec.2.2.2.2.2,
      hs2def, (tickApplyEffects_frame g.2 g.1).1, hgdef, tickGenerate_stream]
    exact hvs1
  have hstatus : s4.uni.status = s.uni.status := by
    rw [hs4def, hstab.2.2.2.2.1, hs3def, hdec.2.2.2.2.1, hs2def,
      (tickApplyEffects_frame g.2 g.1).2, hgdef, (tickGenerate_frame ops d s1).2,
      hs1def, (tickPhysics_frame ops d s).2.1]
  exact ⟨hR1, hR2', hR3, hR4, hR5, hR6, hvs6, hstatus,
    fun h => tickEndCheck_of_false d s4 h⟩

/-- The tick preserves the ranges, the stream, and — while no end condition
fired — the big-rip bound and the status. -/
theorem orchTick_inv (ops : MathOps) (d : DiffOpts) (s : EngineSt)
    (hexp : ExpBounded ops) (hvs : ValidStream s.anomRng.stream)
    (hR : Ranges s.uni.currentState)
    (ha : s.uni.currentState.scaleFactor ≤ 1e9) :
    Ranges (orchTick ops d s).1.uni.currentState ∧
    ValidStream (orchTick ops d s).1.anomRng.stream ∧
    ((orchTick ops d s).2 = false →
      (orchTick ops d s).1.uni.currentState.scaleFactor ≤ 1e9 ∧
      (orchTick ops d s).1.uni.status = s.uni.status) := by
  have hts := tickStages ops d s hexp hvs hR ha
  have horch : orchTick ops d s =
      tickEndCheck d (tickStability ops d (tickDecay (tickApplyEffects
        (tickGenerate ops d (tickPhysics ops d s)).2
        (tickGenerate ops d (tickPhysics ops d s)).1))) := rfl
  rw [horch]
  refine ⟨hts.2.2.2.2.2.1, hts.2.2.2.2.2.2.1, ?_⟩
  intro hfalse
  rcases hts.2.2.2.2.2.2.2.2 hfalse with ⟨heq, hsf⟩
  rw [heq]
  exact ⟨hsf, hts.2.2.2.2.2.2.2.1⟩

/-- The simulation loop preserves the reachability invariant. -/
theorem orchLoop_inv (ops : MathOps) (d : DiffOpts) (hexp : ExpBounded ops) :
    ∀ (n : ℕ) (s : EngineSt), ValidStream s.anomRng.stream →
      Ranges s.uni.currentState → s.uni.status ≠ UStatus.ended →
      s.uni.currentState.scaleFactor ≤ 1e9 →
      Ranges (orchLoop ops d n s).1.uni.currentState ∧
      ((orchLoop ops d n s).1.uni.status ≠ UStatus.ended →
        (orchLoop ops d n s).1.uni.currentState.scaleFactor ≤ 1e9) := by
  intro n
  induction n with
  | zero =>
    intro s hvs hR hstat ha
    exact ⟨hR, fun _ => ha⟩
  | succ m ih =>
    intro s hvs hR hstat ha
    rw [orchLoop]
    simp only []
    rcases orchTick_inv ops d s hexp hvs hR ha with ⟨ht1, ht2, ht3⟩
    by_cases ht : (orchTick ops d s).2 = true
    · rw [if_pos ht]
      exact ⟨ht1, fun hne => absurd (orchTick_ended ops d s ht) hne⟩
    · have ht' : (orchTick ops d s).2 = false := by
        cases hc : (orchTick ops d s).2
        · rfl
        · exact absurd hc ht
      rw [if_neg ht]
      simp only []
      rcases ht3 ht' with ⟨hsf, hst⟩
      exact ih (orchTick ops d s).1 ht2 ht1 (by rw [hst]; exact hstat) hsf

/-- `POST /:id/simulate` preserves the reachability invariant. -/
theorem simulateRoute_inv (ops : MathOps) (pS aS cS ambS : ℕ → ℚ) (req : ℚ)
    (u : Universe) (hexp : ExpBounded ops) (hvs : ValidStream aS)
    (hu : UInv u) : UInv (simulateRoute ops pS aS cS ambS req u).uni := by
  unfold simulateRoute
  by_cases hend : u.status = UStatus.ended
  · rw [if_pos hend]
    exact hu
  · rw [if_neg hend]
    simp only []
    rcases orchLoop_inv ops (difficultyOptions u.difficulty) hexp
      (computeSteps req)
      { uni := { u with constants := { u.constants with
          observableGalaxies := 2e11 *
            (difficultyOptions u.difficulty).observableGalaxiesMultiplier } },
        physRng := ⟨pS, 0⟩, anomRng := ⟨aS, 0⟩, clock := ⟨cS, 0⟩,
        ambRand := ⟨ambS, 0⟩, stabilityHistory := [], stepsSinceLastCull := 0 }
      hvs hu.1 hend (hu.2 hend) with ⟨h1, h2⟩
    exact ⟨h1, fun hne => h2 hne⟩

/-- `resolveAnomaly` preserves the reachability invariant (its writes are
clamped or floored, and it never touches `scaleFactor` or the status). -/
theorem resolveAnomaly_inv (u : Universe) (idC idR now : ℚ) (hu : UInv u) :
    UInv (resolveAnomaly u idC idR now).2 := by
  obtain ⟨⟨r1, r2, r3, r4, r5, r6, r7, r8⟩, hs⟩ := hu
  unfold resolveAnomaly
  rcases hfind : u.anomalies.find? (idMatches idC idR) with _ | anom
  · exact ⟨⟨r1, r2, r3, r4, r5, r6, r7, r8⟩, hs⟩
  · simp only []
    split
    · exact ⟨⟨r1, r2, r3, r4, r5, r6, r7, r8⟩, hs⟩
    · refine ⟨⟨?_, ?_, ?_, ?_, ?_, ?_, ?_, ?_⟩, ?_⟩
      · exact (clamp_mem _ 0 1 (by norm_num)).1
      · exact (clamp_mem _ 0 1 (by norm_num)).2
      · exact (clamp_mem _ 0 1 (by norm_num)).1
      · exact (clamp_mem _ 0 1 (by norm_num)).2
      · exact r5
      · exact r6
      · exact r7
      · exact r8
      · intro h
        exact hs h

/-- `POST /:id/resolve-anomaly` preserves the reachability invariant. -/
theorem resolveRoute_inv (u : Universe) (idv : Option (ℚ × ℚ)) (cS : ℕ → ℚ)
    (hu : UInv u) : UInv (resolveAnomalyRoute u idv cS).uni := by
  unfold resolveAnomalyRoute
  cases idv with
  | none => exact hu
  | some p =>
    simp only []
    by_cases hend : u.status = UStatus.ended
    · rw [if_pos hend]
      exact hu
    · rw [if_neg hend]
      by_cases hfail :
          (resolveAnomaly u p.1 p.2 (Rng.next ⟨cS, 0⟩).1).1.success = false
      · rw [if_pos hfail]
        exact hu
      · rw [if_neg hfail]
        simp only []
        have hres := resolveAnomaly_inv u p.1 p.2 (Rng.next ⟨cS, 0⟩).1 hu
        split
        · exact ⟨hres.1, fun h => hres.2 h⟩
        · exact ⟨hres.1, fun h => hres.2 h⟩

/-- `POST /:id/cleanup-anomalies` preserves the reachability invariant. -/
theorem cleanupRoute_inv (u : Universe) (keep : ℚ) (cS : ℕ → ℚ)
    (hu : UInv u) : UInv (cleanupAnomaliesRoute u keep cS) := by
  unfold cleanupAnomaliesRoute
  simp only []
  split
  · exact ⟨hu.1, fun h => hu.2 h⟩
  · exact hu

/-- The universe `POST /universe` creates satisfies the invariant. -/
theorem initialUniverse_inv (d : Difficulty) (consts : Constants)
    (T0 now : ℚ) : UInv (initialUniverse d consts T0 now) := by
  refine ⟨⟨?_, ?_, ?_, ?_, ?_, ?_, ?_, ?_⟩, fun _ => ?_⟩ <;>
    norm_num [initialUniverse]

/-- Every API-reachable universe satisfies the reachability invariant. -/
theorem reachable_inv (u : Universe) (h : Reachable u) : UInv u := by
  induction h with
  | init d consts T0 now => exact initialUniverse_inv d consts T0 now
  | simulate ops pS aS cS ambS req u' _ hexp hvs ih =>
    exact simulateRoute_inv ops pS aS cS ambS req u' hexp hvs ih
  | resolve u' idv cS _ ih => exact resolveRoute_inv u' idv cS ih
  | cleanup u' keep cS _ ih => exact cleanupRoute_inv u' keep cS ih

/-- C3: for every reachable universe state the clamped fields are in their
declared ranges (`stabilityIndex`, `energyBudget`, `metallicity` in `[0, 1]`,
`_scaleFactor` in `[1e-10, 1e10]`); and within a tick, every sub-phase —
physics, anomaly generation, anomaly-effect application, anomaly decay,
stability refresh, end check — keeps them there, given the analytic
exponential bounds, an in-range anomaly stream, and a pre-tick state inside
the ranges with the big-rip bound the end check maintains. -/
theorem C3_clamped_ranges :
    (∀ u : Universe, Reachable u → Ranges u.currentState) ∧
    (∀ (ops : MathOps) (d : DiffOpts) (s : EngineSt),
      ExpBounded ops → ValidStream s.anomRng.stream →
      Ranges s.uni.currentState → s.uni.currentState.scaleFactor ≤ 1e9 →
      Ranges (tickPhysics ops d s).uni.currentState ∧
      Ranges (tickGenerate ops d (tickPhysics ops d s)).1.uni.currentState ∧
      Ranges (tickApplyEffects (tickGenerate ops d (tickPhysics ops d s)).2
        (tickGenerate ops d (tickPhysics ops d s)).1).uni.currentState ∧
      Ranges (tickDecay (tickApplyEffects
        (tickGenerate ops d (tickPhysics ops d s)).2
        (tickGenerate ops d (tickPhysics ops d s)).1)).uni.currentState ∧
      Ranges (tickStability ops d (tickDecay (tickApplyEffects
        (tickGenerate ops d (tickPhysics ops d s)).2
        (tickGenerate ops d (tickPhysics ops d s)).1))).uni.currentState ∧
      Ranges (tickEndCheck d (tickStability ops d (tickDecay (tickApplyEffects
        (tickGenerate ops d (tickPhysics ops d s)).2
        (tickGenerate ops d (tickPhysics ops d s)).1)))).1.uni.currentState) := by
  constructor
  · intro u h
    exact (reachable_inv u h).1
  · intro ops d s hexp hvs hR ha
    have hts := tickStages ops d s hexp hvs hR ha
    exact ⟨hts.1, hts.2.1, hts.2.2.1, hts.2.2.2.1, hts.2.2.2.2.1,
      hts.2.2.2.2.2.1⟩

/-- Witness for C3: the fresh universe is reachable and in range, and one
concrete tick's sub-phases from it stay in range. -/
theorem C3_clamped_ranges_witness :
    (Reachable freshU ∧ ExpBounded constOps ∧ ValidStream sC3.anomRng.stream ∧
     Ranges sC3.uni.currentState ∧ sC3.uni.currentState.scaleFactor ≤ 1e9) ∧
    Ranges freshU.currentState ∧
    Ranges (tickPhysics constOps (difficultyOptions Difficulty.Beginner)
      sC3).uni.currentState :=
  ⟨⟨Reachable.init Difficulty.Beginner defaultConstants 2.725 0,
    fun x h1 h2 => ⟨(by norm_num : (9:ℚ)/10 ≤ 1), (by norm_num : (1:ℚ) ≤ 2)⟩,
    zeroStream_valid, by unfold Ranges; decide, by decide⟩,
   C3_clamped_ranges.1 freshU (Reachable.init Difficulty.Beginner
     defaultConstants 2.725 0),
   (C3_clamped_ranges.2 constOps (difficultyOptions Difficulty.Beginner) sC3
     (fun x h1 h2 => ⟨(by norm_num : (9:ℚ)/10 ≤ 1), (by norm_num : (1:ℚ) ≤ 2)⟩)
     zeroStream_valid (by unfold Ranges; decide) (by decide)).1⟩

/-! ## Determinism up to ambient randomness (C1) -/

/-- Two anomalies with the same erased form agree on everything except the
ambient-random id suffix. -/
theorem eraseId_proj {a b : Anomaly} (h : Anomaly.eraseId a = Anomaly.eraseId b) :
    a.idClock = b.idClock ∧ a.type = b.type ∧ a.category = b.category ∧
    a.severity = b.severity ∧ a.timestamp = b.timestamp ∧
    a.resolved = b.resolved ∧ a.resolvedAt = b.resolvedAt ∧
    a.effectsRaw = b.effectsRaw ∧ a.locX = b.locX ∧ a.locY = b.locY ∧
    a.locZ = b.locZ ∧ a.radius = b.radius ∧ a.description = b.description ∧
    a.decayRate = b.decayRate := by
  have g1 := congrArg Anomaly.idClock h
  have g2 := congrArg Anomaly.type h
  have g3 := congrArg Anomaly.category h
  have g4 := congrArg Anomaly.severity h
  have g5 := congrArg Anomaly.timestamp h
  have g6 := congrArg Anomaly.resolved h
  have g7 := congrArg Anomaly.resolvedAt h
  have g8 := congrArg Anomaly.effectsRaw h
  have g9 := congrArg Anomaly.locX h
  have g10 := congrArg Anomaly.locY h
  have g11 := congrArg Anomaly.locZ h
  have g12 := congrArg Anomaly.radius h
  have g13 := congrArg Anomaly.description h
  have g14 := congrArg Anomaly.decayRate h
  exact ⟨g1, g2, g3, g4, g5, g6, g7, g8, g9, g10, g11, g12, g13, g14⟩

/-- Erasure commutes with the decay update. -/
theorem eraseId_congr_severity {a b : Anomaly}
    (h : Anomaly.eraseId a = Anomaly.eraseId b) (v w : ℚ) (hvw : v = w) :
    Anomaly.eraseId { a with severity := v } =
      Anomaly.eraseId { b with severity := w } := by
  subst hvw
  cases a
  cases b
  simp_all [Anomaly.eraseId]

/-- Two universes with the same erased form agree on everything except the
anomalies' ambient-random id suffixes. -/
theorem eraseIds_proj {u1 u2 : Universe} (h : u1.eraseIds = u2.eraseIds) :
    u1.anomalies.map Anomaly.eraseId = u2.anomalies.map Anomaly.eraseId ∧
    u1.currentState = u2.currentState ∧ u1.constants = u2.constants ∧
    u1.difficulty = u2.difficulty ∧
    u1.initialTemperature = u2.initialTemperature ∧
    u1.milestones = u2.milestones ∧
    u1.significantEvents = u2.significantEvents ∧
    u1.civilizations = u2.civilizations ∧ u1.metrics = u2.metrics ∧
    u1.status = u2.status ∧ u1.endCondition = u2.endCondition ∧
    u1.endReason = u2.endReason ∧ u1.finalAge = u2.finalAge ∧
    u1.lastModified = u2.lastModified := by
  have g1 := congrArg Universe.anomalies h
  have g2 := congrArg Universe.currentState h
  have g3 := congrArg Universe.constants h
  have g4 := congrArg Universe.difficulty h
  have g5 := congrArg Universe.initialTemperature h
  have g6 := congrArg Universe.milestones h
  have g7 := congrArg Universe.significantEvents h
  have g8 := congrArg Universe.civilizations h
  have g9 := congrArg Universe.metrics h
  have g10 := congrArg Universe.status h
  have g11 := congrArg Universe.endCondition h
  have g12 := congrArg Universe.endReason h
  have g13 := congrArg Universe.finalAge h
  have g14 := congrArg Universe.lastModified h
  exact ⟨g1, g2, g3, g4, g5, g6, g7, g8, g9, g10, g11, g12, g13, g14⟩

/-- Rebuild universe-level erased equality from its components. -/
theorem eraseIds_build {u1 u2 : Universe}
    (ha : u1.anomalies.map Anomaly.eraseId = u2.anomalies.map Anomaly.eraseId)
    (h1 : u1.currentState = u2.currentState) (h2 : u1.constants = u2.constants)
    (h3 : u1.difficulty = u2.difficulty)
    (h4 : u1.initialTemperature = u2.initialTemperature)
    (h5 : u1.milestones = u2.milestones)
    (h6 : u1.significantEvents = u2.significantEvents)
    (h7 : u1.civilizations = u2.civilizations) (h8 : u1.metrics = u2.metrics)
    (h9 : u1.status = u2.status) (h10 : u1.endCondition = u2.endCondition)
    (h11 : u1.endReason = u2.endReason) (h12 : u1.finalAge = u2.finalAge)
    (h13 : u1.lastModified = u2.lastModified) : u1.eraseIds = u2.eraseIds := by
  cases u1
  cases u2
  simp_all [Universe.eraseIds]

/-- Two engine states with the same erased form agree on everything except
the ambient source and the anomalies' id suffixes. -/
theorem erase_proj {s1 s2 : EngineSt} (h : s1.erase = s2.erase) :
    s1.uni.eraseIds = s2.uni.eraseIds ∧ s1.physRng = s2.physRng ∧
    s1.anomRng = s2.anomRng ∧ s1.clock = s2.clock ∧
    s1.stabilityHistory = s2.stabilityHistory ∧
    s1.stepsSinceLastCull = s2.stepsSinceLastCull := by
  have g1 := congrArg EngineSt.uni h
  have g2 := congrArg EngineSt.physRng h
  have g3 := congrArg EngineSt.anomRng h
  have g4 := congrArg EngineSt.clock h
  have g5 := congrArg EngineSt.stabilityHistory h
  have g6 := congrArg EngineSt.stepsSinceLastCull h
  exact ⟨g1, g2, g3, g4, g5, g6⟩

/-- Rebuild engine-level erased equality from its components. -/
theorem erase_build {s1 s2 : EngineSt} (hu : s1.uni.eraseIds = s2.uni.eraseIds)
    (h1 : s1.physRng = s2.physRng) (h2 : s1.anomRng = s2.anomRng)
    (h3 : s1.clock = s2.clock)
    (h4 : s1.stabilityHistory = s2.stabilityHistory)
    (h5 : s1.stepsSinceLastCull = s2.stepsSinceLastCull) :
    s1.erase = s2.erase := by
  cases s1
  cases s2
  simp_all [EngineSt.erase]

/-- Erase-related anomaly lists have equal lengths. -/
theorem map_erase_length {l1 l2 : List Anomaly}
    (h : l1.map Anomaly.eraseId = l2.map Anomaly.eraseId) :
    l1.length = l2.length := by
  have := congrArg List.length h
  simpa using this

/-- The cleanup filter does not look at the ambient-random id suffix. -/
theorem cleanupFilter_pair (cutoff : ℚ) : ∀ (l1 l2 : List Anomaly),
    l1.map Anomaly.eraseId = l2.map Anomaly.eraseId →
    (l1.filter fun a =>
        if a.resolved then decide (cutoff < a.resolvedAt.getD a.timestamp)
        else true).map Anomaly.eraseId =
      (l2.filter fun a =>
        if a.resolved then decide (cutoff < a.resolvedAt.getD a.timestamp)
        else true).map Anomaly.eraseId := by
  intro l1
  induction l1 with
  | nil =>
    intro l2 h
    cases l2 with
    | nil => rfl
    | cons b t => simp at h
  | cons a t ih =>
    intro l2 h
    cases l2 with
    | nil => simp at h
    | cons b t2 =>
      simp only [List.map_cons, List.cons.injEq] at h
      rcases h with ⟨hab, ht⟩
      rcases eraseId_proj hab with ⟨-, -, -, -, htime, hres, hresAt, -⟩
      have hp : (if a.resolved then
            decide (cutoff < a.resolvedAt.getD a.timestamp) else true)
          = (if b.resolved then
            decide (cutoff < b.resolvedAt.getD b.timestamp) else true) := by
        rw [hres, hresAt, htime]
      simp only [List.filter_cons]
      rw [hp]
      by_cases hq : (if b.resolved then
          decide (cutoff < b.resolvedAt.getD b.timestamp) else true) = true
      · rw [if_pos hq, if_pos hq]
        simp only [List.map_cons, List.cons.injEq]
        exact ⟨hab, ih t2 ht⟩
      · rw [if_neg hq, if_neg hq]
        exact ih t2 ht

/-- `autoCleanup` does not look at the ambient-random id suffix. -/
theorem autoCleanup_pair (l1 l2 : List Anomaly) (clock : Rng)
    (h : l1.map Anomaly.eraseId = l2.map Anomaly.eraseId) :
    (autoCleanup l1 clock).1.map Anomaly.eraseId =
      (autoCleanup l2 clock).1.map Anomaly.eraseId ∧
    (autoCleanup l1 clock).2 = (autoCleanup l2 clock).2 := by
  have hlen := map_erase_length h
  unfold autoCleanup
  rw [hlen]
  split
  · exact ⟨cleanupFilter_pair _ l1 l2 h, rfl⟩
  · exact ⟨h, rfl⟩

/-- The unresolved count ignores the ambient-random id suffix. -/
theorem unresolvedCount_pair : ∀ (l1 l2 : List Anomaly),
    l1.map Anomaly.eraseId = l2.map Anomaly.eraseId →
    (l1.filter fun a => !a.resolved).length =
      (l2.filter fun a => !a.resolved).length := by
  intro l1
  induction l1 with
  | nil =>
    intro l2 h
    cases l2 with
    | nil => rfl
    | cons b t => simp at h
  | cons a t ih =>
    intro l2 h
    cases l2 with
    | nil => simp at h
    | cons b t2 =>
      simp only [List.map_cons, List.cons.injEq] at h
      rcases h with ⟨hab, ht⟩
      rcases eraseId_proj hab with ⟨-, -, -, -, -, hres, -⟩
      simp only [List.filter_cons]
      rw [hres]
      split
      · simp only [List.length_cons]
        rw [ih t2 ht]
      · exact ih t2 ht

/-- The anomaly factor ignores the ambient-random id suffix. -/
theorem calculateAnomalyFactor_pair (l1 l2 : List Anomaly)
    (h : l1.map Anomaly.eraseId = l2.map Anomaly.eraseId) :
    calculateAnomalyFactor l1 = calculateAnomalyFactor l2 := by
  unfold calculateAnomalyFactor
  rw [unresolvedCount_pair l1 l2 h, map_erase_length h]

/-- `_updateStability` reads anomalies only through the anomaly factor. -/
theorem updateStability_anoms_pair (ops : MathOps) (opts : EngineOptions)
    (consts : Constants) (l1 l2 : List Anomaly)
    (h : l1.map Anomaly.eraseId = l2.map Anomaly.eraseId) (st : PhysSt) :
    updateStability ops opts consts l1 st = updateStability ops opts consts l2 st := by
  unfold updateStability
  rw [calculateAnomalyFactor_pair l1 l2 h]

/-- The physics step reads anomalies only through the anomaly factor. -/
theorem simulateStep_anoms_pair (ops : MathOps) (opts : EngineOptions)
    (consts : Constants) (T0 : ℚ) (l1 l2 : List Anomaly)
    (h : l1.map Anomaly.eraseId = l2.map Anomaly.eraseId) (st : PhysSt) :
    simulateStep ops opts consts T0 l1 st = simulateStep ops opts consts T0 l2 st := by
  unfold simulateStep
  simp only []
  rw [updateStability_anoms_pair ops opts consts l1 l2 h]

/-- One decay step ignores the ambient-random id suffix. -/
theorem decayStep_pair (rng : Rng) (si : ℚ) {a b : Anomaly}
    (h : Anomaly.eraseId a = Anomaly.eraseId b) :
    Anomaly.eraseId (decayStep rng si a).1 =
      Anomaly.eraseId (decayStep rng si b).1 ∧
    (decayStep rng si a).2 = (decayStep rng si b).2 := by
  rcases eraseId_proj h with ⟨-, -, -, hsev, -, hres, -, -, -, -, -, -, -, hdecay⟩
  unfold decayStep
  by_cases h1 : b.resolved = false ∧ b.decayRate ≠ 0
  · rw [if_pos h1, if_pos (show a.resolved = false ∧ a.decayRate ≠ 0 by
      rw [hres, hdecay]; exact h1)]
    by_cases h2 : rng.next.1 < b.decayRate ∧ 1 < b.severity
    · rw [if_pos h2, if_pos (show rng.next.1 < a.decayRate ∧ 1 < a.severity by
        rw [hdecay, hsev]; exact h2)]
      exact ⟨eraseId_congr_severity h _ _ (by rw [hsev]), rfl⟩
    · rw [if_neg h2, if_neg (show ¬(rng.next.1 < a.decayRate ∧ 1 < a.severity) by
        rw [hdecay, hsev]; exact h2)]
      exact ⟨h, rfl⟩
  · rw [if_neg h1, if_neg (show ¬(a.resolved = false ∧ a.decayRate ≠ 0) by
      rw [hres, hdecay]; exact h1)]
    exact ⟨h, rfl⟩

/-- The decay pass ignores the ambient-random id suffix. -/
theorem decayList_pair : ∀ (l1 l2 : List Anomaly) (rng : Rng) (si : ℚ),
    l1.map Anomaly.eraseId = l2.map Anomaly.eraseId →
    (decayUnresolvedAnomalies rng si l1).1.map Anomaly.eraseId =
      (decayUnresolvedAnomalies rng si l2).1.map Anomaly.eraseId ∧
    (decayUnresolvedAnomalies rng si l1).2 =
      (decayUnresolvedAnomalies rng si l2).2 := by
  intro l1
  induction l1 with
  | nil =>
    intro l2 rng si h
    cases l2 with
    | nil => exact ⟨rfl, rfl⟩
    | cons b t => simp at h
  | cons a t ih =>
    intro l2 rng si h
    cases l2 with
    | nil => simp at h
    | cons b t2 =>
      simp only [List.map_cons, List.cons.injEq] at h
      rcases h with ⟨hab, ht⟩
      rw [decayUnresolvedAnomalies, decayUnresolvedAnomalies]
      simp only []
      rcases decayStep_pair rng si hab with ⟨h1, h2⟩
      have h21 := congrArg Prod.fst h2
      have h22 := congrArg Prod.snd h2
      rcases ih t2 (decayStep rng si b).2.2 (decayStep rng si b).2.1 ht with ⟨h3, h4⟩
      constructor
      · simp only [List.map_cons, List.cons.injEq]
        refine ⟨h1, ?_⟩
        rw [h21, h22]
        exact h3
      · rw [h21, h22]
        exact h4

/-- A spawn from the same anomaly and clock streams yields the same anomaly up
to the ambient-random id suffix, and the same stream cursors. -/
theorem spawnAnomaly_pair (ops : MathOps) (opts : AnomalyOptions)
    (d : AnomalyTypeDef) (c1 c2 : List Anomaly) (anomRng clock amb1 amb2 : Rng)
    (hc : c1.map Anomaly.eraseId = c2.map Anomaly.eraseId) :
    (spawnAnomaly ops opts d c1 anomRng clock amb1).created.map Anomaly.eraseId =
      (spawnAnomaly ops opts d c2 anomRng clock amb2).created.map Anomaly.eraseId ∧
    (spawnAnomaly ops opts d c1 anomRng clock amb1).anomRng =
      (spawnAnomaly ops opts d c2 anomRng clock amb2).anomRng ∧
    (spawnAnomaly ops opts d c1 anomRng clock amb1).clock =
      (spawnAnomaly ops opts d c2 anomRng clock amb2).clock := by
  refine ⟨?_, rfl, rfl⟩
  unfold spawnAnomaly
  simp only []
  rw [List.map_append, List.map_append, hc]
  simp only [List.map_cons, List.map_nil, List.cons.injEq, and_true]
  rfl

/-- The generation loop over the type table is insensitive to the ambient
stream except through the created anomalies' id suffixes. -/
theorem genLoop_pair (ops : MathOps) (opts : AnomalyOptions) (cs : CurrentState)
    (ageGyr baseProb : ℚ) (cap : ℤ) :
    ∀ (defs : List AnomalyTypeDef) (st1 st2 : GenState),
      st1.created.map Anomaly.eraseId = st2.created.map Anomaly.eraseId →
      st1.anomRng = st2.anomRng → st1.clock = st2.clock →
      (genLoop ops opts cs ageGyr baseProb cap defs st1).created.map Anomaly.eraseId =
        (genLoop ops opts cs ageGyr baseProb cap defs st2).created.map Anomaly.eraseId ∧
      (genLoop ops opts cs ageGyr baseProb cap defs st1).anomRng =
        (genLoop ops opts cs ageGyr baseProb cap defs st2).anomRng ∧
      (genLoop ops opts cs ageGyr baseProb cap defs st1).clock =
        (genLoop ops opts cs ageGyr baseProb cap defs st2).clock := by
  intro defs
  induction defs with
  | nil =>
    intro st1 st2 hc hr hk
    exact ⟨hc, hr, hk⟩
  | cons d rest ih =>
    intro st1 st2 hc hr hk
    rw [genLoop, genLoop]
    simp only []
    rw [hr, hk]
    split
    · split
      · have hspawn := spawnAnomaly_pair ops opts d st1.created st2.created
          st2.anomRng.next.2 st2.clock st1.ambRand st2.ambRand hc
        have hslen := map_erase_length hspawn.1
        rw [hslen]
        split
        · exact hspawn
        · exact ih _ _ hspawn.1 hspawn.2.1 hspawn.2.2
      · exact ih _ _ hc rfl rfl
    · exact ih _ _ hc hr hk

/-- `generateAnomalies()` is insensitive to the ambient stream except through
the created anomalies' id suffixes. -/
theorem generateAnomalies_pair (ops : MathOps) (opts : AnomalyOptions)
    (u1 u2 : Universe) (anomRng clock amb1 amb2 : Rng)
    (hu : u1.eraseIds = u2.eraseIds) :
    (generateAnomalies ops opts u1 anomRng clock amb1).anoms.map Anomaly.eraseId =
      (generateAnomalies ops opts u2 anomRng clock amb2).anoms.map Anomaly.eraseId ∧
    (generateAnomalies ops opts u1 anomRng clock amb1).created.map Anomaly.eraseId =
      (generateAnomalies ops opts u2 anomRng clock amb2).created.map Anomaly.eraseId ∧
    (generateAnomalies ops opts u1 anomRng clock amb1).anomRng =
      (generateAnomalies ops opts u2 anomRng clock amb2).anomRng ∧
    (generateAnomalies ops opts u1 anomRng clock amb1).clock =
      (generateAnomalies ops opts u2 anomRng clock amb2).clock := by
  rcases eraseIds_proj hu with ⟨ha, hcs, hconsts, -⟩
  rcases autoCleanup_pair u1.anomalies u2.anomalies clock ha with ⟨hc1, hc2⟩
  have hlen := map_erase_length hc1
  unfold generateAnomalies
  simp only []
  rw [hcs, hconsts, hlen, hc2]
  split
  · exact ⟨hc1, rfl, rfl, rfl⟩
  · have hg := genLoop_pair ops opts u2.currentState (u2.currentState.age / 1e9)
      (opts.anomalyProbabilityScale *
        min 1 (u2.currentState.galaxyCount / max 1 u2.constants.observableGalaxies))
      (max 1 ⌊opts.maxAnomalyPerStep⌋) getAnomalyTypes
      { created := [], anomRng := anomRng,
        clock := (autoCleanup u2.anomalies clock).2, ambRand := amb1 }
      { created := [], anomRng := anomRng,
        clock := (autoCleanup u2.anomalies clock).2, ambRand := amb2 }
      rfl rfl rfl
    exact ⟨hc1, hg.1, hg.2.1, hg.2.2⟩

/-- The per-created-anomaly effect/event loop preserves erased equality:
its reads (effects, type, description, event count, clock) never touch the
ambient-random id suffix. -/
theorem applyCreated_pair : ∀ (c1 c2 : List Anomaly) (s1 s2 : EngineSt),
    c1.map Anomaly.eraseId = c2.map Anomaly.eraseId →
    s1.erase = s2.erase →
    (applyCreated c1 s1).erase = (applyCreated c2 s2).erase := by
  intro c1
  induction c1 with
  | nil =>
    intro c2 s1 s2 hc hs
    cases c2 with
    | nil => exact hs
    | cons b t2 => simp at hc
  | cons a t ih =>
    intro c2 s1 s2 hc hs
    cases c2 with
    | nil => simp at hc
    | cons b t2 =>
      simp only [List.map_cons, List.cons.injEq] at hc
      rcases hc with ⟨hab, ht⟩
      rw [applyCreated, applyCreated]
      dsimp only []
      refine ih t2 _ _ ht ?_
      rcases erase_proj hs with ⟨hu, hpr, har, hck, hsh, hsc⟩
      rcases eraseIds_proj hu with
        ⟨ha, hcs, hconsts, hdiff, htemp, hmile, hevs, hcivs, hmet, hstat,
         hendc, hendr, hfin, hlast⟩
      rcases eraseId_proj hab with
        ⟨-, htyp, -, -, -, -, -, heff, -, -, -, -, hdesc, -⟩
      have hcs' : applyAnomalyEffects a.effectsRaw s1.uni.currentState =
          applyAnomalyEffects b.effectsRaw s2.uni.currentState := by
        rw [heff, hcs]
      by_cases hq : s2.uni.significantEvents.length < 2000
      · rw [if_pos hq, if_pos (show s1.uni.significantEvents.length < 2000 by
          rw [hevs]; exact hq)]
        refine erase_build
          (eraseIds_build ha hcs' hconsts hdiff htemp hmile ?_ hcivs hmet hstat
            hendc hendr hfin hlast) hpr har ?_ hsh hsc
        · dsimp only []
          rw [hevs, hck, hcs', heff, htyp, hdesc]
        · dsimp only []
          rw [hck]
      · rw [if_neg hq, if_neg (show ¬s1.uni.significantEvents.length < 2000 by
          rw [hevs]; exact hq)]
        exact erase_build
          (eraseIds_build ha hcs' hconsts hdiff htemp hmile hevs hcivs hmet
            hstat hendc hendr hfin hlast) hpr har hck hsh hsc

/-- The physics sub-phase preserves erased equality: `simulateStep` reads the
anomaly list only through the anomaly factor. -/
theorem tickPhysics_pair (ops : MathOps) (d : DiffOpts) (s1 s2 : EngineSt)
    (h : s1.erase = s2.erase) :
    (tickPhysics ops d s1).erase = (tickPhysics ops d s2).erase := by
  rcases erase_proj h with ⟨hu, hpr, har, hck, hsh, hsc⟩
  rcases eraseIds_proj hu with
    ⟨ha, hcs, hconsts, hdiff, htemp, hmile, hevs, hcivs, hmet, hstat,
     hendc, hendr, hfin, hlast⟩
  have hview : s1.physView = s2.physView := by
    unfold EngineSt.physView
    rw [hcs, hmile, hevs, hcivs, hmet, hpr, hck, hsc, hsh, hlast]
  have hsim : simulateStep ops (mkEngineOptions d) s1.uni.constants
      s1.uni.initialTemperature s1.uni.anomalies s1.physView =
      simulateStep ops (mkEngineOptions d) s2.uni.constants
      s2.uni.initialTemperature s2.uni.anomalies s2.physView := by
    rw [hview, hconsts, htemp]
    exact simulateStep_anoms_pair ops (mkEngineOptions d) s2.uni.constants
      s2.uni.initialTemperature s1.uni.anomalies s2.uni.anomalies ha s2.physView
  unfold tickPhysics EngineSt.absorbPhys
  refine erase_build
    (eraseIds_build ha ?_ hconsts hdiff htemp ?_ ?_ ?_ ?_ hstat hendc hendr
      hfin ?_) ?_ har ?_ ?_ ?_
  all_goals dsimp only []
  all_goals rw [hsim]

/-- The generation sub-phase preserves erased equality and creates the same
anomalies up to id suffixes. -/
theorem tickGenerate_pair (ops : MathOps) (d : DiffOpts) (s1 s2 : EngineSt)
    (h : s1.erase = s2.erase) :
    (tickGenerate ops d s1).1.erase = (tickGenerate ops d s2).1.erase ∧
    (tickGenerate ops d s1).2.map Anomaly.eraseId =
      (tickGenerate ops d s2).2.map Anomaly.eraseId := by
  rcases erase_proj h with ⟨hu, hpr, har, hck, hsh, hsc⟩
  rcases eraseIds_proj hu with
    ⟨ha, hcs, hconsts, hdiff, htemp, hmile, hevs, hcivs, hmet, hstat,
     hendc, hendr, hfin, hlast⟩
  have hg := generateAnomalies_pair ops (mkAnomalyOptions d) s1.uni s2.uni
    s2.anomRng s2.clock s1.ambRand s2.ambRand hu
  unfold tickGenerate
  simp only []
  rw [har, hck]
  constructor
  · refine erase_build
      (eraseIds_build ?_ hcs hconsts hdiff htemp hmile hevs hcivs hmet hstat
        hendc hendr hfin hlast) hpr ?_ ?_ hsh hsc
    · dsimp only []
      exact hg.1
    · dsimp only []
      exact hg.2.2.1
    · dsimp only []
      exact hg.2.2.2
  · exact hg.2.1

/-- The effect-application sub-phase preserves erased equality. -/
theorem tickApplyEffects_pair (c1 c2 : List Anomaly) (s1 s2 : EngineSt)
    (hc : c1.map Anomaly.eraseId = c2.map Anomaly.eraseId)
    (hs : s1.erase = s2.erase) :
    (tickApplyEffects c1 s1).erase = (tickApplyEffects c2 s2).erase := by
  have hap := applyCreated_pair c1 c2 s1 s2 hc hs
  rcases erase_proj hap with ⟨hu, hpr, har, hck, hsh, hsc⟩
  rcases eraseIds_proj hu with
    ⟨ha, hcs, hconsts, hdiff, htemp, hmile, hevs, hcivs, hmet, hstat,
     hendc, hendr, hfin, hlast⟩
  unfold tickApplyEffects
  simp only []
  refine erase_build
    (eraseIds_build ?_ hcs hconsts hdiff htemp hmile hevs hcivs hmet hstat
      hendc hendr hfin hlast) hpr har hck hsh hsc
  dsimp only []
  rw [List.map_append, List.map_append, ha, hc]

/-- The decay sub-phase preserves erased equality. -/
theorem tickDecay_pair (s1 s2 : EngineSt) (h : s1.erase = s2.erase) :
    (tickDecay s1).erase = (tickDecay s2).erase := by
  rcases erase_proj h with ⟨hu, hpr, har, hck, hsh, hsc⟩
  rcases eraseIds_proj hu with
    ⟨ha, hcs, hconsts, hdiff, htemp, hmile, hevs, hcivs, hmet, hstat,
     hendc, hendr, hfin, hlast⟩
  have hd := decayList_pair s1.uni.anomalies s2.uni.anomalies s2.anomRng
    s2.uni.currentState.stabilityIndex ha
  unfold tickDecay
  simp only []
  rw [har, hcs]
  refine erase_build
    (eraseIds_build ?_ ?_ hconsts hdiff htemp hmile hevs hcivs hmet hstat
      hendc hendr hfin hlast) hpr ?_ hck hsh hsc
  · dsimp only []
    exact hd.1
  · dsimp only []
    rw [congrArg Prod.fst hd.2]
  · dsimp only []
    rw [congrArg Prod.snd hd.2]

/-- The stability sub-phase preserves erased equality. -/
theorem tickStability_pair (ops : MathOps) (d : DiffOpts) (s1 s2 : EngineSt)
    (h : s1.erase = s2.erase) :
    (tickStability ops d s1).erase = (tickStability ops d s2).erase := by
  rcases erase_proj h with ⟨hu, hpr, har, hck, hsh, hsc⟩
  rcases eraseIds_proj hu with
    ⟨ha, hcs, hconsts, hdiff, htemp, hmile, hevs, hcivs, hmet, hstat,
     hendc, hendr, hfin, hlast⟩
  have hview : s1.physView = s2.physView := by
    unfold EngineSt.physView
    rw [hcs, hmile, hevs, hcivs, hmet, hpr, hck, hsc, hsh, hlast]
  have hsim : updateStability ops (mkEngineOptions d) s1.uni.constants
      s1.uni.anomalies s1.physView =
      updateStability ops (mkEngineOptions d) s2.uni.constants
      s2.uni.anomalies s2.physView := by
    rw [hview, hconsts]
    exact updateStability_anoms_pair ops (mkEngineOptions d) s2.uni.constants
      s1.uni.anomalies s2.uni.anomalies ha s2.physView
  unfold tickStability EngineSt.absorbPhys
  refine erase_build
    (eraseIds_build ha ?_ hconsts hdiff htemp ?_ ?_ ?_ ?_ hstat hendc hendr
      hfin ?_) ?_ har ?_ ?_ ?_
  all_goals dsimp only []
  all_goals rw [hsim]

/-- The end-condition check reads nothing but erase-invariant data. -/
theorem checkEndConditions_pair (m : ℚ) (hist : List ℚ) (u1 u2 : Universe)
    (hu : u1.eraseIds = u2.eraseIds) :
    (checkEndConditions m hist u1).1.eraseIds =
      (checkEndConditions m hist u2).1.eraseIds ∧
    (checkEndConditions m hist u1).2 = (checkEndConditions m hist u2).2 := by
  rcases eraseIds_proj hu with
    ⟨ha, hcs, hconsts, hdiff, htemp, hmile, hevs, hcivs, hmet, hstat,
     hendc, hendr, hfin, hlast⟩
  unfold checkEndConditions
  simp only []
  rw [hcs]
  split_ifs
  all_goals refine ⟨?_, rfl⟩
  all_goals first
    | exact hu
    | (unfold endUniverse
       exact eraseIds_build ha hcs hconsts hdiff htemp hmile hevs hcivs hmet
         rfl rfl rfl rfl hlast)

/-- The end-check sub-phase preserves erased equality and yields the same
`hasEnded` flag. -/
theorem tickEndCheck_pair (d : DiffOpts) (s1 s2 : EngineSt)
    (h : s1.erase = s2.erase) :
    (tickEndCheck d s1).1.erase = (tickEndCheck d s2).1.erase ∧
    (tickEndCheck d s1).2 = (tickEndCheck d s2).2 := by
  rcases erase_proj h with ⟨hu, hpr, har, hck, hsh, hsc⟩
  have hec : (checkEndConditions d.difficultyModifier s1.stabilityHistory
        s1.uni).1.eraseIds =
      (checkEndConditions d.difficultyModifier s2.stabilityHistory
        s2.uni).1.eraseIds ∧
      (checkEndConditions d.difficultyModifier s1.stabilityHistory s1.uni).2 =
      (checkEndConditions d.difficultyModifier s2.stabilityHistory s2.uni).2 := by
    rw [hsh]
    exact checkEndConditions_pair d.difficultyModifier s2.stabilityHistory
      s1.uni s2.uni hu
  rcases eraseIds_proj hec.1 with
    ⟨ha', hcs', hconsts', hdiff', htemp', hmile', hevs', hcivs', hmet', hstat',
     hendc', hendr', hfin', hlast'⟩
  unfold tickEndCheck
  simp only []
  rw [hec.2]
  split
  · refine ⟨?_, rfl⟩
    refine erase_build
      (eraseIds_build ha' hcs' hconsts' hdiff' htemp' hmile' ?_ hcivs' hmet'
        hstat' hendc' hendr' hfin' hlast') hpr har ?_ hsh hsc
    · dsimp only []
      rw [hevs', hck, hcs', hendr']
    · dsimp only []
      rw [hck]
  · exact ⟨erase_build
      (eraseIds_build ha' hcs' hconsts' hdiff' htemp' hmile' hevs' hcivs'
        hmet' hstat' hendc' hendr' hfin' hlast') hpr har hck hsh hsc, rfl⟩

/-- One orchestrator tick preserves erased equality and the end flag. -/
theorem orchTick_pair (ops : MathOps) (d : DiffOpts) (s1 s2 : EngineSt)
    (h : s1.erase = s2.erase) :
    (orchTick ops d s1).1.erase = (orchTick ops d s2).1.erase ∧
    (orchTick ops d s1).2 = (orchTick ops d s2).2 := by
  have h1 := tickPhysics_pair ops d s1 s2 h
  have h2 := tickGenerate_pair ops d _ _ h1
  have h3 := tickApplyEffects_pair _ _ _ _ h2.2 h2.1
  have h4 := tickDecay_pair _ _ h3
  have h5 := tickStability_pair ops d _ _ h4
  exact tickEndCheck_pair d _ _ h5

/-- The simulation loop preserves erased equality and runs the same number of
ticks. -/
theorem orchLoop_pair (ops : MathOps) (d : DiffOpts) :
    ∀ (n : ℕ) (s1 s2 : EngineSt), s1.erase = s2.erase →
      (orchLoop ops d n s1).1.erase = (orchLoop ops d n s2).1.erase ∧
      (orchLoop ops d n s1).2 = (orchLoop ops d n s2).2 := by
  intro n
  induction n with
  | zero =>
    intro s1 s2 h
    exact ⟨h, rfl⟩
  | succ n ih =>
    intro s1 s2 h
    rw [orchLoop, orchLoop]
    simp only []
    have ht := orchTick_pair ops d s1 s2 h
    rw [ht.2]
    split
    · exact ⟨ht.1, rfl⟩
    · have hr := ih _ _ ht.1
      exact ⟨hr.1, by rw [hr.2]⟩

/-- C1 (amended): with the wall-clock (`Date.now()`) stream made part of the
replayed inputs, two runs of `POST /:id/simulate` that share the seeded
physics and anomaly streams, the clock stream, the request and the stored
universe — but draw from two arbitrary ambient `Math.random()` sources —
produce bit-identical `currentState`, the same event sequence, the same
anomaly sequence up to the ambient-random id suffixes, the same tick count
and the same HTTP status. The ambient source reaches nothing but the
generated ids. -/
theorem C1_ambient_randomness_only_ids (ops : MathOps)
    (physStream anomStream clockStream amb1 amb2 : ℕ → ℚ) (requested : ℚ)
    (u : Universe) :
    (simulateRoute ops physStream anomStream clockStream amb1 requested
        u).uni.currentState =
      (simulateRoute ops physStream anomStream clockStream amb2 requested
        u).uni.currentState ∧
    (simulateRoute ops physStream anomStream clockStream amb1 requested
        u).uni.significantEvents =
      (simulateRoute ops physStream anomStream clockStream amb2 requested
        u).uni.significantEvents ∧
    (simulateRoute ops physStream anomStream clockStream amb1 requested
        u).uni.anomalies.map Anomaly.eraseId =
      (simulateRoute ops physStream anomStream clockStream amb2 requested
        u).uni.anomalies.map Anomaly.eraseId ∧
    (simulateRoute ops physStream anomStream clockStream amb1 requested
        u).ticksRun =
      (simulateRoute ops physStream anomStream clockStream amb2 requested
        u).ticksRun ∧
    (simulateRoute ops physStream anomStream clockStream amb1 requested
        u).httpStatus =
      (simulateRoute ops physStream anomStream clockStream amb2 requested
        u).httpStatus := by
  unfold simulateRoute
  simp only []
  split
  · exact ⟨rfl, rfl, rfl, rfl, rfl⟩
  · have hl := orchLoop_pair ops (difficultyOptions u.difficulty)
      (computeSteps requested)
      { uni := { u with constants := { u.constants with observableGalaxies :=
          2e11 * (difficultyOptions u.difficulty).observableGalaxiesMultiplier } },
        physRng := ⟨physStream, 0⟩, anomRng := ⟨anomStream, 0⟩,
        clock := ⟨clockStream, 0⟩, ambRand := ⟨amb1, 0⟩,
        stabilityHistory := [], stepsSinceLastCull := 0 }
      { uni := { u with constants := { u.constants with observableGalaxies :=
          2e11 * (difficultyOptions u.difficulty).observableGalaxiesMultiplier } },
        physRng := ⟨physStream, 0⟩, anomRng := ⟨anomStream, 0⟩,
        clock := ⟨clockStream, 0⟩, ambRand := ⟨amb2, 0⟩,
        stabilityHistory := [], stepsSinceLastCull := 0 }
      rfl
    rcases erase_proj hl.1 with ⟨hu, -, -, -, -, -⟩
    rcases eraseIds_proj hu with ⟨ha, hcs, -, -, -, -, hevs, -⟩
    exact ⟨hcs, hevs, ha, hl.2, rfl⟩

/-- C1 (counterexample to the unqualified claim): the route also reads the
ambient wall clock (`Date.now()` inside `autoCleanup` and the id factory),
which is not part of the seeded streams. Replaying the same seeds and the
same stored universe at a wall-clock reading five minutes later changes the
persisted anomaly list itself (the resolved-anomaly cleanup fires), not just
the id suffixes: with 200 resolved anomalies stored, a run at clock 0 keeps
all 200 while a run at clock 10^6 purges them. -/
theorem C1_wall_clock_divergence :
    (simulateRoute constOps zeroStream zeroStream zeroStream zeroStream 1
        uC1).uni.anomalies.length ≠
      (simulateRoute constOps zeroStream zeroStream clockC1 zeroStream 1
        uC1).uni.anomalies.length := by
  decide

end EternaVerse
